import Mathlib

/-!
# CESS sdk-go: transaction lifecycle engine

A shallow embedding of the submission operations of `chain/fileBank.go` and
`chain/role.go`, of the connection management of `chain/chain.go` and of the
erasure coding of `core/erasure/rs.go`.  Every submission operation of the Go
code is a function of

* the constants of the `pattern` package it refers to (`Pattern`),
* the answers of the chain-client library and of the helper functions that
  live outside these files (`Env`),
* the explicit SDK state it reads and writes (`St`: the liveness flag and the
  ordered log of the external calls performed so far), and
* the ordered list of signals the `select` statement of its confirmation wait
  receives (`Signal`).

Go strings and byte slices whose length matters are lists of bytes.
-/

namespace Cess

/-! ## Errors -/

/-- Go `error` values.  The three package-level error values of `pattern`
are objects of their own; `new` is `errors.New` / `fmt.Errorf`, `wrap` is
`errors.Wrap(cause, msg)` of `github.com/pkg/errors`. -/
inductive Err where
  | ERR_RPC_CONNECTION
  | ERR_RPC_TIMEOUT
  | ERR_RPC_EMPTY_VALUE
  | new (msg : String)
  | wrap (cause : Err) (msg : String)
  deriving DecidableEq, Repr

/-- The error a wrapped error was built from (`Unwrap`); `none` for an error
that wraps nothing. -/
def Err.unwrap : Err → Option Err
  | .wrap cause _ => some cause
  | _ => none

/-! ## Constants of the `pattern` and `rule` packages -/

/-- Constants the code refers to and whose declarations are outside the
files embedded here. -/
structure Pattern where
  ERR_Failed : String
  ERR_Empty : String
  /-- The text `Error()` yields for `ERR_RPC_CONNECTION`. -/
  msg_RPC_CONNECTION : String
  /-- The text `Error()` yields for `ERR_RPC_TIMEOUT`. -/
  msg_RPC_TIMEOUT : String
  /-- The text `Error()` yields for `ERR_RPC_EMPTY_VALUE`. -/
  msg_RPC_EMPTY_VALUE : String
  Role_OSS : String
  Role_DEOSS : String
  Role_BUCKET : String
  /-- The value of `len(pattern.FileHash{})`. -/
  FileHashLen : Nat
  /-- The value of `len(pattern.PeerId{})`. -/
  PeerIdLen : Nat
  TokenPrecision_CESS : String
  MaxSubmitedIdleFileMeta : Nat

/-- The text of an error (`err.Error()`); `errors.Wrap` prefixes the message
to the text of the cause. -/
def Err.Error (P : Pattern) : Err → String
  | .ERR_RPC_CONNECTION => P.msg_RPC_CONNECTION
  | .ERR_RPC_TIMEOUT => P.msg_RPC_TIMEOUT
  | .ERR_RPC_EMPTY_VALUE => P.msg_RPC_EMPTY_VALUE
  | .new msg => msg
  | .wrap cause msg => msg ++ ": " ++ Err.Error P cause

/-- The transaction names `pattern.TX_...` used by the embedded files. -/
inductive Tx where
  | TX_FILEBANK_UPLOADFILLER
  | TX_FILEBANK_PUTBUCKET
  | TX_FILEBANK_DELBUCKET
  | TX_FILEBANK_UPLOADDEC
  | TX_FILEBANK_DELFILE
  | TX_FILEBANK_FILEREPORT
  | TX_FILEBANK_REPLACEFILE
  | TX_FILEBANK_MINEREXITPREP
  | TX_OSS_REGISTER
  | TX_OSS_UPDATE
  | TX_OSS_DESTORY
  | TX_SMINER_REGISTER
  | TX_SMINER_UPDATEPEERID
  deriving DecidableEq, Repr

/-! ## Data -/

/-- A byte slice / Go string as the list of its bytes. -/
abbrev Bytes := List Nat

/-- A `pattern.FileHash`: a fixed-length array of `U8`. -/
abbrev FileHash := List Nat

/-- A `types.Hash` (block hash). -/
abbrev Hash := List Nat

/-- A `pattern.IdleMetadata` element of the `upload_filler` call. -/
structure IdleMetadata where
  Size : Nat
  BlockNum : Nat
  BlockSize : Nat
  ScanSize : Nat
  Acc : Bytes
  Hash : FileHash
  deriving DecidableEq, Repr

/-- The typed arguments handed to `types.NewCall`. -/
inductive Arg where
  | accountID (a : Bytes)
  | bytes (b : Bytes)
  | fileHash (h : FileHash)
  | fileHashes (hs : List FileHash)
  | peerId (p : Bytes)
  | u128 (n : Int)
  | idleFiles (l : List IdleMetadata)
  | dealinfo (d : Nat)
  | user (u : Nat)
  deriving DecidableEq, Repr

/-- The storage items whose keys the code builds (`pattern.SYSTEM` /
`pattern.ACCOUNT`, `pattern.FILEBANK` / `pattern.FILE`, `pattern.FILEBANK` /
`pattern.DEALMAP`). -/
inductive Storage where
  | SYSTEM_ACCOUNT
  | FILEBANK_FILE
  | FILEBANK_DEALMAP
  deriving DecidableEq, Repr

/-- A `types.Call` as built by `types.NewCall`. -/
structure Call where
  tx : Tx
  args : List Arg
  deriving DecidableEq, Repr

/-- A `types.ExtrinsicStatus` notification, as far as the code reads it. -/
structure Status where
  IsInBlock : Bool
  AsInBlock : Hash
  deriving DecidableEq, Repr

/-- What one round of the `select` statement receives.  The value received
on `sub.Err()` is an `error`: `none` is the nil value the channel delivers when
the client has been closed without another error. -/
inductive Signal where
  | status (s : Status)
  | err (e : Option Err)
  | timeout
  deriving DecidableEq, Repr

/-- Event `FileBank_DeleteFile`, as far as the code reads it. -/
structure Event_DeleteFile where
  Filehash : List FileHash
  deriving DecidableEq, Repr

/-- Event `FileBank_TransferReport`, as far as the code reads it. -/
structure Event_TransferReport where
  Failed_list : List FileHash
  deriving DecidableEq, Repr

/-- Event `FileBank_ReplaceFiller`, as far as the code reads it. -/
structure Event_ReplaceFiller where
  Filler_list : List FileHash
  deriving DecidableEq, Repr

/-- The fields of `event.EventRecords` the code reads.  Events whose content
is never read are kept as their number of occurrences would be: a list of
units. -/
structure EventRecords where
  FileBank_CreateBucket : List Unit := []
  FileBank_DeleteBucket : List Unit := []
  FileBank_UploadDeclaration : List Unit := []
  FileBank_DeleteFile : List Event_DeleteFile := []
  FileBank_TransferReport : List Event_TransferReport := []
  FileBank_ReplaceFiller : List Event_ReplaceFiller := []
  Oss_OssRegister : List Unit := []
  Oss_OssUpdate : List Unit := []
  Oss_OssDestroy : List Unit := []
  Sminer_Registered : List Unit := []
  Sminer_UpdataIp : List Unit := []
  Sminer_MinerExitPrep : List Unit := []
  deriving DecidableEq, Repr

/-- A `pattern.MinerInfo`, as far as `Register` reads it. -/
structure MinerInfo where
  PeerId : Bytes
  BeneficiaryAcc : Bytes
  deriving DecidableEq, Repr

/-! ## External calls and state -/

/-- The external calls an operation performs, in the order of the log. -/
inductive Action where
  | NewAccountID (b : Bytes)
  | Encode (b : Bytes)
  | NewCall (tx : Tx) (args : List Arg)
  | CreateStorageKey (item : Storage) (arg : Bytes)
  | GetStorageLatest (item : Storage) (arg : Bytes)
  | Sign (call : Call) (nonce : Nat)
  | SubmitAndWatchExtrinsic (call : Call)
  | Recv (s : Signal)
  | GetStorageRaw (block : Hash)
  | DecodeEventRecords
  | Unsubscribe
  | TimerStop
  | QueryDeossPeerPublickey
  | QueryStorageMiner
  | ParsingPublickey (s : String)
  | SetChainState (state : Bool)
  | updateEarningsAcc (puk : Bytes)
  deriving DecidableEq, Repr

/-- The explicit state of a `ChainSDK`: the liveness flag `chainState` and
the log of external calls, oldest first. -/
structure St where
  chainState : Bool
  trace : List Action
  deriving DecidableEq, Repr

/-- Appending one external call to the log. -/
def St.log (s : St) (a : Action) : St :=
  { s with trace := s.trace ++ [a] }

/-- The answers of everything outside the embedded files: the chain-client
library (`types`, `codec`, `api.RPC`), the `utils` helpers and the methods of
`ChainSDK` declared in other files. -/
structure Env where
  /-- The public key of `c.keyring`. -/
  PublicKey : Bytes
  NewAccountID : Bytes → Except Err Bytes
  Encode : Bytes → Option Err
  NewCall : Tx → List Arg → Option Err
  CreateStorageKey : Storage → Bytes → Option Err
  /-- The result `(ok, err)` of reading a storage item, with the value read:
  the nonce of an account record, a number standing for any other record. -/
  GetStorageLatest : Storage → Bytes → Except Err (Bool × Nat)
  Sign : Call → Nat → Option Err
  /-- Whether the statements from `o := types.SignatureOptions{...}` to
  `ext.Sign(c.keyring, o)` panic: the options read `c.runtimeVersion.SpecVersion`,
  a nil dereference once a failed `Reconnect` has stored nil there, and the
  library call may panic. -/
  SignPanics : Call → Nat → Bool := fun _ _ => false
  SubmitAndWatchExtrinsic : Call → Option Err
  /-- The first result of `codec.EncodeToHex` (its error is discarded by the
  code). -/
  EncodeToHex : Hash → String
  GetStorageRaw : Hash → Option Err
  /-- The error of `DecodeEventRecords` and the record as the decoder left
  it. -/
  DecodeEventRecords : Hash → Option Err × EventRecords
  QueryDeossPeerPublickey : Bytes → Except Err Bytes
  QueryStorageMiner : Bytes → Except Err MinerInfo
  /-- The first result of `utils.EncodePublicKeyAsCessAccount` (its error is
  discarded by the code). -/
  EncodePublicKeyAsCessAccount : Bytes → String
  ParsingPublickey : String → Except Err Bytes
  /-- The results of the method `updateEarningsAcc`, declared outside the
  embedded files. -/
  updateEarningsAcc : Bytes → String × Option Err
  /-- The first result of `utils.NumsToByteStr` on the account key. -/
  NumsToByteStr : String

/-! ## Control flow -/

/-- How a block of statements ends. -/
inductive Res (ρ α : Type) where
  /-- Control reaches the next statement. -/
  | next (a : α)
  /-- A `return` statement with these results. -/
  | ret (r : ρ)
  /-- A run-time panic unwinds the function. -/
  | panic
  /-- The `select` statement waits and the list of signals is exhausted. -/
  | blocked

/-- Statements of a function whose results have type `ρ`. -/
def M (ρ α : Type) : Type := St → Res ρ α × St

/-- Sequencing of statements. -/
def M.bind {ρ α β : Type} (m : M ρ α) (f : α → M ρ β) : M ρ β := fun s =>
  match m s with
  | (.next a, s1) => f a s1
  | (.ret r, s1) => (.ret r, s1)
  | (.panic, s1) => (.panic, s1)
  | (.blocked, s1) => (.blocked, s1)

instance {ρ : Type} : Monad (M ρ) where
  pure a := fun s => (.next a, s)
  bind := M.bind

/-- The statement `return r`. -/
def ret {ρ α : Type} (r : ρ) : M ρ α := fun s => (.ret r, s)

/-- A run-time panic. -/
def panic {ρ α : Type} : M ρ α := fun s => (.panic, s)

/-- Waiting for a signal that is not supplied. -/
def blocked {ρ α : Type} : M ρ α := fun s => (.blocked, s)

/-- Performing an external call: it is logged. -/
def perform {ρ : Type} (a : Action) : M ρ Unit := fun s => (.next (), s.log a)

/-- The method `GetChainState`. -/
def GetChainState {ρ : Type} : M ρ Bool := fun s => (.next s.chainState, s)

/-- The method `SetChainState`; the store is logged. -/
def SetChainState {ρ : Type} (state : Bool) : M ρ Unit := fun s =>
  (.next (), { chainState := state, trace := s.trace ++ [.SetChainState state] })

/-- The pattern `v, err := f(); if err != nil { return onErr err }`. -/
def orRet {ρ α : Type} (x : Except Err α) (onErr : Err → ρ) : M ρ α :=
  match x with
  | .ok a => pure a
  | .error e => ret (onErr e)

/-- The pattern `err := f(); if err != nil { return onErr err }`. -/
def check {ρ : Type} (x : Option Err) (onErr : Err → ρ) : M ρ Unit :=
  match x with
  | none => pure ()
  | some e => ret (onErr e)

/-- A statement `defer f()` in front of the statements `m`: `f` runs when
the function returns or panics. -/
def withDefer {ρ α : Type} (a : Action) (m : M ρ α) : M ρ α := fun s =>
  match m s with
  | (.blocked, s1) => (.blocked, s1)
  | (r, s1) => (r, s1.log a)

/-- A function body under `defer func() { c.lock.Unlock(); recover() ... }()`
with unnamed results: a return yields its results, a recovered panic yields
the zero values of the result types; `none` when the body is still waiting. -/
def recovered {ρ : Type} (zero : ρ) (body : M ρ Empty) : St → Option ρ × St := fun s =>
  match body s with
  | (.ret r, s1) => (some r, s1)
  | (.panic, s1) => (some zero, s1)
  | (.blocked, s1) => (none, s1)
  | (.next a, _) => nomatch a

/-- A call of a method without a deferred recover: its results are the value
of the call, a panic goes on unwinding the caller. -/
def callFn {ρ ρ1 : Type} (body : M ρ1 Empty) : M ρ ρ1 := fun s =>
  match body s with
  | (.ret r, s1) => (.next r, s1)
  | (.panic, s1) => (.panic, s1)
  | (.blocked, s1) => (.blocked, s1)
  | (.next a, _) => nomatch a

/-- Indexing `xs[0]`: a run-time panic on an empty slice. -/
def index0 {ρ α : Type} (xs : List α) : M ρ α :=
  match xs with
  | x :: _ => pure x
  | [] => panic

/-- The function `errors.Wrap(err, msg)` of `github.com/pkg/errors`: nil when
`err` is nil. -/
def errorsWrap (err : Option Err) (msg : String) : Option Err :=
  err.map (fun e => .wrap e msg)

/-- The confirmation wait shared by the submission operations:
`for { select { case status := <-sub.Chan(): if status.IsInBlock { ... }
case err = <-sub.Err(): return ..., errors.Wrap(err, "[sub]")
case <-timeout.C: return ..., pattern.ERR_RPC_TIMEOUT } }`.
`onInBlock` is the body of `if status.IsInBlock`; when it does not return,
its value is the new `txhash` and the loop goes on.  `mk` builds the results
of the operation from `txhash` and the error. -/
def selectLoop {ρ : Type} (mk : String → Option Err → ρ)
    (onInBlock : Hash → M ρ String) (txhash : String) : List Signal → M ρ Empty
  | [] => blocked
  | Signal.status status :: rest => do
      perform (.Recv (.status status))
      if status.IsInBlock then
        let txhash1 ← onInBlock status.AsInBlock
        selectLoop mk onInBlock txhash1 rest
      else
        selectLoop mk onInBlock txhash rest
  | Signal.err err :: _ => do
      perform (.Recv (.err err))
      ret (mk txhash (errorsWrap err "[sub]"))
  | Signal.timeout :: _ => do
      perform (.Recv .timeout)
      ret (mk txhash (some .ERR_RPC_TIMEOUT))

/-- The first statements of every `if status.IsInBlock` body: encode the block
hash, fetch the raw event log of the block, decode it. -/
def fetchEvents {ρ : Type} (env : Env) (block : Hash) (onErr : String → Err → ρ) :
    M ρ (String × Option Err × EventRecords) := do
  let txhash := env.EncodeToHex block
  perform (.GetStorageRaw block)
  check (env.GetStorageRaw block) (fun err => onErr txhash (.wrap err "[GetStorageRaw]"))
  perform .DecodeEventRecords
  let (err, events) := env.DecodeEventRecords block
  pure (txhash, err, events)

/-! ## Logged library calls -/

/-- The call `types.NewAccountID(b)` followed by its error check. -/
def NewAccountID {ρ : Type} (env : Env) (b : Bytes) (onErr : Err → ρ) : M ρ Bytes := do
  perform (.NewAccountID b)
  orRet (env.NewAccountID b) onErr

/-- The call `types.NewCall(c.metadata, tx, args...)` followed by its error
check; the value is the call built. -/
def NewCall {ρ : Type} (env : Env) (tx : Tx) (args : List Arg) (onErr : Err → ρ) :
    M ρ Call := do
  perform (.NewCall tx args)
  check (env.NewCall tx args) onErr
  pure ⟨tx, args⟩

/-- The call `types.CreateStorageKey(c.metadata, pallet, item, arg)`
followed by its error check. -/
def CreateStorageKey {ρ : Type} (env : Env) (item : Storage) (arg : Bytes)
    (onErr : Err → ρ) : M ρ Unit := do
  perform (.CreateStorageKey item arg)
  check (env.CreateStorageKey item arg) onErr

/-- The call `c.api.RPC.State.GetStorageLatest(key, &value)` followed by its
error check; the value is `ok` and what was read. -/
def GetStorageLatest {ρ : Type} (env : Env) (item : Storage) (arg : Bytes)
    (onErr : Err → ρ) : M ρ (Bool × Nat) := do
  perform (.GetStorageLatest item arg)
  orRet (env.GetStorageLatest item arg) onErr

/-- The call `codec.Encode(b)` followed by its error check. -/
def Encode {ρ : Type} (env : Env) (b : Bytes) (onErr : Err → ρ) : M ρ Unit := do
  perform (.Encode b)
  check (env.Encode b) onErr

/-- The loop `for i := 0; i < len(hash); i++ { hash[i] = types.U8(s[i]) }`
over a fixed-length array of `n` elements: the array it leaves.  It runs
under the guard `len(s) == len(hash)`, so that every `s[i]` exists. -/
def copyArray (n : Nat) (s : Bytes) : List Nat :=
  (List.range n).map (fun i => s.getD i 0)

/-- The statements from `o := types.SignatureOptions{...}` to the error check
of `ext.Sign(c.keyring, o)`; they end in a run-time panic when
`env.SignPanics` says so. -/
def Sign {ρ : Type} (env : Env) (call : Call) (nonce : Nat) (onErr : Err → ρ) :
    M ρ Unit := do
  perform (.Sign call nonce)
  if env.SignPanics call nonce then
    panic
  check (env.Sign call nonce) onErr

/-- The call `c.api.RPC.Author.SubmitAndWatchExtrinsic(ext)`; the value is
its error. -/
def SubmitAndWatchExtrinsic {ρ : Type} (env : Env) (call : Call) : M ρ (Option Err) := do
  perform (.SubmitAndWatchExtrinsic call)
  pure (env.SubmitAndWatchExtrinsic call)

/-- The two deferred calls `defer sub.Unsubscribe()` and
`defer timeout.Stop()` around the statements that follow them: the timer is
stopped first, the subscription is torn down second. -/
def withSubscription {ρ α : Type} (m : M ρ α) : M ρ α :=
  withDefer .Unsubscribe (withDefer .TimerStop m)

/-! ## `chain/fileBank.go` -/

/-- The results `(txhash, err)` of an operation. -/
abbrev R2 := String × Option Err

/-- The results `(txhash, list, err)` of an operation; `none` is a nil
slice. -/
abbrev R3 := String × Option (List FileHash) × Option Err

/-- `CreateBucket`, lines 375-429: from the liveness check to the error check
of the submission. -/
def CreateBucket_submit (env : Env) (owner_pkey : Bytes) (name : Bytes) : M R2 Unit := do
  let txhash := ""
  if !(← GetChainState) then
    ret (txhash, some .ERR_RPC_CONNECTION)
  let acc ← NewAccountID env owner_pkey (fun err => (txhash, some (.wrap err "[NewAccountID]")))
  let call ← NewCall env .TX_FILEBANK_PUTBUCKET [.accountID acc, .bytes name]
    (fun err => (txhash, some (.wrap err "[NewCall]")))
  CreateStorageKey env .SYSTEM_ACCOUNT env.PublicKey
    (fun err => (txhash, some (.wrap err "[CreateStorageKey]")))
  let (ok, nonce) ← GetStorageLatest env .SYSTEM_ACCOUNT env.PublicKey
    (fun err => (txhash, some (.wrap err "[GetStorageLatest]")))
  if !ok then
    ret (txhash, some .ERR_RPC_EMPTY_VALUE)
  Sign env call nonce (fun err => (txhash, some (.wrap err "[Sign]")))
  let err ← SubmitAndWatchExtrinsic env call
  if let some err := err then
    ret (txhash, some (.wrap err "[SubmitAndWatchExtrinsic]"))

/-- `CreateBucket`, lines 439-451: the body of `if status.IsInBlock`. -/
def CreateBucket_inBlock (P : Pattern) (env : Env) (block : Hash) : M R2 String := do
  let (txhash, err, events) ← fetchEvents env block (fun txhash err => (txhash, some err))
  if err.isSome || events.FileBank_CreateBucket.length > 0 then
    ret (txhash, none)
  ret (txhash, some (.new P.ERR_Failed))

/-- The method `CreateBucket`. -/
def CreateBucket (P : Pattern) (env : Env) (owner_pkey : Bytes) (name : Bytes)
    (signals : List Signal) : St → Option R2 × St :=
  recovered ("", none) do
    CreateBucket_submit env owner_pkey name
    withSubscription (selectLoop (fun txhash err => (txhash, err))
      (CreateBucket_inBlock P env) "" signals)

/-- `SubmitIdleMetadata`, lines 247-301: from the liveness check to the error
check of the submission. -/
def SubmitIdleMetadata_submit (env : Env) (teeAcc : Bytes) (idlefiles : List IdleMetadata) :
    M R2 Unit := do
  let txhash := ""
  if !(← GetChainState) then
    ret (txhash, some .ERR_RPC_CONNECTION)
  let acc ← NewAccountID env teeAcc (fun err => (txhash, some (.wrap err "[NewAccountID]")))
  let call ← NewCall env .TX_FILEBANK_UPLOADFILLER [.accountID acc, .idleFiles idlefiles]
    (fun err => (txhash, some (.wrap err "[NewCall]")))
  CreateStorageKey env .SYSTEM_ACCOUNT env.PublicKey
    (fun err => (txhash, some (.wrap err "[CreateStorageKey]")))
  let (ok, nonce) ← GetStorageLatest env .SYSTEM_ACCOUNT env.PublicKey
    (fun err => (txhash, some (.wrap err "[GetStorageLatest]")))
  if !ok then
    ret (txhash, some .ERR_RPC_EMPTY_VALUE)
  Sign env call nonce (fun err => (txhash, some (.wrap err "[Sign]")))
  let err ← SubmitAndWatchExtrinsic env call
  if let some err := err then
    ret (txhash, some (.wrap err "[SubmitAndWatchExtrinsic]"))

/-- `SubmitIdleMetadata`, lines 311-323: the body of `if status.IsInBlock`
(the event log is not read). -/
def SubmitIdleMetadata_inBlock (env : Env) (block : Hash) : M R2 String := do
  let txhash := env.EncodeToHex block
  ret (txhash, none)

/-- The method `SubmitIdleMetadata`. -/
def SubmitIdleMetadata (env : Env) (teeAcc : Bytes) (idlefiles : List IdleMetadata)
    (signals : List Signal) : St → Option R2 × St :=
  recovered ("", none) do
    SubmitIdleMetadata_submit env teeAcc idlefiles
    withSubscription (selectLoop (fun txhash err => (txhash, err))
      (SubmitIdleMetadata_inBlock env) "" signals)

/-- `DeleteBucket`, lines 470-524: from the liveness check to the error check
of the submission. -/
def DeleteBucket_submit (env : Env) (owner_pkey : Bytes) (name : Bytes) : M R2 Unit := do
  let txhash := ""
  if !(← GetChainState) then
    ret (txhash, some .ERR_RPC_CONNECTION)
  let acc ← NewAccountID env owner_pkey (fun err => (txhash, some (.wrap err "[NewAccountID]")))
  let call ← NewCall env .TX_FILEBANK_DELBUCKET [.accountID acc, .bytes name]
    (fun err => (txhash, some (.wrap err "[NewCall]")))
  CreateStorageKey env .SYSTEM_ACCOUNT env.PublicKey
    (fun err => (txhash, some (.wrap err "[CreateStorageKey]")))
  let (ok, nonce) ← GetStorageLatest env .SYSTEM_ACCOUNT env.PublicKey
    (fun err => (txhash, some (.wrap err "[GetStorageLatest]")))
  if !ok then
    ret (txhash, some .ERR_RPC_EMPTY_VALUE)
  Sign env call nonce (fun err => (txhash, some (.wrap err "[Sign]")))
  let err ← SubmitAndWatchExtrinsic env call
  if let some err := err then
    ret (txhash, some (.wrap err "[SubmitAndWatchExtrinsic]"))

/-- `DeleteBucket`, lines 534-546: the body of `if status.IsInBlock`. -/
def DeleteBucket_inBlock (P : Pattern) (env : Env) (block : Hash) : M R2 String := do
  let (txhash, err, events) ← fetchEvents env block (fun txhash err => (txhash, some err))
  if err.isSome || events.FileBank_DeleteBucket.length > 0 then
    ret (txhash, none)
  ret (txhash, some (.new P.ERR_Failed))

/-- The method `DeleteBucket`. -/
def DeleteBucket (P : Pattern) (env : Env) (owner_pkey : Bytes) (name : Bytes)
    (signals : List Signal) : St → Option R2 × St :=
  recovered ("", none) do
    DeleteBucket_submit env owner_pkey name
    withSubscription (selectLoop (fun txhash err => (txhash, err))
      (DeleteBucket_inBlock P env) "" signals)

/-- `UploadDeclaration`, lines 565-622: from the liveness check to the error
check of the submission.  `dealinfo` and `user` are handed on unread. -/
def UploadDeclaration_submit (P : Pattern) (env : Env) (filehash : Bytes) (dealinfo user : Nat) :
    M R2 Unit := do
  let txhash := ""
  if !(← GetChainState) then
    ret (txhash, some .ERR_RPC_CONNECTION)
  if filehash.length != P.FileHashLen then
    ret (txhash, some (.new "invalid filehash"))
  let hash := copyArray P.FileHashLen filehash
  let call ← NewCall env .TX_FILEBANK_UPLOADDEC [.fileHash hash, .dealinfo dealinfo, .user user]
    (fun err => (txhash, some (.wrap err "[NewCall]")))
  CreateStorageKey env .SYSTEM_ACCOUNT env.PublicKey
    (fun err => (txhash, some (.wrap err "[CreateStorageKey]")))
  let (ok, nonce) ← GetStorageLatest env .SYSTEM_ACCOUNT env.PublicKey
    (fun err => (txhash, some (.wrap err "[GetStorageLatest]")))
  if !ok then
    ret (txhash, some .ERR_RPC_EMPTY_VALUE)
  Sign env call nonce (fun err => (txhash, some (.wrap err "[Sign]")))
  let err ← SubmitAndWatchExtrinsic env call
  if let some err := err then
    ret (txhash, some (.wrap err "[SubmitAndWatchExtrinsic]"))

/-- `UploadDeclaration`, lines 632-642: the body of `if status.IsInBlock`. -/
def UploadDeclaration_inBlock (P : Pattern) (env : Env) (block : Hash) : M R2 String := do
  let (txhash, err, events) ← fetchEvents env block (fun txhash err => (txhash, some err))
  if err.isSome || events.FileBank_UploadDeclaration.length > 0 then
    ret (txhash, none)
  ret (txhash, some (.new P.ERR_Failed))

/-- The method `UploadDeclaration`. -/
def UploadDeclaration (P : Pattern) (env : Env) (filehash : Bytes) (dealinfo user : Nat)
    (signals : List Signal) : St → Option R2 × St :=
  recovered ("", none) do
    UploadDeclaration_submit P env filehash dealinfo user
    withSubscription (selectLoop (fun txhash err => (txhash, err))
      (UploadDeclaration_inBlock P env) "" signals)

/-- `DeleteFile`, lines 671-678: the loop over `filehash` from index `j` on,
`todo` being the strings not yet visited; the value is `hashs` as the loop
leaves it. -/
def DeleteFile_fill (P : Pattern) (txhash : String) :
    List Bytes → Nat → List FileHash → M R3 (List FileHash)
  | [], _, hashs => pure hashs
  | f :: todo, j, hashs =>
      if f.length != P.FileHashLen then
        ret (txhash, some hashs, some (.new "invalid filehash"))
      else
        DeleteFile_fill P txhash todo (j + 1) (hashs.set j (copyArray P.FileHashLen f))

/-- `DeleteFile`, lines 661-725: from the declarations to the error check of
the submission; the value is `hashs`. -/
def DeleteFile_submit (P : Pattern) (env : Env) (puk : Bytes) (filehash : List Bytes) :
    M R3 (List FileHash) := do
  let txhash := ""
  let hashs0 : List FileHash := List.replicate filehash.length (List.replicate P.FileHashLen 0)
  if !(← GetChainState) then
    ret (txhash, some hashs0, some .ERR_RPC_CONNECTION)
  let hashs ← DeleteFile_fill P txhash filehash 0 hashs0
  let acc ← NewAccountID env puk (fun err => (txhash, some hashs, some (.wrap err "[NewAccountID]")))
  let call ← NewCall env .TX_FILEBANK_DELFILE [.accountID acc, .fileHashes hashs]
    (fun err => (txhash, some hashs, some (.wrap err "[NewCall]")))
  CreateStorageKey env .SYSTEM_ACCOUNT env.PublicKey
    (fun err => (txhash, some hashs, some (.wrap err "[CreateStorageKey]")))
  let (ok, nonce) ← GetStorageLatest env .SYSTEM_ACCOUNT env.PublicKey
    (fun err => (txhash, some hashs, some (.wrap err "[GetStorageLatest]")))
  if !ok then
    ret (txhash, some hashs, some .ERR_RPC_EMPTY_VALUE)
  Sign env call nonce (fun err => (txhash, some hashs, some (.wrap err "[Sign]")))
  let err ← SubmitAndWatchExtrinsic env call
  if let some err := err then
    ret (txhash, some hashs, some (.wrap err "[SubmitAndWatchExtrinsic]"))
  pure hashs

/-- `DeleteFile`, lines 733-743: the body of `if status.IsInBlock`. -/
def DeleteFile_inBlock (P : Pattern) (env : Env) (hashs : List FileHash) (block : Hash) :
    M R3 String := do
  let (txhash, err, events) ← fetchEvents env block (fun txhash err => (txhash, some hashs, some err))
  if err.isSome || events.FileBank_DeleteFile.length > 0 then
    let e ← index0 events.FileBank_DeleteFile
    ret (txhash, some e.Filehash, none)
  ret (txhash, some hashs, some (.new P.ERR_Failed))

/-- The method `DeleteFile`. -/
def DeleteFile (P : Pattern) (env : Env) (puk : Bytes) (filehash : List Bytes)
    (signals : List Signal) : St → Option R3 × St :=
  recovered ("", none, none) do
    let hashs ← DeleteFile_submit P env puk filehash
    withSubscription (selectLoop (fun txhash err => (txhash, some hashs, err))
      (DeleteFile_inBlock P env hashs) "" signals)

/-- `SubmitFileReport`, lines 762-811: from the liveness check to the error
check of the submission. -/
def SubmitFileReport_submit (env : Env) (roothash : List FileHash) : M R3 Unit := do
  let txhash := ""
  if !(← GetChainState) then
    ret (txhash, none, some .ERR_RPC_CONNECTION)
  let call ← NewCall env .TX_FILEBANK_FILEREPORT [.fileHashes roothash]
    (fun err => (txhash, none, some (.wrap err "[NewCall]")))
  CreateStorageKey env .SYSTEM_ACCOUNT env.PublicKey
    (fun err => (txhash, none, some (.wrap err "[CreateStorageKey]")))
  let (ok, nonce) ← GetStorageLatest env .SYSTEM_ACCOUNT env.PublicKey
    (fun err => (txhash, none, some (.wrap err "[GetStorageLatest]")))
  if !ok then
    ret (txhash, none, some .ERR_RPC_EMPTY_VALUE)
  Sign env call nonce (fun err => (txhash, none, some (.wrap err "[Sign]")))
  let err ← SubmitAndWatchExtrinsic env call
  if let some err := err then
    ret (txhash, none, some (.wrap err "[SubmitAndWatchExtrinsic]"))

/-- `SubmitFileReport`, lines 821-831: the body of `if status.IsInBlock`. -/
def SubmitFileReport_inBlock (P : Pattern) (env : Env) (block : Hash) : M R3 String := do
  let (txhash, err, events) ← fetchEvents env block (fun txhash err => (txhash, none, some err))
  if err.isSome || events.FileBank_TransferReport.length > 0 then
    let e ← index0 events.FileBank_TransferReport
    ret (txhash, some e.Failed_list, none)
  ret (txhash, none, some (.new P.ERR_Failed))

/-- The method `SubmitFileReport`. -/
def SubmitFileReport (P : Pattern) (env : Env) (roothash : List FileHash)
    (signals : List Signal) : St → Option R3 × St :=
  recovered ("", none, none) do
    SubmitFileReport_submit env roothash
    withSubscription (selectLoop (fun txhash err => (txhash, none, err))
      (SubmitFileReport_inBlock P env) "" signals)

/-- `ReplaceIdleFiles`, lines 865-914: from the liveness check to the error
check of the submission. -/
def ReplaceIdleFiles_submit (env : Env) (roothash : List FileHash) : M R3 Unit := do
  let txhash := ""
  if !(← GetChainState) then
    ret (txhash, none, some .ERR_RPC_CONNECTION)
  let call ← NewCall env .TX_FILEBANK_REPLACEFILE [.fileHashes roothash]
    (fun err => (txhash, none, some (.wrap err "[NewCall]")))
  CreateStorageKey env .SYSTEM_ACCOUNT env.PublicKey
    (fun err => (txhash, none, some (.wrap err "[CreateStorageKey]")))
  let (ok, nonce) ← GetStorageLatest env .SYSTEM_ACCOUNT env.PublicKey
    (fun err => (txhash, none, some (.wrap err "[GetStorageLatest]")))
  if !ok then
    ret (txhash, none, some .ERR_RPC_EMPTY_VALUE)
  Sign env call nonce (fun err => (txhash, none, some (.wrap err "[Sign]")))
  let err ← SubmitAndWatchExtrinsic env call
  if let some err := err then
    ret (txhash, none, some (.wrap err "[SubmitAndWatchExtrinsic]"))

/-- `ReplaceIdleFiles`, lines 924-934: the body of `if status.IsInBlock`. -/
def ReplaceIdleFiles_inBlock (P : Pattern) (env : Env) (block : Hash) : M R3 String := do
  let (txhash, err, events) ← fetchEvents env block (fun txhash err => (txhash, none, some err))
  if err.isSome || events.FileBank_ReplaceFiller.length > 0 then
    let e ← index0 events.FileBank_ReplaceFiller
    ret (txhash, some e.Filler_list, none)
  ret (txhash, none, some (.new P.ERR_Failed))

/-- The method `ReplaceIdleFiles`. -/
def ReplaceIdleFiles (P : Pattern) (env : Env) (roothash : List FileHash)
    (signals : List Signal) : St → Option R3 × St :=
  recovered ("", none, none) do
    ReplaceIdleFiles_submit env roothash
    withSubscription (selectLoop (fun txhash err => (txhash, none, err))
      (ReplaceIdleFiles_inBlock P env) "" signals)

/-- The results `(data, err)` of a storage query; `none` is the zero value of
the record. -/
abbrev RQ := Option Nat × Option Err

/-- The method `QueryFileMetadata`. -/
def QueryFileMetadata (P : Pattern) (env : Env) (roothash : Bytes) : St → Option RQ × St :=
  recovered (none, none) do
    let data : Option Nat := none
    if !(← GetChainState) then
      ret (data, some .ERR_RPC_CONNECTION)
    if P.FileHashLen != roothash.length then
      ret (data, some (.new "invalid filehash"))
    let hash := copyArray P.FileHashLen roothash
    Encode env hash (fun err => (data, some (.wrap err "[Encode]")))
    CreateStorageKey env .FILEBANK_FILE hash (fun err => (data, some (.wrap err "[CreateStorageKey]")))
    let (ok, v) ← GetStorageLatest env .FILEBANK_FILE hash
      (fun err => (data, some (.wrap err "[GetStorageLatest]")))
    if !ok then
      ret (data, some .ERR_RPC_EMPTY_VALUE)
    ret (some v, none)

/-- The method `QueryStorageOrder`. -/
def QueryStorageOrder (P : Pattern) (env : Env) (roothash : Bytes) : St → Option RQ × St :=
  recovered (none, none) do
    let data : Option Nat := none
    if P.FileHashLen != roothash.length then
      ret (data, some (.new "invalid filehash"))
    let hash := copyArray P.FileHashLen roothash
    Encode env hash (fun err => (data, some (.wrap err "[Encode]")))
    if !(← GetChainState) then
      ret (data, some .ERR_RPC_CONNECTION)
    CreateStorageKey env .FILEBANK_DEALMAP hash (fun err => (data, some (.wrap err "[CreateStorageKey]")))
    let (ok, v) ← GetStorageLatest env .FILEBANK_DEALMAP hash
      (fun err => (data, some (.wrap err "[GetStorageLatest]")))
    if !ok then
      ret (data, some .ERR_RPC_EMPTY_VALUE)
    ret (some v, none)

/-! ## `chain/role.go` -/

/-- The results `(txhash, earnings, err)` of `Register`. -/
abbrev RR := String × String × Option Err

/-- The first case list of the role switches:
`case pattern.Role_OSS, pattern.Role_DEOSS, "deoss", "oss", "Deoss", "DeOSS"`. -/
def isOssRole (P : Pattern) (role : String) : Bool :=
  role == P.Role_OSS || role == P.Role_DEOSS || role == "deoss" || role == "oss"
    || role == "Deoss" || role == "DeOSS"

/-- The second case list of the role switches:
`case pattern.Role_BUCKET, "SMINER", "bucket", "Bucket", "Sminer", "sminer"`. -/
def isBucketRole (P : Pattern) (role : String) : Bool :=
  role == P.Role_BUCKET || role == "SMINER" || role == "bucket" || role == "Bucket"
    || role == "Sminer" || role == "sminer"

/-- Modelled from the spec: `utils.CompareSlice`, declared outside the embedded
files, tells whether the stored network address and the supplied one are the
same bytes. -/
def CompareSlice (s1 s2 : Bytes) : Bool := s1 == s2

/-- The verb `%v` of `fmt` on a byte slice: the decimal values between
brackets, separated by blanks. -/
def fmtV (b : Bytes) : String :=
  "[" ++ " ".intercalate (b.map toString) ++ "]"

/-- The function `strconv.FormatUint(n, 10)`. -/
def FormatUint (n : Nat) : String := toString n

/-- The value of a non-empty string of decimal digits. -/
def digitsValue : List Char → Nat → Option Nat
  | [], acc => some acc
  | c :: cs, acc => if c.isDigit then digitsValue cs (10 * acc + (c.toNat - 48)) else none

/-- The method `(*big.Int).SetString(s, 10)`: an optional sign followed by at
least one decimal digit and nothing else; `none` is `ok == false`. -/
def SetString (s : String) : Option Int :=
  match s.toList with
  | [] => none
  | '-' :: ds => if ds.isEmpty then none else (digitsValue ds 0).map (fun n => -(n : Int))
  | '+' :: ds => if ds.isEmpty then none else (digitsValue ds 0).map (fun n => (n : Int))
  | ds => (digitsValue ds 0).map (fun n => (n : Int))

/-- `updateAddress`, lines 203-257: from the role switch to the error check
of the submission. -/
def updateAddress_submit (P : Pattern) (env : Env) (name : String) (peerid : Bytes) :
    M R2 Unit := do
  let txhash := ""
  let call ←
    if isOssRole P name then
      NewCall env .TX_OSS_UPDATE [.peerId peerid] (fun err => (txhash, some (.wrap err "[NewCall]")))
    else if isBucketRole P name then
      NewCall env .TX_SMINER_UPDATEPEERID [.peerId peerid]
        (fun err => (txhash, some (.wrap err "[NewCall]")))
    else
      ret ("", some (.new "Invalid role name"))
  let (ok, nonce) ← GetStorageLatest env .SYSTEM_ACCOUNT env.PublicKey
    (fun err => (txhash, some (.wrap err "[GetStorageLatest]")))
  if !ok then
    ret (txhash, some .ERR_RPC_EMPTY_VALUE)
  Sign env call nonce (fun err => (txhash, some (.wrap err "[Sign]")))
  let err ← SubmitAndWatchExtrinsic env call
  if let some err := err then
    SetChainState false
    ret (txhash, some (.wrap err "[SubmitAndWatchExtrinsic]"))

/-- `updateAddress`, lines 265-287: the body of `if status.IsInBlock`. -/
def updateAddress_inBlock (P : Pattern) (env : Env) (name : String) (block : Hash) :
    M R2 String := do
  let (txhash, err, events) ← fetchEvents env block (fun txhash err => (txhash, some err))
  if err.isSome then
    ret (txhash, none)
  if isOssRole P name then
    if events.Oss_OssUpdate.length > 0 then
      ret (txhash, none)
  else if isBucketRole P name then
    if events.Sminer_UpdataIp.length > 0 then
      ret (txhash, none)
  else
    ret (txhash, some (.new P.ERR_Failed))
  ret (txhash, some (.new P.ERR_Failed))

/-- The method `updateAddress` (it has no deferred recover of its own). -/
def updateAddress (P : Pattern) (env : Env) (name : String) (peerid : Bytes)
    (signals : List Signal) : M R2 Empty := do
  updateAddress_submit P env name peerid
  withSubscription (selectLoop (fun txhash err => (txhash, err))
    (updateAddress_inBlock P env name) "" signals)

/-- `Register`, lines 61-122: the role switch; the value is the register call
built. -/
def Register_switch (P : Pattern) (env : Env) (role : String) (puk : Bytes) (earnings : String)
    (pledge : Nat) (peerid : Bytes) (signals : List Signal) : M RR Call := do
  let txhash := ""
  if isOssRole P role then
    perform .QueryDeossPeerPublickey
    match env.QueryDeossPeerPublickey env.PublicKey with
    | .error err =>
      if err.Error P != P.ERR_Empty then
        ret (txhash, earnings, some err)
    | .ok id =>
      if !CompareSlice id puk then
        let (txhash, err) ← callFn (updateAddress P env role peerid signals)
        ret (txhash, earnings, err)
      ret ("", earnings, none)
    NewCall env .TX_OSS_REGISTER [.peerId peerid]
      (fun err => (txhash, earnings, some (.wrap err "[NewCall]")))
  else if isBucketRole P role then
    perform .QueryStorageMiner
    match env.QueryStorageMiner env.PublicKey with
    | .error err =>
      if err.Error P != P.ERR_Empty then
        ret (txhash, earnings, some err)
    | .ok minerinfo =>
      if !CompareSlice minerinfo.PeerId puk then
        let (txhash, err) ← callFn (updateAddress P env role peerid signals)
        ret (txhash, earnings, err)
      let acc := env.EncodePublicKeyAsCessAccount minerinfo.BeneficiaryAcc
      if earnings != "" then
        if acc != earnings then
          perform (.ParsingPublickey earnings)
          let puk ← orRet (env.ParsingPublickey earnings) (fun err => (txhash, acc, some err))
          perform (.updateEarningsAcc puk)
          let (txhash, err) := env.updateEarningsAcc puk
          ret (txhash, earnings, err)
      ret ("", acc, none)
    perform (.ParsingPublickey earnings)
    let pubkey ← orRet (env.ParsingPublickey earnings)
      (fun err => (txhash, earnings, some (.wrap err "[DecodeToPub]")))
    let acc ← NewAccountID env pubkey
      (fun err => (txhash, earnings, some (.wrap err "[NewAccountID]")))
    let realTokens ←
      match SetString (FormatUint pledge ++ P.TokenPrecision_CESS) with
      | some v => pure v
      | none => ret (txhash, earnings, some (.new "[big.Int.SetString]"))
    NewCall env .TX_SMINER_REGISTER [.accountID acc, .peerId peerid, .u128 realTokens]
      (fun err => (txhash, earnings, some (.wrap err "[NewCall]")))
  else
    ret ("", earnings, some (.new "invalid role name"))

/-- `Register`, lines 34-161: from the liveness check to the error check of
the submission. -/
def Register_submit (P : Pattern) (env : Env) (role : String) (puk : Bytes) (earnings : String)
    (pledge : Nat) (signals : List Signal) : M RR Unit := do
  let txhash := ""
  if !(← GetChainState) then
    ret (txhash, earnings, some .ERR_RPC_CONNECTION)
  if P.PeerIdLen != puk.length then
    ret (txhash, earnings, some (.new ("invalid peerid: " ++ fmtV puk)))
  let peerid := copyArray P.PeerIdLen puk
  CreateStorageKey env .SYSTEM_ACCOUNT env.PublicKey
    (fun err => (txhash, earnings, some (.wrap err "[CreateStorageKey]")))
  let call ← Register_switch P env role puk earnings pledge peerid signals
  let (ok, nonce) ← GetStorageLatest env .SYSTEM_ACCOUNT env.PublicKey
    (fun err => (txhash, earnings, some (.wrap err "[GetStorageLatest]")))
  if !ok then
    let keyStr := env.NumsToByteStr
    ret (txhash, earnings, some (.new ("chain rpc.state.GetStorageLatest[" ++ keyStr ++ "]: "
      ++ Err.Error P .ERR_RPC_EMPTY_VALUE)))
  Sign env call nonce (fun err => (txhash, earnings, some (.wrap err "[Sign]")))
  let err ← SubmitAndWatchExtrinsic env call
  if let some err := err then
    SetChainState false
    ret (txhash, earnings, some (.wrap err "[SubmitAndWatchExtrinsic]"))

/-- `Register`, lines 171-192: the body of `if status.IsInBlock`.  When no
case of the switch returns, control leaves the `if` and the loop goes on with
the `txhash` just assigned. -/
def Register_inBlock (P : Pattern) (env : Env) (role : String) (earnings : String)
    (block : Hash) : M RR String := do
  let (txhash, err, events) ← fetchEvents env block (fun txhash err => (txhash, earnings, some err))
  if err.isSome then
    ret (txhash, earnings, none)
  if isOssRole P role then
    if events.Oss_OssRegister.length > 0 then
      ret (txhash, earnings, none)
  else if isBucketRole P role then
    if events.Sminer_Registered.length > 0 then
      ret (txhash, earnings, none)
  else
    ret (txhash, earnings, some (.new P.ERR_Failed))
  pure txhash

/-- The method `Register`. -/
def Register (P : Pattern) (env : Env) (role : String) (puk : Bytes) (earnings : String)
    (pledge : Nat) (signals : List Signal) : St → Option RR × St :=
  recovered ("", "", none) do
    Register_submit P env role puk earnings pledge signals
    withSubscription (selectLoop (fun txhash err => (txhash, earnings, err))
      (Register_inBlock P env role earnings) "" signals)

/-- `Exit`, lines 306-369: from the liveness check to the error check of the
submission. -/
def Exit_submit (P : Pattern) (env : Env) (role : String) : M R2 Unit := do
  let txhash := ""
  if !(← GetChainState) then
    ret (txhash, some .ERR_RPC_CONNECTION)
  let call ←
    if isOssRole P role then
      NewCall env .TX_OSS_DESTORY [] (fun err => (txhash, some (.wrap err "[NewCall]")))
    else if isBucketRole P role then
      NewCall env .TX_FILEBANK_MINEREXITPREP [] (fun err => (txhash, some (.wrap err "[NewCall]")))
    else
      ret ("", some (.new "Invalid role name"))
  CreateStorageKey env .SYSTEM_ACCOUNT env.PublicKey
    (fun err => (txhash, some (.wrap err "[CreateStorageKey]")))
  let (ok, nonce) ← GetStorageLatest env .SYSTEM_ACCOUNT env.PublicKey
    (fun err => (txhash, some (.wrap err "[GetStorageLatest]")))
  if !ok then
    ret (txhash, some .ERR_RPC_EMPTY_VALUE)
  Sign env call nonce (fun err => (txhash, some (.wrap err "[Sign]")))
  let err ← SubmitAndWatchExtrinsic env call
  if let some err := err then
    SetChainState false
    ret (txhash, some (.wrap err "[SubmitAndWatchExtrinsic]"))

/-- `Exit`, lines 379-400: the body of `if status.IsInBlock`.  When no case of
the switch returns, control leaves the `if` and the loop goes on with the
`txhash` just assigned. -/
def Exit_inBlock (P : Pattern) (env : Env) (role : String) (block : Hash) : M R2 String := do
  let (txhash, err, events) ← fetchEvents env block (fun txhash err => (txhash, some err))
  if err.isSome then
    ret (txhash, none)
  if isOssRole P role then
    if events.Oss_OssDestroy.length > 0 then
      ret (txhash, none)
  else if isBucketRole P role then
    if events.Sminer_MinerExitPrep.length > 0 then
      ret (txhash, none)
  else
    ret (txhash, some (.new P.ERR_Failed))
  pure txhash

/-- The method `Exit`. -/
def Exit (P : Pattern) (env : Env) (role : String) (signals : List Signal) :
    St → Option R2 × St :=
  recovered ("", none) do
    Exit_submit P env role
    withSubscription (selectLoop (fun txhash err => (txhash, err))
      (Exit_inBlock P env role) "" signals)

/-! ## Vocabulary of the statements -/

/-- A status notification that does not indicate inclusion in a block. -/
def Signal.noInclusion : Signal → Bool
  | .status s => !s.IsInBlock
  | _ => false

/-- The status notification that reports inclusion in `block`. -/
def inBlock (block : Hash) : Signal := .status ⟨true, block⟩

/-- The calls handed to `types.NewCall` in a log, in order. -/
def callsBuilt (t : List Action) : List Call :=
  t.filterMap fun a =>
    match a with
    | .NewCall tx args => some ⟨tx, args⟩
    | _ => none

/-- The calls handed to `SubmitAndWatchExtrinsic` in a log, in order. -/
def callsSubmitted (t : List Action) : List Call :=
  t.filterMap fun a =>
    match a with
    | .SubmitAndWatchExtrinsic call => some call
    | _ => none

/-- The network address the pre-read of `Register` finds for the signing
identity in the role `role`: `none` when the role switch makes no pre-read or
the pre-read reports an error. -/
def storedPeerId (P : Pattern) (env : Env) (role : String) : Option Bytes :=
  if isOssRole P role then
    match env.QueryDeossPeerPublickey env.PublicKey with
    | .ok id => some id
    | .error _ => none
  else if isBucketRole P role then
    match env.QueryStorageMiner env.PublicKey with
    | .ok minerinfo => some minerinfo.PeerId
    | .error _ => none
  else
    none

/-- The log entry of the pre-read `Register` makes for `role`. -/
def preRead (P : Pattern) (role : String) : Action :=
  if isOssRole P role then .QueryDeossPeerPublickey else .QueryStorageMiner

/-- The update-address transaction of `role`. -/
def updateTx (P : Pattern) (role : String) : Tx :=
  if isOssRole P role then .TX_OSS_UPDATE else .TX_SMINER_UPDATEPEERID

/-- Whether a call of `updateAddress` reaches `SubmitAndWatchExtrinsic`: its
construction, the lookup of the signing account and the signing all
succeed (the signing neither panics nor fails). -/
def canSubmit (env : Env) (call : Call) : Bool :=
  match env.NewCall call.tx call.args, env.GetStorageLatest .SYSTEM_ACCOUNT env.PublicKey with
  | none, .ok (true, nonce) => !env.SignPanics call nonce && (env.Sign call nonce).isNone
  | _, _ => false

/-! ## Sample values -/

/-- Values of the constants as the `pattern` package of the repository
declares them. -/
def samplePattern : Pattern where
  ERR_Failed := "failed"
  ERR_Empty := "empty"
  msg_RPC_CONNECTION := "rpc connection failed"
  msg_RPC_TIMEOUT := "timeout"
  msg_RPC_EMPTY_VALUE := "empty"
  Role_OSS := "OSS"
  Role_DEOSS := "DEOSS"
  Role_BUCKET := "BUCKET"
  FileHashLen := 64
  PeerIdLen := 38
  TokenPrecision_CESS := "000000000000"
  MaxSubmitedIdleFileMeta := 30

/-- A node on which every call succeeds: the account of the signing identity
exists with nonce 7, the identity holds no role, and the event log of every
block decodes to a record without events. -/
def sampleEnv : Env where
  PublicKey := [1, 2, 3]
  NewAccountID := fun b => .ok b
  Encode := fun _ => none
  NewCall := fun _ _ => none
  CreateStorageKey := fun _ _ => none
  GetStorageLatest := fun _ _ => .ok (true, 7)
  Sign := fun _ _ => none
  SubmitAndWatchExtrinsic := fun _ => none
  EncodeToHex := fun h => "0x" ++ String.join (h.map toString)
  GetStorageRaw := fun _ => none
  DecodeEventRecords := fun _ => (none, {})
  QueryDeossPeerPublickey := fun _ => .error .ERR_RPC_EMPTY_VALUE
  QueryStorageMiner := fun _ => .error .ERR_RPC_EMPTY_VALUE
  EncodePublicKeyAsCessAccount := fun b => "cX" ++ String.join (b.map toString)
  ParsingPublickey := fun s => .ok (s.toList.map Char.toNat)
  updateEarningsAcc := fun _ => ("0xea", none)
  NumsToByteStr := "key"

/-- The node of `sampleEnv`, on which the event log of every block decodes to
two events of each of the kinds `FileBank_DeleteFile`,
`FileBank_TransferReport` and `FileBank_ReplaceFiller`. -/
def eventfulEnv : Env :=
  { sampleEnv with
    DecodeEventRecords := fun _ =>
      (none, { FileBank_DeleteFile := [⟨[[1]]⟩, ⟨[[2]]⟩],
               FileBank_TransferReport := [⟨[[3]]⟩, ⟨[[4]]⟩],
               FileBank_ReplaceFiller := [⟨[[5]]⟩, ⟨[[6]]⟩] }) }

/-- The node of `sampleEnv`, on which the decoding of every event log fails
and leaves the record empty. -/
def undecodableEnv : Env :=
  { sampleEnv with DecodeEventRecords := fun _ => (some (.new "decode"), {}) }

/-- A peer id of the length of `samplePattern`. -/
def samplePeer : Bytes := List.replicate 38 5

/-- The node of `sampleEnv`, on which the signing identity is a registered
gateway with the stored peer id `samplePeer`. -/
def gatewayEnv : Env :=
  { sampleEnv with QueryDeossPeerPublickey := fun _ => .ok samplePeer }

/-- The node of `sampleEnv`, on which the signing identity is a registered
storage provider with the stored peer id `samplePeer` and the beneficiary
account `[7]`, shown as "cX7". -/
def minerEnv : Env :=
  { sampleEnv with QueryStorageMiner := fun _ => .ok ⟨samplePeer, [7]⟩ }

/-- A second peer id of the length of `samplePattern`. -/
def otherPeer : Bytes := List.replicate 38 6

/-- The node of `gatewayEnv`, on which the account record of the signing
identity is not found. -/
def orphanGatewayEnv : Env :=
  { gatewayEnv with GetStorageLatest := fun _ _ => .ok (false, 0) }

/-- The node of `gatewayEnv`, on which the event log of every block decodes to
one `Oss_OssUpdate` event. -/
def updatingGatewayEnv : Env :=
  { gatewayEnv with DecodeEventRecords := fun _ => (none, { Oss_OssUpdate := [()] }) }

/-- A live SDK that has performed no external call yet. -/
def liveSt : St := ⟨true, []⟩

/-- A content hash of the length of `samplePattern`. -/
def sampleHash : Bytes := List.replicate 64 97

/-- A status notification that reports no inclusion. -/
def pending : Signal := .status ⟨false, []⟩

/-- An SDK whose liveness flag is false. -/
def deadSt : St := ⟨false, []⟩

/-- The node of `sampleEnv`, on which handing an extrinsic to the node
fails. -/
def rejectingEnv : Env :=
  { sampleEnv with SubmitAndWatchExtrinsic := fun _ => some (.new "connection lost") }

/-- The exit transaction of `role`. -/
def exitTx (P : Pattern) (role : String) : Tx :=
  if isOssRole P role then .TX_OSS_DESTORY else .TX_FILEBANK_MINEREXITPREP

/-- The node of `sampleEnv`, on which the account record of the signing
identity is not found. -/
def orphanEnv : Env :=
  { sampleEnv with GetStorageLatest := fun _ _ => .ok (false, 0) }

/-- The node of `sampleEnv`, on which the decoding of every event log fails
after the decoder has stored one event of each of the kinds
`FileBank_DeleteFile`, `FileBank_TransferReport` and
`FileBank_ReplaceFiller`. -/
def halfDecodedEnv : Env :=
  { sampleEnv with
    DecodeEventRecords := fun _ =>
      (some (.new "decode"), { FileBank_DeleteFile := [⟨[[1]]⟩],
                               FileBank_TransferReport := [⟨[[3]]⟩],
                               FileBank_ReplaceFiller := [⟨[[5]]⟩] }) }

/-! ## `chain/fileBank.go`: the string wrappers -/

/-- The results `(txhash, list, err)` of `ReportFiles` and `ReplaceFile`; the
list is never nil. -/
abbrev R3s := String × List Bytes × Option Err

/-- A call of an operation with a deferred recover: its results are the value
of the call; the caller waits as long as the operation does. -/
def callOp {ρ ρ1 : Type} (op : St → Option ρ1 × St) : M ρ ρ1 := fun s =>
  match op s with
  | (some r, s1) => (.next r, s1)
  | (none, s1) => (.blocked, s1)

/-- The inner loop of `ReportFiles` (lines 844-846) and `ReplaceFile` (lines
947-949), `for j := 0; j < len(roothash[i]); j++ { hashs[i][j] = ... }`, from
index `j` on, `todo` being the bytes of the string not yet visited: indexing
the array of `n` elements at `j >= n` is a run-time panic. -/
def copyString {ρ : Type} (n : Nat) : Bytes → Nat → List Nat → M ρ (List Nat)
  | [], _, arr => pure arr
  | b :: todo, j, arr =>
      if j < n then copyString n todo (j + 1) (arr.set j b) else panic

/-- The outer loop of `ReportFiles` (lines 843-847) and `ReplaceFile` (lines
946-950) from index `i` on, `todo` being the strings not yet visited; the
value is `hashs` as the loop leaves it. -/
def fillHashes {ρ : Type} (P : Pattern) : List Bytes → Nat → List FileHash → M ρ (List FileHash)
  | [], _, hashs => pure hashs
  | r :: todo, i, hashs => do
      let row ← copyString P.FileHashLen r 0 (hashs.getD i [])
      fillHashes P todo (i + 1) (hashs.set i row)

/-- The method `ReportFiles` (it has no deferred recover of its own). -/
def ReportFiles (P : Pattern) (env : Env) (roothash : List Bytes) (signals : List Signal) :
    M R3s Empty := do
  let hashs0 : List FileHash := List.replicate roothash.length (List.replicate P.FileHashLen 0)
  let hashs ← fillHashes P roothash 0 hashs0
  let (txhash, failed, err) ← callOp (SubmitFileReport P env hashs signals)
  let failedfiles : List Bytes := failed.getD []
  ret (txhash, failedfiles, err)

/-- The method `ReplaceFile` (it has no deferred recover of its own). -/
def ReplaceFile (P : Pattern) (env : Env) (roothash : List Bytes) (signals : List Signal) :
    M R3s Empty := do
  let hashs0 : List FileHash := List.replicate roothash.length (List.replicate P.FileHashLen 0)
  let hashs ← fillHashes P roothash 0 hashs0
  let (txhash, failed, err) ← callOp (ReplaceIdleFiles P env hashs signals)
  let failedFiles : List Bytes := failed.getD []
  ret (txhash, failedFiles, err)

/-- The role names the role switches of `role.go` accept. -/
def acceptedRoles (P : Pattern) : List String :=
  [P.Role_OSS, P.Role_DEOSS, "deoss", "oss", "Deoss", "DeOSS",
    P.Role_BUCKET, "SMINER", "bucket", "Bucket", "Sminer", "sminer"]

/-- The node of `sampleEnv`, on which the account storage key cannot be
built. -/
def keylessEnv : Env :=
  { sampleEnv with CreateStorageKey := fun _ _ => some (.new "no such storage") }

/-- A three-byte string, shorter than a content hash. -/
def shortHash : Bytes := [97, 98, 99]

/-- A string one byte longer than a content hash of `samplePattern`. -/
def longHash : Bytes := List.replicate 65 97

/-! ## `chain/chain.go` -/

/-- A `*gsrpc.SubstrateAPI`, known by the endpoint it is connected to. -/
structure Api where
  url : String
  deriving DecidableEq, Repr

/-- The answers of the chain-client library and of the helpers `chain.go`
calls.  Metadata and runtime versions are numbers standing for the decoded
values. -/
structure ConnEnv where
  /-- The two results `(api, err)` of `gsrpc.NewSubstrateAPI(url)`. -/
  NewSubstrateAPI : String → Option Api × Option Err
  GetMetadataLatest : Api → Except Err Nat
  /-- The result of `api.RPC.Chain.GetBlockHash(0)`. -/
  GetBlockHash : Api → Except Err Hash
  GetRuntimeVersionLatest : Api → Except Err Nat
  /-- The result of `types.CreateStorageKey(metadata, pattern.SYSTEM,
  pattern.EVENTS, nil)`. -/
  CreateStorageKey : Nat → Except Err Bytes
  /-- The public key of `signature.KeyringPairFromSecret(mnemonic, 0)`. -/
  KeyringPairFromSecret : String → Except Err Bytes
  EncodePublicKeyAsCessAccount : Bytes → Except Err String
  /-- The token symbol of the method `SysProperties`. -/
  SysProperties : Api → Except Err String
  /-- The result of `p2pgo.New` for a port and a workspace: whether the value
  is a `*core.Node`. -/
  p2pNew : Int → String → Except Err Bool

/-- The fields of `ChainSDK`; `none` is a nil pointer or slice. -/
structure ChainSDK where
  api : Option Api
  chainState : Bool
  metadata : Option Nat
  runtimeVersion : Option Nat
  keyEvents : Option Bytes
  genesisHash : Hash
  keyring : Option Bytes
  rpcAddr : List String
  timeForBlockOut : Nat
  tokenSymbol : String
  signatureAcc : String
  name : String
  enabledP2P : Bool
  deriving DecidableEq, Repr

/-- The zero value `types.Hash{}`. -/
def zeroHash : Hash := List.replicate 32 0

/-- `NewChainSDK`, lines 81-86: the loop over the endpoints, `r` being the
values of `chainSDK.api` and `err` so far; it stops at the first endpoint
whose `err` is nil. -/
def NewChainSDK_dial (cenv : ConnEnv) : List String → Option Api × Option Err →
    Option Api × Option Err
  | [], r => r
  | rpc :: rest, _ =>
      let r := cenv.NewSubstrateAPI rpc
      if r.2.isNone then r else NewChainSDK_dial cenv rest r

/-- The function `NewChainSDK`, as the value of its `return` statement:
the results `(sdk, err)` are `(some sdk, none)` for `.ok sdk` and
`(none, err)` for `.error err`. -/
def NewChainSDK_body (cenv : ConnEnv) (name : String) (rpcs : List String) (mnemonic : String)
    (t : Nat) (workspace : String) (p2pPort : Int) : Except (Option Err) ChainSDK :=
  let chainSDK : ChainSDK :=
    { api := none, chainState := false, metadata := none, runtimeVersion := none,
      keyEvents := none, genesisHash := zeroHash, keyring := none, rpcAddr := rpcs,
      timeForBlockOut := t, tokenSymbol := "", signatureAcc := "", name := name,
      enabledP2P := false }
  match NewChainSDK_dial cenv rpcs (none, none) with
  | (_, some err) => .error (some err)
  | (none, none) => .error none
  | (some api, none) => do
    let chainSDK := { chainSDK with api := some api, chainState := true }
    let metadata ← (cenv.GetMetadataLatest api).mapError some
    let chainSDK := { chainSDK with metadata := some metadata }
    let genesisHash ← (cenv.GetBlockHash api).mapError some
    let chainSDK := { chainSDK with genesisHash := genesisHash }
    let runtimeVersion ← (cenv.GetRuntimeVersionLatest api).mapError some
    let chainSDK := { chainSDK with runtimeVersion := some runtimeVersion }
    let keyEvents ← (cenv.CreateStorageKey metadata).mapError some
    let chainSDK := { chainSDK with keyEvents := some keyEvents }
    let chainSDK ←
      if mnemonic != "" then do
        let keyring ← (cenv.KeyringPairFromSecret mnemonic).mapError some
        let signatureAcc ← (cenv.EncodePublicKeyAsCessAccount keyring).mapError some
        pure { chainSDK with keyring := some keyring, signatureAcc := signatureAcc }
      else
        pure chainSDK
    let tokenSymbol ← (cenv.SysProperties api).mapError some
    let chainSDK := { chainSDK with tokenSymbol := tokenSymbol }
    if workspace != "" && p2pPort > 0 then do
      let ok ← (cenv.p2pNew p2pPort workspace).mapError some
      if !ok then
        .error (some (.new "invalid p2p type"))
      else
        pure { chainSDK with enabledP2P := true }
    else
      pure chainSDK

/-- The function `NewChainSDK`: its results `(sdk, err)`. -/
def NewChainSDK (cenv : ConnEnv) (name : String) (rpcs : List String) (mnemonic : String)
    (t : Nat) (workspace : String) (p2pPort : Int) : Option ChainSDK × Option Err :=
  match NewChainSDK_body cenv name rpcs mnemonic t workspace p2pPort with
  | .ok sdk => (some sdk, none)
  | .error err => (none, err)

/-- `reconnectChainSDK`, lines 230-235: the loop over the endpoints, `r` being
the values of `api` and `err` so far; `continue` is its last statement, so that
every endpoint is dialled and the values of the last one remain. -/
def reconnectChainSDK_dial (cenv : ConnEnv) : List String → Option Api × Option Err →
    Option Api × Option Err
  | [], r => r
  | rpc :: rest, _ => reconnectChainSDK_dial cenv rest (cenv.NewSubstrateAPI rpc)

/-- The six results of `reconnectChainSDK`. -/
structure Reconnected where
  api : Option Api
  metadata : Option Nat
  runtimeVersion : Option Nat
  keyEvents : Option Bytes
  genesisHash : Hash
  err : Option Err
  deriving DecidableEq, Repr

/-- The statement `return nil, nil, nil, nil, types.Hash{},
pattern.ERR_RPC_CONNECTION`. -/
def Reconnected.failed : Reconnected :=
  ⟨none, none, none, none, zeroHash, some .ERR_RPC_CONNECTION⟩

/-- The function `reconnectChainSDK`. -/
def reconnectChainSDK (cenv : ConnEnv) (rpcs : List String) : Reconnected :=
  match (reconnectChainSDK_dial cenv rpcs (none, none)).1 with
  | none => Reconnected.failed
  | some api =>
    match cenv.GetMetadataLatest api with
    | .error _ => Reconnected.failed
    | .ok metadata =>
      match cenv.GetBlockHash api with
      | .error _ => Reconnected.failed
      | .ok genesisHash =>
        match cenv.GetRuntimeVersionLatest api with
        | .error _ => Reconnected.failed
        | .ok runtimeVer =>
          match cenv.CreateStorageKey metadata with
          | .error _ => Reconnected.failed
          | .ok keyEvents =>
            ⟨some api, some metadata, some runtimeVer, some keyEvents, genesisHash, none⟩

/-- The method `Reconnect`: its result and the SDK as it leaves it.  Closing
the client of the old connection has no effect on the fields. -/
def Reconnect (cenv : ConnEnv) (c : ChainSDK) : Option Err × ChainSDK :=
  let c := if c.api.isSome then { c with api := none } else c
  let r := reconnectChainSDK cenv c.rpcAddr
  let c := { c with api := r.api, metadata := r.metadata, runtimeVersion := r.runtimeVersion,
                    keyEvents := r.keyEvents, genesisHash := r.genesisHash }
  match r.err with
  | some err => (some err, c)
  | none => (none, { c with chainState := true })

/-- A network with the endpoint "down", which cannot be dialled, on which
every other endpoint connects and answers: metadata 1, runtime version 2, the
genesis hash `[7]` and the event key `[1]`. -/
def sampleNet : ConnEnv where
  NewSubstrateAPI := fun url =>
    if url = "down" then (none, some (.new "dial failed")) else (some ⟨url⟩, none)
  GetMetadataLatest := fun _ => .ok 1
  GetBlockHash := fun _ => .ok [7]
  GetRuntimeVersionLatest := fun _ => .ok 2
  CreateStorageKey := fun m => .ok [m]
  KeyringPairFromSecret := fun _ => .ok [1, 2, 3]
  EncodePublicKeyAsCessAccount := fun _ => .ok "cXsigner"
  SysProperties := fun _ => .ok "TCESS"
  p2pNew := fun _ _ => .ok true

/-- An SDK connected to the endpoint "old" with a populated session and the
liveness flag true; its only endpoint is "down". -/
def strandedSDK : ChainSDK :=
  { api := some ⟨"old"⟩, chainState := true, metadata := some 1, runtimeVersion := some 2,
    keyEvents := some [1], genesisHash := [7], keyring := none, rpcAddr := ["down"],
    timeForBlockOut := 10, tokenSymbol := "TCESS", signatureAcc := "", name := "sdk",
    enabledP2P := false }

/-! ## `core/erasure/rs.go` -/

/-- The constants of the `pattern` package `rs.go` refers to. -/
structure ErasurePattern where
  SegmentSize : Nat
  DataShards : Nat
  ParShards : Nat

/-- An entry of the file system: a regular file with its content, or a
directory. -/
inductive FileNode where
  | file (content : Bytes)
  | dir
  deriving DecidableEq, Repr

/-- The file system: what each path names.  Only the reasons of failure listed
with each operation below are modelled; an operation never fails for want of
space or permission, nor for a name the system refuses for its length or its
characters.  Paths are taken as written, with `/` as the separator.  The
directory a path lies in is what `filepath.Dir` gives for it, the argument
`dir` of the operations that create files. -/
abbrev FS := String → Option FileNode

/-- The file system in which `path` names a regular file with this content. -/
def FS.put (fs : FS) (path : String) (content : Bytes) : FS :=
  fun q => if q = path then some (.file content) else fs q

/-- The `os.FileInfo` of a path, as far as the code reads it. -/
structure FileInfo where
  IsDir : Bool
  Size : Nat
  deriving DecidableEq, Repr

/-- The call `os.Stat(path)`: it fails when nothing has that name. -/
def os_Stat (fs : FS) (path : String) : Except Err FileInfo :=
  match fs path with
  | none => .error (.new "no such file or directory")
  | some (.file content) => .ok ⟨false, content.length⟩
  | some .dir => .ok ⟨true, 0⟩

/-- The call `ioutil.ReadFile(path)`: it fails unless the path names a regular
file. -/
def ioutil_ReadFile (fs : FS) (path : String) : Except Err Bytes :=
  match fs path with
  | some (.file content) => .ok content
  | some .dir => .error (.new "is a directory")
  | none => .error (.new "no such file or directory")

/-- Whether `path` can name a regular file: it is not empty and does not end
in a separator. -/
def fileName (path : String) : Bool :=
  path != "" && path.toList.getLast? != some '/'

/-- Whether the file system has a place for a file named `path`: the path can
name a file and the directory it lies in exists. -/
def FS.hasPlace (fs : FS) (dir : String → String) (path : String) : Bool :=
  fileName path && fs (dir path) == some .dir

/-- The call `os.Create(path)`: it fails when the path names a directory, when
the path is empty or ends in a separator and when the directory it lies in
does not exist, and otherwise leaves an empty regular file. -/
def os_Create (dir : String → String) (fs : FS) (path : String) : Except Err FS :=
  match fs path with
  | some .dir => .error (.new "is a directory")
  | _ =>
    if fs.hasPlace dir path then .ok (fs.put path [])
    else .error (.new "no such file or directory")

/-- A `reedsolomon.Encoder`: the answers of its methods.  A shard that is
`none` is a nil slice. -/
structure Encoder where
  Split : Bytes → Except Err (List Bytes)
  /-- The error of `Encode(shards)`, or the shards as the call leaves them. -/
  Encode : List Bytes → Except Err (List Bytes)
  Verify : List (Option Bytes) → Bool × Option Err
  /-- The error of `Reconstruct(shards)`, or the shards as the call leaves
  them. -/
  Reconstruct : List (Option Bytes) → Except Err (List (Option Bytes))
  /-- The bytes `Join(dst, shards, outSize)` writes to `dst`, and its
  error. -/
  Join : List (Option Bytes) → Nat → Bytes × Option Err

/-- The answers of what `rs.go` calls outside the file system. -/
structure ErasureEnv where
  /-- The function `filepath.Dir`. -/
  Dir : String → String
  /-- The function `filepath.Join` of two elements. -/
  Join : String → String → String
  CalcSHA256 : Bytes → Except Err String
  /-- The function `reedsolomon.New(datashards, parshards)`. -/
  New : Nat → Nat → Except Err Encoder

/-- Statements of a function of `rs.go` whose results have type `ρ`: they
read and write the file system. -/
def FM (ρ α : Type) : Type := FS → Res ρ α × FS

/-- Sequencing of statements. -/
def FM.bind {ρ α β : Type} (m : FM ρ α) (f : α → FM ρ β) : FM ρ β := fun fs =>
  match m fs with
  | (.next a, fs1) => f a fs1
  | (.ret r, fs1) => (.ret r, fs1)
  | (.panic, fs1) => (.panic, fs1)
  | (.blocked, fs1) => (.blocked, fs1)

instance {ρ : Type} : Monad (FM ρ) where
  pure a := fun fs => (.next a, fs)
  bind := FM.bind

/-- The statement `return r`. -/
def FM.ret {ρ α : Type} (r : ρ) : FM ρ α := fun fs => (.ret r, fs)

/-- A run-time panic. -/
def FM.panic {ρ α : Type} : FM ρ α := fun fs => (.panic, fs)

/-- The pattern `v, err := f(); if err != nil { return onErr err }`. -/
def FM.orRet {ρ α : Type} (x : Except Err α) (onErr : Err → ρ) : FM ρ α :=
  match x with
  | .ok a => pure a
  | .error e => FM.ret (onErr e)

/-- Reading the file system. -/
def FM.get {ρ : Type} : FM ρ FS := fun fs => (.next fs, fs)

/-- Replacing the file system by the one an operation leaves. -/
def FM.set {ρ : Type} (fs1 : FS) : FM ρ Unit := fun _ => (.next (), fs1)

/-- `ReedSolomonRestore`, lines 90-96: the loop `for k, v := range shardspath`
from index `k` on, the paths not yet visited being the first argument; the
value is `shards` as the loop leaves it.  Indexing `shards[k]` outside the
slice is a run-time panic. -/
def ReedSolomonRestore_load : List String → Nat → List (Option Bytes) →
    FM (Option Err) (List (Option Bytes))
  | [], _, shards => pure shards
  | v :: rest, k, shards => do
      let fs ← FM.get
      if k < shards.length then
        match ioutil_ReadFile fs v with
        | .ok data => ReedSolomonRestore_load rest (k + 1) (shards.set k (some data))
        | .error _ => ReedSolomonRestore_load rest (k + 1) (shards.set k none)
      else
        FM.panic

/-- The function `ReedSolomonRestore`; its result is its error. -/
def ReedSolomonRestore (C : ErasurePattern) (os : ErasureEnv) (outpath : String)
    (shardspath : List String) : FM (Option Err) Empty := do
  let fs ← FM.get
  if let .ok _ := os_Stat fs outpath then
    FM.ret none
  let datashards := C.DataShards
  let parshards := C.ParShards
  let enc ← FM.orRet (os.New datashards parshards) some
  let shards ← ReedSolomonRestore_load shardspath 0 (List.replicate (datashards + parshards) none)
  let (ok, _) := enc.Verify shards
  let shards ←
    if !ok then do
      let shards ← FM.orRet (enc.Reconstruct shards) some
      let (ok, err) := enc.Verify shards
      if !ok then
        FM.ret err
      pure shards
    else
      pure shards
  let fs ← FM.get
  let fs1 ← FM.orRet (os_Create os.Dir fs outpath) some
  FM.set fs1
  let first ←
    match shards with
    | s0 :: _ => pure s0
    | [] => FM.panic
  let (written, err) := enc.Join shards ((first.getD []).length * datashards)
  FM.set (fs1.put outpath written)
  FM.ret err

/-- The first `count` pieces of `n` bytes of `l`. -/
def chunks (n : Nat) : Nat → Bytes → List Bytes
  | 0, _ => []
  | count + 1, l => l.take n :: chunks n count (l.drop n)

/-- The byte-wise sum of shards of `n` bytes. -/
def sumShards (n : Nat) (data : List Bytes) : Bytes :=
  data.foldl (fun acc x => List.zipWith (fun a c => (a + c) % 256) acc x) (List.replicate n 0)

/-- A sample codec with `d` data shards and `p` parity shards, each parity
shard being the byte-wise sum of the data shards.  It verifies and joins as the
library does; it reconstructs nothing: when every shard is present there is
nothing to do, otherwise it reports an error. -/
def sampleEncoder (d p : Nat) : Encoder where
  Split := fun b =>
    if b.isEmpty then .error (.new "not enough data to fill the number of requested shards")
    else
      let perShard := (b.length + d - 1) / d
      .ok (chunks perShard d (b ++ List.replicate (perShard * d - b.length) 0)
        ++ List.replicate p (List.replicate perShard 0))
  Encode := fun shards =>
    if shards.length != d + p then .error (.new "too few shards given")
    else .ok (shards.take d ++
      List.replicate p (sumShards ((shards.headD []).length) (shards.take d)))
  Verify := fun shards =>
    if shards.length != d + p then (false, some (.new "too few shards given"))
    else if shards.any Option.isNone then (false, some (.new "no shard data"))
    else
      let present := shards.filterMap id
      let size := (present.headD []).length
      if present.any (fun x => x.length != size) then
        (false, some (.new "shard sizes do not match"))
      else (present.drop d == List.replicate p (sumShards size (present.take d)), none)
  Reconstruct := fun shards =>
    if shards.length != d + p then .error (.new "too few shards given")
    else
      let present := shards.filterMap id
      let size := (present.headD []).length
      if present.any (fun x => x.length != size) then .error (.new "shard sizes do not match")
      else if shards.any Option.isNone then .error (.new "too few shards given")
      else .ok shards
  Join := fun shards outSize =>
    if shards.length < d then ([], some (.new "too few shards given"))
    else if (shards.take d).any Option.isNone then
      ([], some (.new "reconstruction required as one or more required data shards are nil"))
    else
      let data := ((shards.take d).filterMap id).flatten
      if data.length < outSize then
        ([], some (.new "not enough data to fill the number of requested shards"))
      else (data.take outSize, none)

/-- Constants for the sample: segments of four bytes, two data shards and one
parity shard. -/
def sampleErasure : ErasurePattern := ⟨4, 2, 1⟩

/-- A sample of `filepath.Dir` on relative paths without redundant elements:
what stands before the last slash, and "." when the path has none. -/
def sampleDir (path : String) : String :=
  if path.toList.contains '/' then
    String.mk ((path.toList.reverse.dropWhile (fun c => c != '/')).drop 1).reverse
  else "."

/-- A sample of the helpers of `rs.go`: the directory of a path is
`sampleDir`, a shard is named by its bytes in decimal, and the codec is
`sampleEncoder`. -/
def sampleOs : ErasureEnv where
  Dir := sampleDir
  Join := fun a b => a ++ "/" ++ b
  CalcSHA256 := fun x => .ok ("-".intercalate (x.map toString))
  New := fun d p =>
    if d = 0 then .error (.new "cannot create Encoder with less than one data shard")
    else .ok (sampleEncoder d p)

/-- A `pattern.IdleFileMeta` element of the input of `SubmitIdleFile`, as far
as the code reads it; `Hash` is a Go string. -/
structure IdleFileMeta where
  Size : Nat
  BlockNum : Nat
  BlockSize : Nat
  ScanSize : Nat
  MinerAcc : Bytes
  Hash : Bytes
  deriving DecidableEq, Repr

/-- `SubmitIdleFile`, lines 335-362: the loop `for i := 0; i < len(idlefiles);
i++`, the entries not yet visited being the first argument and `submit` the
second; the value is `submit` as the loop leaves it.  A `continue` goes on with
the next entry, the `break` ends the loop. -/
def SubmitIdleFile_loop {ρ : Type} (P : Pattern) (env : Env) :
    List IdleFileMeta → List IdleMetadata → M ρ (List IdleMetadata)
  | [], submit => pure submit
  | f :: todo, submit => do
      let filehash : FileHash := List.replicate P.FileHashLen 0
      perform (.NewAccountID f.MinerAcc)
      match env.NewAccountID f.MinerAcc with
      | .error _ => SubmitIdleFile_loop P env todo submit
      | .ok acc =>
        if f.Hash.length != P.FileHashLen then
          SubmitIdleFile_loop P env todo submit
        else do
          let filehash ← copyString P.FileHashLen f.Hash 0 filehash
          let ele : IdleMetadata :=
            { Size := f.Size, BlockNum := f.BlockNum, BlockSize := f.BlockSize,
              ScanSize := f.ScanSize, Acc := acc, Hash := filehash }
          let submit := submit ++ [ele]
          if submit.length ≥ P.MaxSubmitedIdleFileMeta then
            pure submit
          else
            SubmitIdleFile_loop P env todo submit

/-- The method `SubmitIdleFile` (it has no deferred recover of its own). -/
def SubmitIdleFile (P : Pattern) (env : Env) (teeAcc : Bytes) (idlefiles : List IdleFileMeta)
    (signals : List Signal) : M R2 Empty := do
  let submit ← SubmitIdleFile_loop P env idlefiles []
  let r ← callOp (SubmitIdleMetadata env teeAcc submit signals)
  ret r

/-- An input entry is valid when its miner account converts to an account id
and its hash string has exactly the fixed hash length. -/
def IdleFileMeta.valid (P : Pattern) (env : Env) (f : IdleFileMeta) : Bool :=
  (env.NewAccountID f.MinerAcc).isOk && f.Hash.length == P.FileHashLen

/-- The element submitted for an input entry: `Size`, `BlockNum`, `BlockSize`
and `ScanSize` unchanged, the bytes of the hash string as `Hash`, and the
account id the miner account converts to (an empty one when it does not
convert). -/
def IdleFileMeta.toMetadata (env : Env) (f : IdleFileMeta) : IdleMetadata :=
  { Size := f.Size, BlockNum := f.BlockNum, BlockSize := f.BlockSize, ScanSize := f.ScanSize,
    Acc := match env.NewAccountID f.MinerAcc with
      | .ok acc => acc
      | .error _ => [],
    Hash := f.Hash }

/-- The first `min(MaxSubmitedIdleFileMeta, number of valid entries)` valid
entries of the input in their original order, each as the element submitted for
it. -/
def submittedIdleFiles (P : Pattern) (env : Env) (idlefiles : List IdleFileMeta) :
    List IdleMetadata :=
  ((idlefiles.filter (IdleFileMeta.valid P env)).take
    (min P.MaxSubmitedIdleFileMeta (idlefiles.filter (IdleFileMeta.valid P env)).length)).map
    (IdleFileMeta.toMetadata env)

/-- What a caller without a deferred recover returns with `return op(...)`. -/
def returned {ρ : Type} (x : Option ρ × St) : Res ρ Empty × St :=
  match x with
  | (some r, s1) => (.ret r, s1)
  | (none, s1) => (.blocked, s1)

/-- The node of `sampleEnv`, on which a miner account converts to an account id
when it has three bytes. -/
def pickyEnv : Env :=
  { sampleEnv with
    NewAccountID := fun b => if b.length = 3 then .ok b else .error (.new "invalid account") }

/-- The constants of `samplePattern` with content hashes of two bytes and at
most two idle files in one submission. -/
def smallPattern : Pattern :=
  { samplePattern with FileHashLen := 2, MaxSubmitedIdleFileMeta := 2 }

/-- Five input entries: a valid one, one with a miner account that does not
convert, one with a hash of three bytes, and two more valid ones. -/
def sampleIdleFiles : List IdleFileMeta :=
  [⟨10, 1, 2, 3, [1, 1, 1], [97, 98]⟩, ⟨20, 1, 2, 3, [1, 1], [97, 99]⟩,
    ⟨30, 1, 2, 3, [1, 1, 1], [97, 98, 99]⟩, ⟨40, 4, 5, 6, [2, 2, 2], [98, 98]⟩,
    ⟨50, 7, 8, 9, [3, 3, 3], [99, 99]⟩]

/-- A directory that holds the three shard files of the segment `[1, 2, 3, 4]`
under `sampleOs`, the first of them with the content `[9, 9]` instead of
`[1, 2]`, and a fourth file "dir/more". -/
def corruptFS : FS := fun q =>
  if q = "dir/1-2" then some (.file [9, 9])
  else if q = "dir/3-4" then some (.file [3, 4])
  else if q = "dir/4-6" then some (.file [4, 6])
  else if q = "dir/more" then some (.file [0, 0])
  else none

/-- The node of `undecodableEnv`, on an SDK on which the signing step of every
call panics. -/
def panickingEnv : Env :=
  { undecodableEnv with SignPanics := fun _ _ => true }

/-- The node of `panickingEnv`, on which the signing identity is a registered
gateway with the stored peer id `samplePeer`. -/
def panickingGatewayEnv : Env :=
  { panickingEnv with QueryDeossPeerPublickey := fun _ => .ok samplePeer }

/-! ## Lemmas on the control flow -/

theorem bind_next {ρ α β : Type} (m : M ρ α) (f : α → M ρ β) (s s1 : St) (a : α)
    (h : m s = (.next a, s1)) : (m >>= f) s = f a s1 := by
  show M.bind m f s = _
  simp [M.bind, h]

theorem selectLoop_skip {ρ : Type} (mk : String → Option Err → ρ)
    (onInBlock : Hash → M ρ String) (txhash : String) (pre rest : List Signal)
    (hpre : pre.all Signal.noInclusion = true) (s : St) :
    selectLoop mk onInBlock txhash (pre ++ rest) s =
      selectLoop mk onInBlock txhash rest { s with trace := s.trace ++ pre.map .Recv } := by
  induction pre generalizing s with
  | nil => simp
  | cons x pre ih =>
    simp only [List.all_cons, Bool.and_eq_true] at hpre
    cases x with
    | status st =>
      have hst : st.IsInBlock = false := by simpa [Signal.noInclusion] using hpre.1
      simp only [List.cons_append, selectLoop, hst]
      show M.bind _ _ s = _
      simp [M.bind, perform, St.log, ih hpre.2]
    | err e => simp [Signal.noInclusion] at hpre
    | timeout => simp [Signal.noInclusion] at hpre

theorem selectLoop_inBlock {ρ : Type} (mk : String → Option Err → ρ)
    (onInBlock : Hash → M ρ String) (txhash : String) (pre rest : List Signal) (block : Hash)
    (hpre : pre.all Signal.noInclusion = true) (s : St) :
    selectLoop mk onInBlock txhash (pre ++ inBlock block :: rest) s =
      ((onInBlock block >>= fun txhash1 => selectLoop mk onInBlock txhash1 rest)
        { s with trace := s.trace ++ (pre.map .Recv ++ [.Recv (inBlock block)]) }) := by
  rw [selectLoop_skip _ _ _ _ _ hpre]
  simp only [inBlock, selectLoop]
  show M.bind _ _ _ = _
  simp [M.bind, perform, St.log]

theorem selectLoop_inBlock_ret {ρ : Type} (mk : String → Option Err → ρ)
    (onInBlock : Hash → M ρ String) (txhash : String) (pre rest : List Signal) (block : Hash)
    (hpre : pre.all Signal.noInclusion = true) (s s2 : St) (r : ρ)
    (h : onInBlock block { s with trace := s.trace ++ (pre.map .Recv ++ [.Recv (inBlock block)]) }
      = (.ret r, s2)) :
    selectLoop mk onInBlock txhash (pre ++ inBlock block :: rest) s = (.ret r, s2) := by
  rw [selectLoop_inBlock _ _ _ _ _ _ hpre]
  show M.bind _ _ _ = _
  simp [M.bind, h]

theorem selectLoop_inBlock_panic {ρ : Type} (mk : String → Option Err → ρ)
    (onInBlock : Hash → M ρ String) (txhash : String) (pre rest : List Signal) (block : Hash)
    (hpre : pre.all Signal.noInclusion = true) (s s2 : St)
    (h : onInBlock block { s with trace := s.trace ++ (pre.map .Recv ++ [.Recv (inBlock block)]) }
      = (.panic, s2)) :
    selectLoop mk onInBlock txhash (pre ++ inBlock block :: rest) s = (.panic, s2) := by
  rw [selectLoop_inBlock _ _ _ _ _ _ hpre]
  show M.bind _ _ _ = _
  simp [M.bind, h]

theorem selectLoop_inBlock_next {ρ : Type} (mk : String → Option Err → ρ)
    (onInBlock : Hash → M ρ String) (txhash txhash1 : String) (pre rest : List Signal)
    (block : Hash) (hpre : pre.all Signal.noInclusion = true) (s s2 : St)
    (h : onInBlock block { s with trace := s.trace ++ (pre.map .Recv ++ [.Recv (inBlock block)]) }
      = (.next txhash1, s2)) :
    selectLoop mk onInBlock txhash (pre ++ inBlock block :: rest) s
      = selectLoop mk onInBlock txhash1 rest s2 := by
  rw [selectLoop_inBlock _ _ _ _ _ _ hpre]
  show M.bind _ _ _ = _
  simp [M.bind, h]

theorem selectLoop_timeout {ρ : Type} (mk : String → Option Err → ρ)
    (onInBlock : Hash → M ρ String) (txhash : String) (pre rest : List Signal)
    (hpre : pre.all Signal.noInclusion = true) (s : St) :
    selectLoop mk onInBlock txhash (pre ++ Signal.timeout :: rest) s =
      (.ret (mk txhash (some .ERR_RPC_TIMEOUT)),
        { s with trace := s.trace ++ (pre.map .Recv ++ [.Recv .timeout]) }) := by
  rw [selectLoop_skip _ _ _ _ _ hpre]
  simp only [selectLoop]
  show M.bind _ _ _ = _
  simp [M.bind, perform, St.log, ret]

theorem selectLoop_err {ρ : Type} (mk : String → Option Err → ρ)
    (onInBlock : Hash → M ρ String) (txhash : String) (pre rest : List Signal)
    (e : Option Err) (hpre : pre.all Signal.noInclusion = true) (s : St) :
    selectLoop mk onInBlock txhash (pre ++ Signal.err e :: rest) s =
      (.ret (mk txhash (errorsWrap e "[sub]")),
        { s with trace := s.trace ++ (pre.map .Recv ++ [.Recv (.err e)]) }) := by
  rw [selectLoop_skip _ _ _ _ _ hpre]
  simp only [selectLoop]
  show M.bind _ _ _ = _
  simp [M.bind, perform, St.log, ret]

theorem recovered_wait_ret {ρ α : Type} (zero : ρ) (submit : M ρ α) (wait : α → M ρ Empty)
    (s s1 s2 : St) (a : α) (r : ρ) (hsub : submit s = (.next a, s1))
    (hwait : wait a s1 = (.ret r, s2)) :
    recovered zero (submit >>= fun a => withSubscription (wait a)) s
      = (some r, { s2 with trace := s2.trace ++ [.TimerStop, .Unsubscribe] }) := by
  simp [recovered, bind_next _ _ _ _ _ hsub, withSubscription, withDefer, hwait, St.log]

theorem recovered_wait_panic {ρ α : Type} (zero : ρ) (submit : M ρ α) (wait : α → M ρ Empty)
    (s s1 s2 : St) (a : α) (hsub : submit s = (.next a, s1))
    (hwait : wait a s1 = (.panic, s2)) :
    recovered zero (submit >>= fun a => withSubscription (wait a)) s
      = (some zero, { s2 with trace := s2.trace ++ [.TimerStop, .Unsubscribe] }) := by
  simp [recovered, bind_next _ _ _ _ _ hsub, withSubscription, withDefer, hwait, St.log]

theorem wait_ret {ρ α : Type} (submit : M ρ α) (wait : α → M ρ Empty)
    (s s1 s2 : St) (a : α) (r : ρ) (hsub : submit s = (.next a, s1))
    (hwait : wait a s1 = (.ret r, s2)) :
    (submit >>= fun a => withSubscription (wait a)) s
      = (.ret r, { s2 with trace := s2.trace ++ [.TimerStop, .Unsubscribe] }) := by
  simp [bind_next _ _ _ _ _ hsub, withSubscription, withDefer, hwait, St.log]

/-! ## The bodies of `if status.IsInBlock` on a decoded event log -/

theorem CreateBucket_inBlock_absent (P : Pattern) (env : Env) (block : Hash)
    (events : EventRecords) (s : St) (hraw : env.GetStorageRaw block = none)
    (hdec : env.DecodeEventRecords block = (none, events))
    (habs : events.FileBank_CreateBucket = []) :
    CreateBucket_inBlock P env block s = (.ret (env.EncodeToHex block, some (.new P.ERR_Failed)),
      { s with trace := s.trace ++ [.GetStorageRaw block, .DecodeEventRecords] }) := by
  simp [CreateBucket_inBlock, fetchEvents, bind, M.bind, perform, check, pure, ret, hraw, hdec,
    habs, St.log]

theorem DeleteBucket_inBlock_absent (P : Pattern) (env : Env) (block : Hash)
    (events : EventRecords) (s : St) (hraw : env.GetStorageRaw block = none)
    (hdec : env.DecodeEventRecords block = (none, events))
    (habs : events.FileBank_DeleteBucket = []) :
    DeleteBucket_inBlock P env block s = (.ret (env.EncodeToHex block, some (.new P.ERR_Failed)),
      { s with trace := s.trace ++ [.GetStorageRaw block, .DecodeEventRecords] }) := by
  simp [DeleteBucket_inBlock, fetchEvents, bind, M.bind, perform, check, pure, ret, hraw, hdec,
    habs, St.log]

theorem UploadDeclaration_inBlock_absent (P : Pattern) (env : Env) (block : Hash)
    (events : EventRecords) (s : St) (hraw : env.GetStorageRaw block = none)
    (hdec : env.DecodeEventRecords block = (none, events))
    (habs : events.FileBank_UploadDeclaration = []) :
    UploadDeclaration_inBlock P env block s =
      (.ret (env.EncodeToHex block, some (.new P.ERR_Failed)),
        { s with trace := s.trace ++ [.GetStorageRaw block, .DecodeEventRecords] }) := by
  simp [UploadDeclaration_inBlock, fetchEvents, bind, M.bind, perform, check, pure, ret, hraw,
    hdec, habs, St.log]

theorem DeleteFile_inBlock_absent (P : Pattern) (env : Env) (hashs : List FileHash) (block : Hash)
    (events : EventRecords) (s : St) (hraw : env.GetStorageRaw block = none)
    (hdec : env.DecodeEventRecords block = (none, events))
    (habs : events.FileBank_DeleteFile = []) :
    DeleteFile_inBlock P env hashs block s =
      (.ret (env.EncodeToHex block, some hashs, some (.new P.ERR_Failed)),
        { s with trace := s.trace ++ [.GetStorageRaw block, .DecodeEventRecords] }) := by
  simp [DeleteFile_inBlock, fetchEvents, bind, M.bind, perform, check, pure, ret, hraw, hdec,
    habs, St.log]

theorem SubmitFileReport_inBlock_absent (P : Pattern) (env : Env) (block : Hash)
    (events : EventRecords) (s : St) (hraw : env.GetStorageRaw block = none)
    (hdec : env.DecodeEventRecords block = (none, events))
    (habs : events.FileBank_TransferReport = []) :
    SubmitFileReport_inBlock P env block s =
      (.ret (env.EncodeToHex block, none, some (.new P.ERR_Failed)),
        { s with trace := s.trace ++ [.GetStorageRaw block, .DecodeEventRecords] }) := by
  simp [SubmitFileReport_inBlock, fetchEvents, bind, M.bind, perform, check, pure, ret, hraw,
    hdec, habs, St.log]

theorem ReplaceIdleFiles_inBlock_absent (P : Pattern) (env : Env) (block : Hash)
    (events : EventRecords) (s : St) (hraw : env.GetStorageRaw block = none)
    (hdec : env.DecodeEventRecords block = (none, events))
    (habs : events.FileBank_ReplaceFiller = []) :
    ReplaceIdleFiles_inBlock P env block s =
      (.ret (env.EncodeToHex block, none, some (.new P.ERR_Failed)),
        { s with trace := s.trace ++ [.GetStorageRaw block, .DecodeEventRecords] }) := by
  simp [ReplaceIdleFiles_inBlock, fetchEvents, bind, M.bind, perform, check, pure, ret, hraw,
    hdec, habs, St.log]

theorem updateAddress_inBlock_absent (P : Pattern) (env : Env) (name : String) (block : Hash)
    (events : EventRecords) (s : St) (hraw : env.GetStorageRaw block = none)
    (hdec : env.DecodeEventRecords block = (none, events))
    (habs : (if isOssRole P name then events.Oss_OssUpdate else events.Sminer_UpdataIp) = []) :
    updateAddress_inBlock P env name block s =
      (.ret (env.EncodeToHex block, some (.new P.ERR_Failed)),
        { s with trace := s.trace ++ [.GetStorageRaw block, .DecodeEventRecords] }) := by
  by_cases h1 : isOssRole P name = true
  · rw [if_pos h1] at habs
    simp [updateAddress_inBlock, fetchEvents, bind, M.bind, perform, check, pure, ret, hraw, hdec,
      habs, St.log, h1]
  · rw [if_neg h1] at habs
    by_cases h2 : isBucketRole P name = true
    · simp [updateAddress_inBlock, fetchEvents, bind, M.bind, perform, check, pure, ret, hraw,
        hdec, St.log, h1, h2, habs]
    · simp [updateAddress_inBlock, fetchEvents, bind, M.bind, perform, check, pure, ret, hraw,
        hdec, St.log, h1, h2]

/-! ## Claims -/

/-- C1: in CreateBucket, DeleteBucket, UploadDeclaration, DeleteFile,
SubmitFileReport, ReplaceIdleFiles and updateAddress, once the extrinsic is
submitted, when the first inclusion notification arrives (after status
notifications without inclusion only), the raw event log of the block is
fetched and decodes without error, and the decoded record holds no event of
the kind the operation expects, the operation returns the error
`errors.New(pattern.ERR_Failed)` with the hex form of the block hash; the error
is not nil. -/
theorem absent_event_is_failure (P : Pattern) (env : Env) (s : St) (pre rest : List Signal)
    (block : Hash) (events : EventRecords)
    (hpre : pre.all Signal.noInclusion = true)
    (hraw : env.GetStorageRaw block = none)
    (hdec : env.DecodeEventRecords block = (none, events)) :
    (∀ owner_pkey name s1, CreateBucket_submit env owner_pkey name s = (.next (), s1) →
        events.FileBank_CreateBucket = [] →
        (CreateBucket P env owner_pkey name (pre ++ inBlock block :: rest) s).1
          = some (env.EncodeToHex block, some (.new P.ERR_Failed)))
    ∧ (∀ owner_pkey name s1, DeleteBucket_submit env owner_pkey name s = (.next (), s1) →
        events.FileBank_DeleteBucket = [] →
        (DeleteBucket P env owner_pkey name (pre ++ inBlock block :: rest) s).1
          = some (env.EncodeToHex block, some (.new P.ERR_Failed)))
    ∧ (∀ filehash dealinfo user s1,
        UploadDeclaration_submit P env filehash dealinfo user s = (.next (), s1) →
        events.FileBank_UploadDeclaration = [] →
        (UploadDeclaration P env filehash dealinfo user (pre ++ inBlock block :: rest) s).1
          = some (env.EncodeToHex block, some (.new P.ERR_Failed)))
    ∧ (∀ puk filehash hashs s1, DeleteFile_submit P env puk filehash s = (.next hashs, s1) →
        events.FileBank_DeleteFile = [] →
        (DeleteFile P env puk filehash (pre ++ inBlock block :: rest) s).1
          = some (env.EncodeToHex block, some hashs, some (.new P.ERR_Failed)))
    ∧ (∀ roothash s1, SubmitFileReport_submit env roothash s = (.next (), s1) →
        events.FileBank_TransferReport = [] →
        (SubmitFileReport P env roothash (pre ++ inBlock block :: rest) s).1
          = some (env.EncodeToHex block, none, some (.new P.ERR_Failed)))
    ∧ (∀ roothash s1, ReplaceIdleFiles_submit env roothash s = (.next (), s1) →
        events.FileBank_ReplaceFiller = [] →
        (ReplaceIdleFiles P env roothash (pre ++ inBlock block :: rest) s).1
          = some (env.EncodeToHex block, none, some (.new P.ERR_Failed)))
    ∧ (∀ name peerid s1, updateAddress_submit P env name peerid s = (.next (), s1) →
        (if isOssRole P name then events.Oss_OssUpdate else events.Sminer_UpdataIp) = [] →
        (updateAddress P env name peerid (pre ++ inBlock block :: rest) s).1
          = .ret (env.EncodeToHex block, some (.new P.ERR_Failed))) := by
  refine ⟨?_, ?_, ?_, ?_, ?_, ?_, ?_⟩
  · intro owner_pkey name s1 hsub habs
    unfold CreateBucket
    rw [recovered_wait_ret _ _ _ _ _ _ _ _ hsub (selectLoop_inBlock_ret _ _ _ _ _ _ hpre _ _ _
      (CreateBucket_inBlock_absent P env block events _ hraw hdec habs))]
  · intro owner_pkey name s1 hsub habs
    unfold DeleteBucket
    rw [recovered_wait_ret _ _ _ _ _ _ _ _ hsub (selectLoop_inBlock_ret _ _ _ _ _ _ hpre _ _ _
      (DeleteBucket_inBlock_absent P env block events _ hraw hdec habs))]
  · intro filehash dealinfo user s1 hsub habs
    unfold UploadDeclaration
    rw [recovered_wait_ret _ _ _ _ _ _ _ _ hsub (selectLoop_inBlock_ret _ _ _ _ _ _ hpre _ _ _
      (UploadDeclaration_inBlock_absent P env block events _ hraw hdec habs))]
  · intro puk filehash hashs s1 hsub habs
    unfold DeleteFile
    rw [recovered_wait_ret _ _ _ _ _ _ _ _ hsub (selectLoop_inBlock_ret _ _ _ _ _ _ hpre _ _ _
      (DeleteFile_inBlock_absent P env hashs block events _ hraw hdec habs))]
  · intro roothash s1 hsub habs
    unfold SubmitFileReport
    rw [recovered_wait_ret _ _ _ _ _ _ _ _ hsub (selectLoop_inBlock_ret _ _ _ _ _ _ hpre _ _ _
      (SubmitFileReport_inBlock_absent P env block events _ hraw hdec habs))]
  · intro roothash s1 hsub habs
    unfold ReplaceIdleFiles
    rw [recovered_wait_ret _ _ _ _ _ _ _ _ hsub (selectLoop_inBlock_ret _ _ _ _ _ _ hpre _ _ _
      (ReplaceIdleFiles_inBlock_absent P env block events _ hraw hdec habs))]
  · intro name peerid s1 hsub habs
    unfold updateAddress
    rw [wait_ret _ _ _ _ _ _ _ hsub (selectLoop_inBlock_ret _ _ _ _ _ _ hpre _ _ _
      (updateAddress_inBlock_absent P env name block events _ hraw hdec habs))]

/-- C1 at a concrete input: on `sampleEnv`, whose blocks decode to a record
without events, one pending notification followed by the inclusion in block
`[9]` makes each of the seven operations return `ERR_Failed`. -/
theorem absent_event_is_failure_witness :
    (CreateBucket samplePattern sampleEnv [1] [2] ([pending] ++ inBlock [9] :: [.timeout]) liveSt).1
        = some (sampleEnv.EncodeToHex [9], some (.new samplePattern.ERR_Failed))
    ∧ (DeleteBucket samplePattern sampleEnv [1] [2] ([pending] ++ inBlock [9] :: [.timeout]) liveSt).1
        = some (sampleEnv.EncodeToHex [9], some (.new samplePattern.ERR_Failed))
    ∧ (UploadDeclaration samplePattern sampleEnv sampleHash 0 0
          ([pending] ++ inBlock [9] :: [.timeout]) liveSt).1
        = some (sampleEnv.EncodeToHex [9], some (.new samplePattern.ERR_Failed))
    ∧ (DeleteFile samplePattern sampleEnv [1] [sampleHash]
          ([pending] ++ inBlock [9] :: [.timeout]) liveSt).1
        = some (sampleEnv.EncodeToHex [9], some [sampleHash], some (.new samplePattern.ERR_Failed))
    ∧ (SubmitFileReport samplePattern sampleEnv [sampleHash]
          ([pending] ++ inBlock [9] :: [.timeout]) liveSt).1
        = some (sampleEnv.EncodeToHex [9], none, some (.new samplePattern.ERR_Failed))
    ∧ (ReplaceIdleFiles samplePattern sampleEnv [sampleHash]
          ([pending] ++ inBlock [9] :: [.timeout]) liveSt).1
        = some (sampleEnv.EncodeToHex [9], none, some (.new samplePattern.ERR_Failed))
    ∧ (updateAddress samplePattern sampleEnv "oss" samplePeer
          ([pending] ++ inBlock [9] :: [.timeout]) liveSt).1
        = .ret (sampleEnv.EncodeToHex [9], some (.new samplePattern.ERR_Failed)) :=
  have h := absent_event_is_failure samplePattern sampleEnv liveSt [pending] [.timeout] [9] {}
    rfl rfl rfl
  ⟨h.1 [1] [2] _ rfl rfl, h.2.1 [1] [2] _ rfl rfl, h.2.2.1 sampleHash 0 0 _ rfl rfl,
    h.2.2.2.1 [1] [sampleHash] _ _ rfl rfl, h.2.2.2.2.1 [sampleHash] _ rfl rfl,
    h.2.2.2.2.2.1 [sampleHash] _ rfl rfl, h.2.2.2.2.2.2 "oss" samplePeer _ rfl rfl⟩

theorem DeleteFile_inBlock_present (P : Pattern) (env : Env) (hashs : List FileHash) (block : Hash)
    (events : EventRecords) (e : Event_DeleteFile) (es : List Event_DeleteFile) (s : St)
    (hraw : env.GetStorageRaw block = none)
    (hdec : env.DecodeEventRecords block = (none, events))
    (hev : events.FileBank_DeleteFile = e :: es) :
    DeleteFile_inBlock P env hashs block s =
      (.ret (env.EncodeToHex block, some e.Filehash, none),
        { s with trace := s.trace ++ [.GetStorageRaw block, .DecodeEventRecords] }) := by
  simp [DeleteFile_inBlock, fetchEvents, bind, M.bind, perform, check, pure, ret, hraw, hdec,
    hev, St.log, index0]

theorem SubmitFileReport_inBlock_present (P : Pattern) (env : Env) (block : Hash)
    (events : EventRecords) (e : Event_TransferReport) (es : List Event_TransferReport) (s : St)
    (hraw : env.GetStorageRaw block = none)
    (hdec : env.DecodeEventRecords block = (none, events))
    (hev : events.FileBank_TransferReport = e :: es) :
    SubmitFileReport_inBlock P env block s =
      (.ret (env.EncodeToHex block, some e.Failed_list, none),
        { s with trace := s.trace ++ [.GetStorageRaw block, .DecodeEventRecords] }) := by
  simp [SubmitFileReport_inBlock, fetchEvents, bind, M.bind, perform, check, pure, ret, hraw,
    hdec, hev, St.log, index0]

theorem ReplaceIdleFiles_inBlock_present (P : Pattern) (env : Env) (block : Hash)
    (events : EventRecords) (e : Event_ReplaceFiller) (es : List Event_ReplaceFiller) (s : St)
    (hraw : env.GetStorageRaw block = none)
    (hdec : env.DecodeEventRecords block = (none, events))
    (hev : events.FileBank_ReplaceFiller = e :: es) :
    ReplaceIdleFiles_inBlock P env block s =
      (.ret (env.EncodeToHex block, some e.Filler_list, none),
        { s with trace := s.trace ++ [.GetStorageRaw block, .DecodeEventRecords] }) := by
  simp [ReplaceIdleFiles_inBlock, fetchEvents, bind, M.bind, perform, check, pure, ret, hraw,
    hdec, hev, St.log, index0]

/-- C3: in DeleteFile, SubmitFileReport and ReplaceIdleFiles, once the
extrinsic is submitted, when the event log of the including block is fetched
and decodes without error and holds at least one event of the expected kind,
the operation returns a nil error, the hex form of the block hash as
transaction identifier, and as payload the list carried by the first such
event (`Filehash`, `Failed_list`, `Filler_list`). -/
theorem present_event_payload (P : Pattern) (env : Env) (s : St) (pre rest : List Signal)
    (block : Hash) (events : EventRecords)
    (hpre : pre.all Signal.noInclusion = true)
    (hraw : env.GetStorageRaw block = none)
    (hdec : env.DecodeEventRecords block = (none, events)) :
    (∀ puk filehash hashs s1 e es, DeleteFile_submit P env puk filehash s = (.next hashs, s1) →
        events.FileBank_DeleteFile = e :: es →
        (DeleteFile P env puk filehash (pre ++ inBlock block :: rest) s).1
          = some (env.EncodeToHex block, some e.Filehash, none))
    ∧ (∀ roothash s1 e es, SubmitFileReport_submit env roothash s = (.next (), s1) →
        events.FileBank_TransferReport = e :: es →
        (SubmitFileReport P env roothash (pre ++ inBlock block :: rest) s).1
          = some (env.EncodeToHex block, some e.Failed_list, none))
    ∧ (∀ roothash s1 e es, ReplaceIdleFiles_submit env roothash s = (.next (), s1) →
        events.FileBank_ReplaceFiller = e :: es →
        (ReplaceIdleFiles P env roothash (pre ++ inBlock block :: rest) s).1
          = some (env.EncodeToHex block, some e.Filler_list, none)) := by
  refine ⟨?_, ?_, ?_⟩
  · intro puk filehash hashs s1 e es hsub hev
    unfold DeleteFile
    rw [recovered_wait_ret _ _ _ _ _ _ _ _ hsub (selectLoop_inBlock_ret _ _ _ _ _ _ hpre _ _ _
      (DeleteFile_inBlock_present P env hashs block events e es _ hraw hdec hev))]
  · intro roothash s1 e es hsub hev
    unfold SubmitFileReport
    rw [recovered_wait_ret _ _ _ _ _ _ _ _ hsub (selectLoop_inBlock_ret _ _ _ _ _ _ hpre _ _ _
      (SubmitFileReport_inBlock_present P env block events e es _ hraw hdec hev))]
  · intro roothash s1 e es hsub hev
    unfold ReplaceIdleFiles
    rw [recovered_wait_ret _ _ _ _ _ _ _ _ hsub (selectLoop_inBlock_ret _ _ _ _ _ _ hpre _ _ _
      (ReplaceIdleFiles_inBlock_present P env block events e es _ hraw hdec hev))]

/-- C3 at a concrete input: on `eventfulEnv` every block carries two events of
each of the three kinds; the operations return the list of the first one. -/
theorem present_event_payload_witness :
    (DeleteFile samplePattern eventfulEnv [1] [sampleHash]
          ([pending] ++ inBlock [9] :: [.timeout]) liveSt).1
        = some (eventfulEnv.EncodeToHex [9], some [[1]], none)
    ∧ (SubmitFileReport samplePattern eventfulEnv [sampleHash]
          ([pending] ++ inBlock [9] :: [.timeout]) liveSt).1
        = some (eventfulEnv.EncodeToHex [9], some [[3]], none)
    ∧ (ReplaceIdleFiles samplePattern eventfulEnv [sampleHash]
          ([pending] ++ inBlock [9] :: [.timeout]) liveSt).1
        = some (eventfulEnv.EncodeToHex [9], some [[5]], none) :=
  have h := present_event_payload samplePattern eventfulEnv liveSt [pending] [.timeout] [9]
    (eventfulEnv.DecodeEventRecords [9]).2 rfl rfl rfl
  ⟨h.1 [1] [sampleHash] _ _ ⟨[[1]]⟩ [⟨[[2]]⟩] rfl rfl,
    h.2.1 [sampleHash] _ ⟨[[3]]⟩ [⟨[[4]]⟩] rfl rfl,
    h.2.2 [sampleHash] _ ⟨[[5]]⟩ [⟨[[6]]⟩] rfl rfl⟩

/-- C2, the code at a failing input: `Register` and `Exit` are called with the
accepted role name "oss" on `sampleEnv`, where the event log of block `[9]`
decodes without error to a record without events.  After the inclusion
notification neither call has returned (the result is still open); the
following timer expiry is consumed and the outcome is the timeout error with
the identifier of block `[9]`.  The sibling `updateAddress` returns
`ERR_Failed` at the inclusion notification. -/
theorem Register_Exit_absent_event_keep_waiting :
    sampleEnv.GetStorageRaw [9] = none
    ∧ sampleEnv.DecodeEventRecords [9] = (none, {})
    ∧ (Register samplePattern sampleEnv "oss" samplePeer "" 0 [inBlock [9]] liveSt).1 = none
    ∧ (Register samplePattern sampleEnv "oss" samplePeer "" 0 [inBlock [9], .timeout] liveSt).1
        = some (sampleEnv.EncodeToHex [9], "", some .ERR_RPC_TIMEOUT)
    ∧ Action.Recv .timeout ∈
        (Register samplePattern sampleEnv "oss" samplePeer "" 0 [inBlock [9], .timeout] liveSt).2.trace
    ∧ (Exit samplePattern sampleEnv "oss" [inBlock [9]] liveSt).1 = none
    ∧ (Exit samplePattern sampleEnv "oss" [inBlock [9], .timeout] liveSt).1
        = some (sampleEnv.EncodeToHex [9], some .ERR_RPC_TIMEOUT)
    ∧ Action.Recv .timeout ∈
        (Exit samplePattern sampleEnv "oss" [inBlock [9], .timeout] liveSt).2.trace
    ∧ (updateAddress samplePattern sampleEnv "oss" samplePeer [inBlock [9], .timeout] liveSt).1
        = .ret (sampleEnv.EncodeToHex [9], some (.new samplePattern.ERR_Failed)) := by
  refine ⟨rfl, rfl, rfl, rfl, ?_, rfl, rfl, ?_, rfl⟩ <;> decide

theorem DeleteFile_inBlock_panic (P : Pattern) (env : Env) (hashs : List FileHash) (block : Hash)
    (events : EventRecords) (d : Err) (s : St) (hraw : env.GetStorageRaw block = none)
    (hdec : env.DecodeEventRecords block = (some d, events))
    (habs : events.FileBank_DeleteFile = []) :
    DeleteFile_inBlock P env hashs block s =
      (.panic, { s with trace := s.trace ++ [.GetStorageRaw block, .DecodeEventRecords] }) := by
  simp [DeleteFile_inBlock, fetchEvents, bind, M.bind, perform, check, pure, hraw, hdec,
    habs, St.log, index0, panic]

theorem SubmitFileReport_inBlock_panic (P : Pattern) (env : Env) (block : Hash)
    (events : EventRecords) (d : Err) (s : St) (hraw : env.GetStorageRaw block = none)
    (hdec : env.DecodeEventRecords block = (some d, events))
    (habs : events.FileBank_TransferReport = []) :
    SubmitFileReport_inBlock P env block s =
      (.panic, { s with trace := s.trace ++ [.GetStorageRaw block, .DecodeEventRecords] }) := by
  simp [SubmitFileReport_inBlock, fetchEvents, bind, M.bind, perform, check, pure, hraw, hdec,
    habs, St.log, index0, panic]

theorem ReplaceIdleFiles_inBlock_panic (P : Pattern) (env : Env) (block : Hash)
    (events : EventRecords) (d : Err) (s : St) (hraw : env.GetStorageRaw block = none)
    (hdec : env.DecodeEventRecords block = (some d, events))
    (habs : events.FileBank_ReplaceFiller = []) :
    ReplaceIdleFiles_inBlock P env block s =
      (.panic, { s with trace := s.trace ++ [.GetStorageRaw block, .DecodeEventRecords] }) := by
  simp [ReplaceIdleFiles_inBlock, fetchEvents, bind, M.bind, perform, check, pure, hraw, hdec,
    habs, St.log, index0, panic]

/-- C4 fails as stated: on `undecodableEnv` the decoding of the event log of
block `[9]` fails and leaves no `FileBank_DeleteFile` event, the body of
`if status.IsInBlock` of `DeleteFile` panics on `events.FileBank_DeleteFile[0]`,
and `DeleteFile` returns a nil error (with an empty transaction identifier and
a nil list). -/
theorem DeleteFile_panic_returns_nil_error :
    undecodableEnv.DecodeEventRecords [9] = (some (.new "decode"), {})
    ∧ (DeleteFile_inBlock samplePattern undecodableEnv [sampleHash] [9] liveSt).1 = .panic
    ∧ (DeleteFile samplePattern undecodableEnv [1] [sampleHash] [inBlock [9]] liveSt).1
        = some ("", none, none) :=
  ⟨rfl, rfl, rfl⟩

/-- C5: in each of the ten submission operations, once the extrinsic is
submitted, when the timer expiry is received after status notifications
without inclusion only, the operation returns the error
`pattern.ERR_RPC_TIMEOUT` (with an empty transaction identifier), and the last
two external calls before it returns are the stop of the timer and
`sub.Unsubscribe()`. -/
theorem timeout_returns_timeout_and_unsubscribes (P : Pattern) (env : Env) (s : St)
    (pre rest : List Signal) (hpre : pre.all Signal.noInclusion = true) :
    (∀ teeAcc idlefiles s1, SubmitIdleMetadata_submit env teeAcc idlefiles s = (.next (), s1) →
        SubmitIdleMetadata env teeAcc idlefiles (pre ++ Signal.timeout :: rest) s
          = (some ("", some .ERR_RPC_TIMEOUT), { s1 with trace := s1.trace ++ (pre.map .Recv ++
              [.Recv .timeout, .TimerStop, .Unsubscribe]) }))
    ∧ (∀ owner_pkey name s1, CreateBucket_submit env owner_pkey name s = (.next (), s1) →
        CreateBucket P env owner_pkey name (pre ++ Signal.timeout :: rest) s
          = (some ("", some .ERR_RPC_TIMEOUT), { s1 with trace := s1.trace ++ (pre.map .Recv ++
              [.Recv .timeout, .TimerStop, .Unsubscribe]) }))
    ∧ (∀ owner_pkey name s1, DeleteBucket_submit env owner_pkey name s = (.next (), s1) →
        DeleteBucket P env owner_pkey name (pre ++ Signal.timeout :: rest) s
          = (some ("", some .ERR_RPC_TIMEOUT), { s1 with trace := s1.trace ++ (pre.map .Recv ++
              [.Recv .timeout, .TimerStop, .Unsubscribe]) }))
    ∧ (∀ filehash dealinfo user s1,
        UploadDeclaration_submit P env filehash dealinfo user s = (.next (), s1) →
        UploadDeclaration P env filehash dealinfo user (pre ++ Signal.timeout :: rest) s
          = (some ("", some .ERR_RPC_TIMEOUT), { s1 with trace := s1.trace ++ (pre.map .Recv ++
              [.Recv .timeout, .TimerStop, .Unsubscribe]) }))
    ∧ (∀ puk filehash hashs s1, DeleteFile_submit P env puk filehash s = (.next hashs, s1) →
        DeleteFile P env puk filehash (pre ++ Signal.timeout :: rest) s
          = (some ("", some hashs, some .ERR_RPC_TIMEOUT),
              { s1 with trace := s1.trace ++ (pre.map .Recv ++
              [.Recv .timeout, .TimerStop, .Unsubscribe]) }))
    ∧ (∀ roothash s1, SubmitFileReport_submit env roothash s = (.next (), s1) →
        SubmitFileReport P env roothash (pre ++ Signal.timeout :: rest) s
          = (some ("", none, some .ERR_RPC_TIMEOUT),
              { s1 with trace := s1.trace ++ (pre.map .Recv ++
              [.Recv .timeout, .TimerStop, .Unsubscribe]) }))
    ∧ (∀ roothash s1, ReplaceIdleFiles_submit env roothash s = (.next (), s1) →
        ReplaceIdleFiles P env roothash (pre ++ Signal.timeout :: rest) s
          = (some ("", none, some .ERR_RPC_TIMEOUT),
              { s1 with trace := s1.trace ++ (pre.map .Recv ++
              [.Recv .timeout, .TimerStop, .Unsubscribe]) }))
    ∧ (∀ role puk earnings pledge s1,
        Register_submit P env role puk earnings pledge (pre ++ Signal.timeout :: rest) s
          = (.next (), s1) →
        Register P env role puk earnings pledge (pre ++ Signal.timeout :: rest) s
          = (some ("", earnings, some .ERR_RPC_TIMEOUT),
              { s1 with trace := s1.trace ++ (pre.map .Recv ++
              [.Recv .timeout, .TimerStop, .Unsubscribe]) }))
    ∧ (∀ name peerid s1, updateAddress_submit P env name peerid s = (.next (), s1) →
        updateAddress P env name peerid (pre ++ Signal.timeout :: rest) s
          = (.ret ("", some .ERR_RPC_TIMEOUT), { s1 with trace := s1.trace ++ (pre.map .Recv ++
              [.Recv .timeout, .TimerStop, .Unsubscribe]) }))
    ∧ (∀ role s1, Exit_submit P env role s = (.next (), s1) →
        Exit P env role (pre ++ Signal.timeout :: rest) s
          = (some ("", some .ERR_RPC_TIMEOUT), { s1 with trace := s1.trace ++ (pre.map .Recv ++
              [.Recv .timeout, .TimerStop, .Unsubscribe]) })) := by
  refine ⟨?_, ?_, ?_, ?_, ?_, ?_, ?_, ?_, ?_, ?_⟩
  · intro teeAcc idlefiles s1 hsub
    unfold SubmitIdleMetadata
    rw [recovered_wait_ret _ _ _ _ _ _ _ _ hsub (selectLoop_timeout _ _ _ _ _ hpre _)]
    simp
  · intro owner_pkey name s1 hsub
    unfold CreateBucket
    rw [recovered_wait_ret _ _ _ _ _ _ _ _ hsub (selectLoop_timeout _ _ _ _ _ hpre _)]
    simp
  · intro owner_pkey name s1 hsub
    unfold DeleteBucket
    rw [recovered_wait_ret _ _ _ _ _ _ _ _ hsub (selectLoop_timeout _ _ _ _ _ hpre _)]
    simp
  · intro filehash dealinfo user s1 hsub
    unfold UploadDeclaration
    rw [recovered_wait_ret _ _ _ _ _ _ _ _ hsub (selectLoop_timeout _ _ _ _ _ hpre _)]
    simp
  · intro puk filehash hashs s1 hsub
    unfold DeleteFile
    rw [recovered_wait_ret _ _ _ _ _ _ _ _ hsub (selectLoop_timeout _ _ _ _ _ hpre _)]
    simp
  · intro roothash s1 hsub
    unfold SubmitFileReport
    rw [recovered_wait_ret _ _ _ _ _ _ _ _ hsub (selectLoop_timeout _ _ _ _ _ hpre _)]
    simp
  · intro roothash s1 hsub
    unfold ReplaceIdleFiles
    rw [recovered_wait_ret _ _ _ _ _ _ _ _ hsub (selectLoop_timeout _ _ _ _ _ hpre _)]
    simp
  · intro role puk earnings pledge s1 hsub
    unfold Register
    rw [recovered_wait_ret _ _ _ _ _ _ _ _ hsub (selectLoop_timeout _ _ _ _ _ hpre _)]
    simp
  · intro name peerid s1 hsub
    unfold updateAddress
    rw [wait_ret _ _ _ _ _ _ _ hsub (selectLoop_timeout _ _ _ _ _ hpre _)]
    simp
  · intro role s1 hsub
    unfold Exit
    rw [recovered_wait_ret _ _ _ _ _ _ _ _ hsub (selectLoop_timeout _ _ _ _ _ hpre _)]
    simp

/-- C5 at a concrete input: on `sampleEnv`, one pending notification followed
by the timer expiry. -/
theorem timeout_returns_timeout_and_unsubscribes_witness :
    (SubmitIdleMetadata sampleEnv [1] []
          ([pending] ++ Signal.timeout :: [inBlock [9]]) liveSt).1
        = some ("", some .ERR_RPC_TIMEOUT)
    ∧ (CreateBucket samplePattern sampleEnv [1] [2]
          ([pending] ++ Signal.timeout :: [inBlock [9]]) liveSt).1
        = some ("", some .ERR_RPC_TIMEOUT)
    ∧ (DeleteBucket samplePattern sampleEnv [1] [2]
          ([pending] ++ Signal.timeout :: [inBlock [9]]) liveSt).1
        = some ("", some .ERR_RPC_TIMEOUT)
    ∧ (UploadDeclaration samplePattern sampleEnv sampleHash 0 0
          ([pending] ++ Signal.timeout :: [inBlock [9]]) liveSt).1
        = some ("", some .ERR_RPC_TIMEOUT)
    ∧ (DeleteFile samplePattern sampleEnv [1] [sampleHash]
          ([pending] ++ Signal.timeout :: [inBlock [9]]) liveSt).1
        = some ("", some [sampleHash], some .ERR_RPC_TIMEOUT)
    ∧ (SubmitFileReport samplePattern sampleEnv [sampleHash]
          ([pending] ++ Signal.timeout :: [inBlock [9]]) liveSt).1
        = some ("", none, some .ERR_RPC_TIMEOUT)
    ∧ (ReplaceIdleFiles samplePattern sampleEnv [sampleHash]
          ([pending] ++ Signal.timeout :: [inBlock [9]]) liveSt).1
        = some ("", none, some .ERR_RPC_TIMEOUT)
    ∧ (Register samplePattern sampleEnv "sminer" samplePeer "cXabc" 5
          ([pending] ++ Signal.timeout :: [inBlock [9]]) liveSt).1
        = some ("", "cXabc", some .ERR_RPC_TIMEOUT)
    ∧ (updateAddress samplePattern sampleEnv "oss" samplePeer
          ([pending] ++ Signal.timeout :: [inBlock [9]]) liveSt).1
        = .ret ("", some .ERR_RPC_TIMEOUT)
    ∧ (Exit samplePattern sampleEnv "sminer"
          ([pending] ++ Signal.timeout :: [inBlock [9]]) liveSt).1
        = some ("", some .ERR_RPC_TIMEOUT) :=
  have h := timeout_returns_timeout_and_unsubscribes samplePattern sampleEnv liveSt [pending]
    [inBlock [9]] rfl
  ⟨congrArg Prod.fst (h.1 [1] [] _ rfl),
    congrArg Prod.fst (h.2.1 [1] [2] _ rfl),
    congrArg Prod.fst (h.2.2.1 [1] [2] _ rfl),
    congrArg Prod.fst (h.2.2.2.1 sampleHash 0 0 _ rfl),
    congrArg Prod.fst (h.2.2.2.2.1 [1] [sampleHash] _ _ rfl),
    congrArg Prod.fst (h.2.2.2.2.2.1 [sampleHash] _ rfl),
    congrArg Prod.fst (h.2.2.2.2.2.2.1 [sampleHash] _ rfl),
    congrArg Prod.fst (h.2.2.2.2.2.2.2.1 "sminer" samplePeer "cXabc" 5 _ rfl),
    congrArg Prod.fst (h.2.2.2.2.2.2.2.2.1 "oss" samplePeer _ rfl),
    congrArg Prod.fst (h.2.2.2.2.2.2.2.2.2 "sminer" _ rfl)⟩

/-- A non-nil error on the error channel: in each of the ten submission
operations, once the extrinsic is submitted, when the error `e` is received
after status notifications without inclusion only (hence before any inclusion
notification and before the timer expiry), the operation returns the error
`errors.Wrap(e, "[sub]")`; the cause `e` is recovered from it by unwrapping, and
it is not the timeout error. -/
theorem error_signal_wraps_cause (P : Pattern) (env : Env) (s : St)
    (pre rest : List Signal) (e : Err) (hpre : pre.all Signal.noInclusion = true) :
    ((Err.wrap e "[sub]").unwrap = some e ∧ Err.wrap e "[sub]" ≠ .ERR_RPC_TIMEOUT)
    ∧ (∀ teeAcc idlefiles s1,
        SubmitIdleMetadata_submit env teeAcc idlefiles s = (.next (), s1) →
        SubmitIdleMetadata env teeAcc idlefiles (pre ++ Signal.err (some e) :: rest) s
          = (some ("", some (.wrap e "[sub]")), { s1 with trace := s1.trace ++ (pre.map .Recv ++
              [.Recv (.err (some e)), .TimerStop, .Unsubscribe]) }))
    ∧ (∀ owner_pkey name s1, CreateBucket_submit env owner_pkey name s = (.next (), s1) →
        CreateBucket P env owner_pkey name (pre ++ Signal.err (some e) :: rest) s
          = (some ("", some (.wrap e "[sub]")), { s1 with trace := s1.trace ++ (pre.map .Recv ++
              [.Recv (.err (some e)), .TimerStop, .Unsubscribe]) }))
    ∧ (∀ owner_pkey name s1, DeleteBucket_submit env owner_pkey name s = (.next (), s1) →
        DeleteBucket P env owner_pkey name (pre ++ Signal.err (some e) :: rest) s
          = (some ("", some (.wrap e "[sub]")), { s1 with trace := s1.trace ++ (pre.map .Recv ++
              [.Recv (.err (some e)), .TimerStop, .Unsubscribe]) }))
    ∧ (∀ filehash dealinfo user s1,
        UploadDeclaration_submit P env filehash dealinfo user s = (.next (), s1) →
        UploadDeclaration P env filehash dealinfo user (pre ++ Signal.err (some e) :: rest) s
          = (some ("", some (.wrap e "[sub]")), { s1 with trace := s1.trace ++ (pre.map .Recv ++
              [.Recv (.err (some e)), .TimerStop, .Unsubscribe]) }))
    ∧ (∀ puk filehash hashs s1, DeleteFile_submit P env puk filehash s = (.next hashs, s1) →
        DeleteFile P env puk filehash (pre ++ Signal.err (some e) :: rest) s
          = (some ("", some hashs, some (.wrap e "[sub]")),
              { s1 with trace := s1.trace ++ (pre.map .Recv ++
              [.Recv (.err (some e)), .TimerStop, .Unsubscribe]) }))
    ∧ (∀ roothash s1, SubmitFileReport_submit env roothash s = (.next (), s1) →
        SubmitFileReport P env roothash (pre ++ Signal.err (some e) :: rest) s
          = (some ("", none, some (.wrap e "[sub]")),
              { s1 with trace := s1.trace ++ (pre.map .Recv ++
              [.Recv (.err (some e)), .TimerStop, .Unsubscribe]) }))
    ∧ (∀ roothash s1, ReplaceIdleFiles_submit env roothash s = (.next (), s1) →
        ReplaceIdleFiles P env roothash (pre ++ Signal.err (some e) :: rest) s
          = (some ("", none, some (.wrap e "[sub]")),
              { s1 with trace := s1.trace ++ (pre.map .Recv ++
              [.Recv (.err (some e)), .TimerStop, .Unsubscribe]) }))
    ∧ (∀ role puk earnings pledge s1,
        Register_submit P env role puk earnings pledge (pre ++ Signal.err (some e) :: rest) s
          = (.next (), s1) →
        Register P env role puk earnings pledge (pre ++ Signal.err (some e) :: rest) s
          = (some ("", earnings, some (.wrap e "[sub]")),
              { s1 with trace := s1.trace ++ (pre.map .Recv ++
              [.Recv (.err (some e)), .TimerStop, .Unsubscribe]) }))
    ∧ (∀ name peerid s1, updateAddress_submit P env name peerid s = (.next (), s1) →
        updateAddress P env name peerid (pre ++ Signal.err (some e) :: rest) s
          = (.ret ("", some (.wrap e "[sub]")), { s1 with trace := s1.trace ++ (pre.map .Recv ++
              [.Recv (.err (some e)), .TimerStop, .Unsubscribe]) }))
    ∧ (∀ role s1, Exit_submit P env role s = (.next (), s1) →
        Exit P env role (pre ++ Signal.err (some e) :: rest) s
          = (some ("", some (.wrap e "[sub]")), { s1 with trace := s1.trace ++ (pre.map .Recv ++
              [.Recv (.err (some e)), .TimerStop, .Unsubscribe]) })) := by
  refine ⟨⟨rfl, by simp⟩, ?_, ?_, ?_, ?_, ?_, ?_, ?_, ?_, ?_, ?_⟩
  · intro teeAcc idlefiles s1 hsub
    unfold SubmitIdleMetadata
    rw [recovered_wait_ret _ _ _ _ _ _ _ _ hsub (selectLoop_err _ _ _ _ _ _ hpre _)]
    simp [errorsWrap]
  · intro owner_pkey name s1 hsub
    unfold CreateBucket
    rw [recovered_wait_ret _ _ _ _ _ _ _ _ hsub (selectLoop_err _ _ _ _ _ _ hpre _)]
    simp [errorsWrap]
  · intro owner_pkey name s1 hsub
    unfold DeleteBucket
    rw [recovered_wait_ret _ _ _ _ _ _ _ _ hsub (selectLoop_err _ _ _ _ _ _ hpre _)]
    simp [errorsWrap]
  · intro filehash dealinfo user s1 hsub
    unfold UploadDeclaration
    rw [recovered_wait_ret _ _ _ _ _ _ _ _ hsub (selectLoop_err _ _ _ _ _ _ hpre _)]
    simp [errorsWrap]
  · intro puk filehash hashs s1 hsub
    unfold DeleteFile
    rw [recovered_wait_ret _ _ _ _ _ _ _ _ hsub (selectLoop_err _ _ _ _ _ _ hpre _)]
    simp [errorsWrap]
  · intro roothash s1 hsub
    unfold SubmitFileReport
    rw [recovered_wait_ret _ _ _ _ _ _ _ _ hsub (selectLoop_err _ _ _ _ _ _ hpre _)]
    simp [errorsWrap]
  · intro roothash s1 hsub
    unfold ReplaceIdleFiles
    rw [recovered_wait_ret _ _ _ _ _ _ _ _ hsub (selectLoop_err _ _ _ _ _ _ hpre _)]
    simp [errorsWrap]
  · intro role puk earnings pledge s1 hsub
    unfold Register
    rw [recovered_wait_ret _ _ _ _ _ _ _ _ hsub (selectLoop_err _ _ _ _ _ _ hpre _)]
    simp [errorsWrap]
  · intro name peerid s1 hsub
    unfold updateAddress
    rw [wait_ret _ _ _ _ _ _ _ hsub (selectLoop_err _ _ _ _ _ _ hpre _)]
    simp [errorsWrap]
  · intro role s1 hsub
    unfold Exit
    rw [recovered_wait_ret _ _ _ _ _ _ _ _ hsub (selectLoop_err _ _ _ _ _ _ hpre _)]
    simp [errorsWrap]

/-- The same at a concrete input: on `sampleEnv`, one pending notification
followed by the error "rejected"; the inclusion notification and anything later
is not looked at. -/
theorem error_signal_wraps_cause_witness :
    (SubmitIdleMetadata sampleEnv [1] []
          ([pending] ++ Signal.err (some (.new "rejected")) :: [inBlock [9]]) liveSt).1
        = some ("", some (.wrap (.new "rejected") "[sub]"))
    ∧ (CreateBucket samplePattern sampleEnv [1] [2]
          ([pending] ++ Signal.err (some (.new "rejected")) :: [inBlock [9]]) liveSt).1
        = some ("", some (.wrap (.new "rejected") "[sub]"))
    ∧ (DeleteBucket samplePattern sampleEnv [1] [2]
          ([pending] ++ Signal.err (some (.new "rejected")) :: [inBlock [9]]) liveSt).1
        = some ("", some (.wrap (.new "rejected") "[sub]"))
    ∧ (UploadDeclaration samplePattern sampleEnv sampleHash 0 0
          ([pending] ++ Signal.err (some (.new "rejected")) :: [inBlock [9]]) liveSt).1
        = some ("", some (.wrap (.new "rejected") "[sub]"))
    ∧ (DeleteFile samplePattern sampleEnv [1] [sampleHash]
          ([pending] ++ Signal.err (some (.new "rejected")) :: [inBlock [9]]) liveSt).1
        = some ("", some [sampleHash], some (.wrap (.new "rejected") "[sub]"))
    ∧ (SubmitFileReport samplePattern sampleEnv [sampleHash]
          ([pending] ++ Signal.err (some (.new "rejected")) :: [inBlock [9]]) liveSt).1
        = some ("", none, some (.wrap (.new "rejected") "[sub]"))
    ∧ (ReplaceIdleFiles samplePattern sampleEnv [sampleHash]
          ([pending] ++ Signal.err (some (.new "rejected")) :: [inBlock [9]]) liveSt).1
        = some ("", none, some (.wrap (.new "rejected") "[sub]"))
    ∧ (Register samplePattern sampleEnv "sminer" samplePeer "cXabc" 5
          ([pending] ++ Signal.err (some (.new "rejected")) :: [inBlock [9]]) liveSt).1
        = some ("", "cXabc", some (.wrap (.new "rejected") "[sub]"))
    ∧ (updateAddress samplePattern sampleEnv "oss" samplePeer
          ([pending] ++ Signal.err (some (.new "rejected")) :: [inBlock [9]]) liveSt).1
        = .ret ("", some (.wrap (.new "rejected") "[sub]"))
    ∧ (Exit samplePattern sampleEnv "sminer"
          ([pending] ++ Signal.err (some (.new "rejected")) :: [inBlock [9]]) liveSt).1
        = some ("", some (.wrap (.new "rejected") "[sub]")) :=
  have h := error_signal_wraps_cause samplePattern sampleEnv liveSt [pending]
    [inBlock [9]] (.new "rejected") rfl
  ⟨congrArg Prod.fst (h.2.1 [1] [] _ rfl),
    congrArg Prod.fst (h.2.2.1 [1] [2] _ rfl),
    congrArg Prod.fst (h.2.2.2.1 [1] [2] _ rfl),
    congrArg Prod.fst (h.2.2.2.2.1 sampleHash 0 0 _ rfl),
    congrArg Prod.fst (h.2.2.2.2.2.1 [1] [sampleHash] _ _ rfl),
    congrArg Prod.fst (h.2.2.2.2.2.2.1 [sampleHash] _ rfl),
    congrArg Prod.fst (h.2.2.2.2.2.2.2.1 [sampleHash] _ rfl),
    congrArg Prod.fst (h.2.2.2.2.2.2.2.2.1 "sminer" samplePeer "cXabc" 5 _ rfl),
    congrArg Prod.fst (h.2.2.2.2.2.2.2.2.2.1 "oss" samplePeer _ rfl),
    congrArg Prod.fst (h.2.2.2.2.2.2.2.2.2.2 "sminer" _ rfl)⟩

/-- C6, the code at a failing input: on `sampleEnv`, after one pending
notification the error channel delivers the nil value (the client was closed
while the operation waited).  `errors.Wrap(nil, "[sub]")` is nil, so each of the
ten submission operations returns a nil error with an empty transaction
identifier, as after a success, instead of an error; the inclusion notification
that follows is not looked at. -/
theorem nil_error_signal_returns_success :
    errorsWrap none "[sub]" = none
    ∧ (SubmitIdleMetadata sampleEnv [1] [] [pending, .err none, inBlock [9]] liveSt).1
        = some ("", none)
    ∧ (CreateBucket samplePattern sampleEnv [1] [2] [pending, .err none, inBlock [9]] liveSt).1
        = some ("", none)
    ∧ (DeleteBucket samplePattern sampleEnv [1] [2] [pending, .err none, inBlock [9]] liveSt).1
        = some ("", none)
    ∧ (UploadDeclaration samplePattern sampleEnv sampleHash 0 0
          [pending, .err none, inBlock [9]] liveSt).1 = some ("", none)
    ∧ (DeleteFile samplePattern sampleEnv [1] [sampleHash]
          [pending, .err none, inBlock [9]] liveSt).1 = some ("", some [sampleHash], none)
    ∧ (SubmitFileReport samplePattern sampleEnv [sampleHash]
          [pending, .err none, inBlock [9]] liveSt).1 = some ("", none, none)
    ∧ (ReplaceIdleFiles samplePattern sampleEnv [sampleHash]
          [pending, .err none, inBlock [9]] liveSt).1 = some ("", none, none)
    ∧ (Register samplePattern sampleEnv "sminer" samplePeer "cXabc" 5
          [pending, .err none, inBlock [9]] liveSt).1 = some ("", "cXabc", none)
    ∧ (updateAddress samplePattern sampleEnv "oss" samplePeer
          [pending, .err none, inBlock [9]] liveSt).1 = .ret ("", none)
    ∧ (Exit samplePattern sampleEnv "sminer" [pending, .err none, inBlock [9]] liveSt).1
        = some ("", none)
    ∧ (CreateBucket samplePattern sampleEnv [1] [2] [pending, .err none, inBlock [9]]
          liveSt).2.trace
        = [.NewAccountID [1], .NewCall .TX_FILEBANK_PUTBUCKET [.accountID [1], .bytes [2]],
            .CreateStorageKey .SYSTEM_ACCOUNT [1, 2, 3],
            .GetStorageLatest .SYSTEM_ACCOUNT [1, 2, 3],
            .Sign ⟨.TX_FILEBANK_PUTBUCKET, [.accountID [1], .bytes [2]]⟩ 7,
            .SubmitAndWatchExtrinsic ⟨.TX_FILEBANK_PUTBUCKET, [.accountID [1], .bytes [2]]⟩,
            .Recv pending, .Recv (.err none), .TimerStop, .Unsubscribe] := by
  refine ⟨rfl, rfl, rfl, rfl, rfl, rfl, rfl, rfl, rfl, rfl, rfl, rfl⟩

/-! ## The pre-read of `Register` -/

theorem storedPeerId_oss (P : Pattern) (env : Env) (role : String) (id : Bytes)
    (hoss : isOssRole P role = true) (h : storedPeerId P env role = some id) :
    env.QueryDeossPeerPublickey env.PublicKey = .ok id := by
  unfold storedPeerId at h
  rw [if_pos hoss] at h
  cases hq : env.QueryDeossPeerPublickey env.PublicKey with
  | error e => simp [hq] at h
  | ok v => simp [hq] at h; rw [h]

theorem storedPeerId_bucket (P : Pattern) (env : Env) (role : String) (id : Bytes)
    (hoss : isOssRole P role = false) (h : storedPeerId P env role = some id) :
    isBucketRole P role = true ∧
      ∃ minerinfo, env.QueryStorageMiner env.PublicKey = .ok minerinfo ∧ minerinfo.PeerId = id := by
  unfold storedPeerId at h
  rw [if_neg (by simp [hoss])] at h
  by_cases hb : isBucketRole P role = true
  · rw [if_pos hb] at h
    cases hq : env.QueryStorageMiner env.PublicKey with
    | error e => simp [hq] at h
    | ok v =>
      simp [hq] at h
      exact ⟨hb, v, rfl, h⟩
  · rw [if_neg hb] at h
    simp at h

/-- C7 fails as stated: on `minerEnv` the signing identity is a storage
provider whose stored peer id is `samplePeer` and whose stored beneficiary
account is "cX7"; `Register` with the same peer id and the earnings account
"cXother" hands the parsed account to `updateEarningsAcc` and returns the
transaction identifier of that call, which is not empty. -/
theorem Register_same_address_other_earnings :
    storedPeerId samplePattern minerEnv "sminer" = some samplePeer
    ∧ Register samplePattern minerEnv "sminer" samplePeer "cXother" 0 [] liveSt
        = (some ("0xea", "cXother", none),
            ⟨true, [.CreateStorageKey .SYSTEM_ACCOUNT [1, 2, 3], .QueryStorageMiner,
              .ParsingPublickey "cXother",
              .updateEarningsAcc [99, 88, 111, 116, 104, 101, 114]]⟩) :=
  ⟨rfl, rfl⟩

/-- C7 as amended: `Register` is called with a live session and a peer id of
the fixed length, the account storage key is built, and the pre-read shows
that the signing identity holds the role with a stored peer id equal to the
supplied one.  For the gateway role, and for the storage-provider role when
the supplied earnings account is empty or equal to the stored beneficiary
account, `Register` returns a nil error and an empty transaction identifier,
and its only external calls are the construction of the storage key and the
pre-read: no call is built, signed or submitted. -/
theorem Register_same_address_is_noop (P : Pattern) (env : Env) (s : St) (role : String)
    (puk : Bytes) (earnings : String) (pledge : Nat) (signals : List Signal)
    (hlive : s.chainState = true) (hlen : puk.length = P.PeerIdLen)
    (hkey : env.CreateStorageKey .SYSTEM_ACCOUNT env.PublicKey = none)
    (hstored : storedPeerId P env role = some puk) :
    (isOssRole P role = true →
        Register P env role puk earnings pledge signals s
          = (some ("", earnings, none), { s with trace := s.trace ++
              [.CreateStorageKey .SYSTEM_ACCOUNT env.PublicKey, .QueryDeossPeerPublickey] }))
    ∧ (isOssRole P role = false → ∀ minerinfo,
        env.QueryStorageMiner env.PublicKey = .ok minerinfo →
        (earnings = "" ∨ earnings = env.EncodePublicKeyAsCessAccount minerinfo.BeneficiaryAcc) →
        Register P env role puk earnings pledge signals s
          = (some ("", env.EncodePublicKeyAsCessAccount minerinfo.BeneficiaryAcc, none),
              { s with trace := s.trace ++
                [.CreateStorageKey .SYSTEM_ACCOUNT env.PublicKey, .QueryStorageMiner] })) := by
  constructor
  · intro hoss
    have hq := storedPeerId_oss P env role puk hoss hstored
    simp [Register, recovered, Register_submit, Register_switch, bind, M.bind, GetChainState,
      hlive, hlen, CreateStorageKey, perform, check, hkey, hoss, hq, CompareSlice, ret, pure,
      St.log]
  · intro hoss minerinfo hq hearn
    obtain ⟨hb, mi, hq2, hpeer⟩ := storedPeerId_bucket P env role puk hoss hstored
    rw [hq] at hq2
    cases hq2
    rcases hearn with h | h
    · simp [Register, recovered, Register_submit, Register_switch, bind, M.bind, GetChainState,
        hlive, hlen, CreateStorageKey, perform, check, hkey, hoss, hb, hq, hpeer, CompareSlice,
        ret, pure, St.log, h]
    · simp [Register, recovered, Register_submit, Register_switch, bind, M.bind, GetChainState,
        hlive, hlen, CreateStorageKey, perform, check, hkey, hoss, hb, hq, hpeer, CompareSlice,
        ret, pure, St.log, h]

/-- C7 as amended, at a concrete input: a registered gateway on `gatewayEnv`,
and a registered storage provider on `minerEnv` with an empty earnings
account. -/
theorem Register_same_address_is_noop_witness :
    (Register samplePattern gatewayEnv "oss" samplePeer "" 0 [] liveSt).1 = some ("", "", none)
    ∧ (Register samplePattern minerEnv "sminer" samplePeer "" 0 [] liveSt).1
        = some ("", "cX7", none) :=
  ⟨congrArg Prod.fst ((Register_same_address_is_noop samplePattern gatewayEnv liveSt "oss"
      samplePeer "" 0 [] rfl rfl rfl rfl).1 rfl),
    congrArg Prod.fst ((Register_same_address_is_noop samplePattern minerEnv liveSt "sminer"
      samplePeer "" 0 [] rfl rfl rfl rfl).2 rfl ⟨samplePeer, [7]⟩ rfl (Or.inl rfl))⟩

/-- C9: for the storage-provider role, with a live session, a peer id of the
fixed length and the account storage key built, when the pre-read shows an
existing registration whose stored peer id equals the supplied one:
if the supplied earnings account is non-empty, parses to a public key and
differs from the stored beneficiary account, `Register` hands the parsed key to
`updateEarningsAcc` and returns its transaction identifier and error, and
builds and submits neither a register call nor an update-address call (its
external calls are the key construction, the pre-read, the parsing and
`updateEarningsAcc`); if the supplied earnings account is empty or equal to the
stored one, nothing is submitted and the stored beneficiary account is
returned with a nil error. -/
theorem Register_earnings_update (P : Pattern) (env : Env) (s : St) (role : String)
    (puk : Bytes) (earnings : String) (pledge : Nat) (signals : List Signal)
    (minerinfo : MinerInfo)
    (hlive : s.chainState = true) (hlen : puk.length = P.PeerIdLen)
    (hkey : env.CreateStorageKey .SYSTEM_ACCOUNT env.PublicKey = none)
    (hoss : isOssRole P role = false) (hrole : isBucketRole P role = true)
    (hq : env.QueryStorageMiner env.PublicKey = .ok minerinfo)
    (hpeer : minerinfo.PeerId = puk) :
    (∀ key, earnings ≠ "" → env.ParsingPublickey earnings = .ok key →
        earnings ≠ env.EncodePublicKeyAsCessAccount minerinfo.BeneficiaryAcc →
        Register P env role puk earnings pledge signals s
          = (some ((env.updateEarningsAcc key).1, earnings, (env.updateEarningsAcc key).2),
              { s with trace := s.trace ++
                [.CreateStorageKey .SYSTEM_ACCOUNT env.PublicKey, .QueryStorageMiner,
                  .ParsingPublickey earnings, .updateEarningsAcc key] }))
    ∧ ((earnings = "" ∨ earnings = env.EncodePublicKeyAsCessAccount minerinfo.BeneficiaryAcc) →
        Register P env role puk earnings pledge signals s
          = (some ("", env.EncodePublicKeyAsCessAccount minerinfo.BeneficiaryAcc, none),
              { s with trace := s.trace ++
                [.CreateStorageKey .SYSTEM_ACCOUNT env.PublicKey, .QueryStorageMiner] })) := by
  constructor
  · intro key hne hparse hdiff
    have hdiff2 : ¬ env.EncodePublicKeyAsCessAccount minerinfo.BeneficiaryAcc = earnings :=
      fun h => hdiff h.symm
    simp [Register, recovered, Register_submit, Register_switch, bind, M.bind, GetChainState,
      hlive, hlen, CreateStorageKey, perform, check, hkey, hoss, hrole, hq, hpeer, CompareSlice,
      ret, pure, St.log, hne, hparse, hdiff2, orRet]
  · intro hearn
    rcases hearn with h | h
    · simp [Register, recovered, Register_submit, Register_switch, bind, M.bind, GetChainState,
        hlive, hlen, CreateStorageKey, perform, check, hkey, hoss, hrole, hq, hpeer, CompareSlice,
        ret, pure, St.log, h]
    · simp [Register, recovered, Register_submit, Register_switch, bind, M.bind, GetChainState,
        hlive, hlen, CreateStorageKey, perform, check, hkey, hoss, hrole, hq, hpeer, CompareSlice,
        ret, pure, St.log, h]

/-- C9 at a concrete input: the registered storage provider of `minerEnv`,
whose stored beneficiary account is "cX7", registers again with the earnings
account "cXnew", and with the stored one. -/
theorem Register_earnings_update_witness :
    Register samplePattern minerEnv "sminer" samplePeer "cXnew" 0 [] liveSt
        = (some ("0xea", "cXnew", none),
            ⟨true, [.CreateStorageKey .SYSTEM_ACCOUNT [1, 2, 3], .QueryStorageMiner,
              .ParsingPublickey "cXnew", .updateEarningsAcc [99, 88, 110, 101, 119]]⟩)
    ∧ Register samplePattern minerEnv "sminer" samplePeer "cX7" 0 [] liveSt
        = (some ("", "cX7", none),
            ⟨true, [.CreateStorageKey .SYSTEM_ACCOUNT [1, 2, 3], .QueryStorageMiner]⟩) :=
  have h := Register_earnings_update samplePattern minerEnv liveSt "sminer" samplePeer
  ⟨(h "cXnew" 0 [] ⟨samplePeer, [7]⟩ rfl rfl rfl rfl rfl rfl rfl).1 [99, 88, 110, 101, 119]
      (by decide) rfl (by decide),
    (h "cX7" 0 [] ⟨samplePeer, [7]⟩ rfl rfl rfl rfl rfl rfl rfl).2 (Or.inr rfl)⟩

/-! ## Validation of content hashes -/

theorem DeleteFile_fill_invalid (P : Pattern) (txhash : String) (f : Bytes)
    (hlen : f.length ≠ P.FileHashLen) (todo : List Bytes) (hf : f ∈ todo) (j : Nat)
    (hashs : List FileHash) (s : St) :
    ∃ hs, DeleteFile_fill P txhash todo j hashs s
      = (.ret (txhash, some hs, some (.new "invalid filehash")), s) := by
  induction todo generalizing j hashs with
  | nil => simp at hf
  | cons g todo ih =>
    by_cases hg : g.length = P.FileHashLen
    · have hf2 : f ∈ todo := by
        rcases List.mem_cons.mp hf with h | h
        · exact absurd (h ▸ hg) hlen
        · exact h
      simp only [DeleteFile_fill, bne_iff_ne, ne_eq, hg, not_true_eq_false, if_false]
      exact ih hf2 (j + 1) _
    · exact ⟨hashs, by simp [DeleteFile_fill, hg, ret]⟩

/-- C10: with a live session, for every string whose length differs from the
fixed content-hash length, `UploadDeclaration`, `QueryFileMetadata` and
`QueryStorageOrder` given that string, and `DeleteFile` given any list that
contains it, return the error `errors.New("invalid filehash")` and leave the
log of external calls as it was: no storage read, no call construction, no
submission is performed before returning. -/
theorem wrong_length_hash_rejected (P : Pattern) (env : Env) (s : St) (filehash : Bytes)
    (signals : List Signal) (hlive : s.chainState = true)
    (hlen : filehash.length ≠ P.FileHashLen) :
    (∀ dealinfo user, UploadDeclaration P env filehash dealinfo user signals s
        = (some ("", some (.new "invalid filehash")), s))
    ∧ QueryFileMetadata P env filehash s = (some (none, some (.new "invalid filehash")), s)
    ∧ QueryStorageOrder P env filehash s = (some (none, some (.new "invalid filehash")), s)
    ∧ (∀ puk list, filehash ∈ list →
        ∃ hashs, DeleteFile P env puk list signals s
          = (some ("", some hashs, some (.new "invalid filehash")), s)) := by
  have hlen2 : ¬ P.FileHashLen = filehash.length := fun h => hlen h.symm
  refine ⟨?_, ?_, ?_, ?_⟩
  · intro dealinfo user
    simp [UploadDeclaration, recovered, UploadDeclaration_submit, bind, M.bind, GetChainState,
      hlive, hlen, ret, pure]
  · simp [QueryFileMetadata, recovered, bind, M.bind, GetChainState, hlive, hlen2, ret, pure]
  · simp [QueryStorageOrder, recovered, bind, M.bind, hlen2, ret, pure]
  · intro puk list hmem
    obtain ⟨hs, hfill⟩ := DeleteFile_fill_invalid P "" filehash hlen list hmem 0
      (List.replicate list.length (List.replicate P.FileHashLen 0)) s
    exact ⟨hs, by
      simp [DeleteFile, recovered, DeleteFile_submit, bind, M.bind, GetChainState, hlive, hfill,
        pure]⟩

/-- C10 at a concrete input: the three-byte string `[1, 2, 3]` against the
content-hash length 64 of `samplePattern`; in the list handed to `DeleteFile`
it follows a well-formed hash. -/
theorem wrong_length_hash_rejected_witness :
    UploadDeclaration samplePattern sampleEnv [1, 2, 3] 0 0 [] liveSt
        = (some ("", some (.new "invalid filehash")), liveSt)
    ∧ QueryFileMetadata samplePattern sampleEnv [1, 2, 3] liveSt
        = (some (none, some (.new "invalid filehash")), liveSt)
    ∧ QueryStorageOrder samplePattern sampleEnv [1, 2, 3] liveSt
        = (some (none, some (.new "invalid filehash")), liveSt)
    ∧ ∃ hashs, DeleteFile samplePattern sampleEnv [1] [sampleHash, [1, 2, 3]] [] liveSt
        = (some ("", some hashs, some (.new "invalid filehash")), liveSt) :=
  have h := wrong_length_hash_rejected samplePattern sampleEnv liveSt [1, 2, 3] [] rfl (by decide)
  ⟨h.1 0 0, h.2.1, h.2.2.1, h.2.2.2 [1] [sampleHash, [1, 2, 3]] (by simp)⟩

/-! ## The calls built and submitted by `updateAddress` -/

theorem copyArray_eq (n : Nat) (s : Bytes) (h : s.length = n) : copyArray n s = s := by
  subst h
  apply List.ext_getElem
  · simp [copyArray]
  · intro i h1 h2
    simp [copyArray, List.getElem?_eq_getElem h2]

theorem callsBuilt_append (t u : List Action) :
    callsBuilt (t ++ u) = callsBuilt t ++ callsBuilt u := by
  simp [callsBuilt]

theorem callsSubmitted_append (t u : List Action) :
    callsSubmitted (t ++ u) = callsSubmitted t ++ callsSubmitted u := by
  simp [callsSubmitted]

theorem callsBuilt_recv (x : Signal) : callsBuilt [.Recv x] = [] := rfl

theorem callsSubmitted_recv (x : Signal) : callsSubmitted [.Recv x] = [] := rfl

theorem selectLoop_quiet {ρ : Type} (mk : String → Option Err → ρ)
    (onInBlock : Hash → M ρ String)
    (hh : ∀ block s, ∃ t, (onInBlock block s).2.trace = s.trace ++ t
      ∧ callsBuilt t = [] ∧ callsSubmitted t = [])
    (signals : List Signal) (txhash : String) (s : St) :
    ∃ t, (selectLoop mk onInBlock txhash signals s).2.trace = s.trace ++ t
      ∧ callsBuilt t = [] ∧ callsSubmitted t = [] := by
  induction signals generalizing txhash s with
  | nil => exact ⟨[], by simp [selectLoop, blocked], rfl, rfl⟩
  | cons x rest ih =>
    cases x with
    | status st =>
      by_cases hst : st.IsInBlock = true
      · obtain ⟨t1, ht1, hb1, hs1⟩ := hh st.AsInBlock (s.log (.Recv (.status st)))
        simp only [selectLoop, hst, if_true]
        show ∃ t, (M.bind _ _ s).2.trace = _ ∧ _
        simp only [M.bind, perform]
        show ∃ t, (M.bind _ _ (s.log (.Recv (.status st)))).2.trace = _ ∧ _
        simp only [M.bind]
        rcases hr : onInBlock st.AsInBlock (s.log (.Recv (.status st))) with ⟨r, s2⟩
        rw [hr] at ht1
        simp only at ht1
        cases r with
        | next tx1 =>
          obtain ⟨t2, ht2, hb2, hs2⟩ := ih tx1 s2
          refine ⟨[.Recv (.status st)] ++ t1 ++ t2, ?_, ?_, ?_⟩
          · simp only [ht2, ht1, St.log, List.append_assoc]
          · simp only [callsBuilt_append, callsBuilt_recv, hb1, hb2, List.append_nil]
          · simp only [callsSubmitted_append, callsSubmitted_recv, hs1, hs2, List.append_nil]
        | ret r =>
          refine ⟨[.Recv (.status st)] ++ t1, ?_, ?_, ?_⟩
          · simp only [ht1, St.log, List.append_assoc]
          · simp only [callsBuilt_append, callsBuilt_recv, hb1, List.append_nil]
          · simp only [callsSubmitted_append, callsSubmitted_recv, hs1, List.append_nil]
        | panic =>
          refine ⟨[.Recv (.status st)] ++ t1, ?_, ?_, ?_⟩
          · simp only [ht1, St.log, List.append_assoc]
          · simp only [callsBuilt_append, callsBuilt_recv, hb1, List.append_nil]
          · simp only [callsSubmitted_append, callsSubmitted_recv, hs1, List.append_nil]
        | blocked =>
          refine ⟨[.Recv (.status st)] ++ t1, ?_, ?_, ?_⟩
          · simp only [ht1, St.log, List.append_assoc]
          · simp only [callsBuilt_append, callsBuilt_recv, hb1, List.append_nil]
          · simp only [callsSubmitted_append, callsSubmitted_recv, hs1, List.append_nil]
      · obtain ⟨t2, ht2, hb2, hs2⟩ := ih txhash (s.log (.Recv (.status st)))
        simp only [selectLoop, hst]
        show ∃ t, (M.bind _ _ s).2.trace = _ ∧ _
        simp only [M.bind, perform]
        refine ⟨[.Recv (.status st)] ++ t2, ?_, ?_, ?_⟩
        · simpa [St.log] using ht2
        · simp only [callsBuilt_append, callsBuilt_recv, hb2, List.append_nil]
        · simp only [callsSubmitted_append, callsSubmitted_recv, hs2, List.append_nil]
    | err e =>
      exact ⟨[.Recv (.err e)], by simp [selectLoop, bind, M.bind, perform, ret, St.log],
        rfl, rfl⟩
    | timeout =>
      exact ⟨[.Recv .timeout], by simp [selectLoop, bind, M.bind, perform, ret, St.log],
        rfl, rfl⟩

theorem updateAddress_inBlock_quiet (P : Pattern) (env : Env) (name : String) (block : Hash)
    (s : St) :
    ∃ t, (updateAddress_inBlock P env name block s).2.trace = s.trace ++ t
      ∧ callsBuilt t = [] ∧ callsSubmitted t = [] := by
  cases hraw : env.GetStorageRaw block with
  | some e =>
    exact ⟨[.GetStorageRaw block], by
      simp [updateAddress_inBlock, fetchEvents, bind, M.bind, perform, check, hraw, ret, St.log],
      rfl, rfl⟩
  | none =>
    refine ⟨[.GetStorageRaw block, .DecodeEventRecords], ?_, rfl, rfl⟩
    rcases hdec : env.DecodeEventRecords block with ⟨err, events⟩
    simp only [updateAddress_inBlock, fetchEvents, bind, M.bind, perform, check, hraw, hdec, ret,
      pure, St.log]
    split_ifs <;> simp [M.bind, ret]

theorem withSubscription_calls {ρ α : Type} (m : M ρ α) (s : St)
    (h : ∃ t, (m s).2.trace = s.trace ++ t ∧ callsBuilt t = [] ∧ callsSubmitted t = []) :
    callsBuilt (withSubscription m s).2.trace = callsBuilt s.trace
      ∧ callsSubmitted (withSubscription m s).2.trace = callsSubmitted s.trace := by
  obtain ⟨t, ht, hb, hs⟩ := h
  rcases hr : m s with ⟨r, s1⟩
  rw [hr] at ht
  simp only at ht
  cases r <;>
    simp [withSubscription, withDefer, hr, St.log, ht, callsBuilt_append, callsSubmitted_append,
      hb, hs] <;> exact ⟨rfl, rfl⟩

theorem updateAddress_submit_calls (P : Pattern) (env : Env) (name : String) (peerid : Bytes)
    (s : St) (hrole : isOssRole P name = true ∨ isBucketRole P name = true) :
    callsBuilt (updateAddress_submit P env name peerid s).2.trace
        = callsBuilt s.trace ++ [⟨updateTx P name, [.peerId peerid]⟩]
    ∧ callsSubmitted (updateAddress_submit P env name peerid s).2.trace
        = callsSubmitted s.trace ++
          (if canSubmit env ⟨updateTx P name, [.peerId peerid]⟩ = true
            then [⟨updateTx P name, [.peerId peerid]⟩] else []) := by
  by_cases hoss : isOssRole P name = true
  · cases hc : env.NewCall .TX_OSS_UPDATE [.peerId peerid] with
    | some e =>
      simp [updateAddress_submit, updateTx, canSubmit, hoss, NewCall, bind, M.bind, perform,
        check, ret, St.log, hc, callsBuilt, callsSubmitted]
    | none =>
      cases hg : env.GetStorageLatest .SYSTEM_ACCOUNT env.PublicKey with
      | error e =>
        simp [updateAddress_submit, updateTx, canSubmit, hoss, NewCall, GetStorageLatest, bind,
          M.bind, perform, check, orRet, ret, pure, St.log, hc, hg, callsBuilt, callsSubmitted]
      | ok v =>
        rcases v with ⟨ok, nonce⟩
        cases ok with
        | false =>
          simp [updateAddress_submit, updateTx, canSubmit, hoss, NewCall, GetStorageLatest, bind,
            M.bind, perform, check, orRet, ret, pure, St.log, hc, hg, callsBuilt, callsSubmitted]
        | true =>
          cases hp : env.SignPanics ⟨.TX_OSS_UPDATE, [.peerId peerid]⟩ nonce with
          | true =>
            simp [updateAddress_submit, updateTx, canSubmit, hoss, NewCall, GetStorageLatest,
              Sign, bind, M.bind, perform, check, orRet, ret, pure, panic, St.log, hc, hg, hp,
              callsBuilt, callsSubmitted]
          | false =>
            cases hs : env.Sign ⟨.TX_OSS_UPDATE, [.peerId peerid]⟩ nonce with
            | some e =>
              simp [updateAddress_submit, updateTx, canSubmit, hoss, NewCall, GetStorageLatest,
                Sign, bind, M.bind, perform, check, orRet, ret, pure, St.log, hc, hg, hp, hs,
                callsBuilt, callsSubmitted]
            | none =>
              cases hw : env.SubmitAndWatchExtrinsic ⟨.TX_OSS_UPDATE, [.peerId peerid]⟩ <;>
                simp [updateAddress_submit, updateTx, canSubmit, hoss, NewCall, GetStorageLatest,
                  Sign, SubmitAndWatchExtrinsic, SetChainState, bind, M.bind, perform, check,
                  orRet, ret, pure, St.log, hc, hg, hp, hs, hw, callsBuilt, callsSubmitted]
  · have hb : isBucketRole P name = true := hrole.resolve_left hoss
    cases hc : env.NewCall .TX_SMINER_UPDATEPEERID [.peerId peerid] with
    | some e =>
      simp [updateAddress_submit, updateTx, canSubmit, hoss, hb, NewCall, bind, M.bind, perform,
        check, ret, St.log, hc, callsBuilt, callsSubmitted]
    | none =>
      cases hg : env.GetStorageLatest .SYSTEM_ACCOUNT env.PublicKey with
      | error e =>
        simp [updateAddress_submit, updateTx, canSubmit, hoss, hb, NewCall, GetStorageLatest,
          bind, M.bind, perform, check, orRet, ret, pure, St.log, hc, hg, callsBuilt,
          callsSubmitted]
      | ok v =>
        rcases v with ⟨ok, nonce⟩
        cases ok with
        | false =>
          simp [updateAddress_submit, updateTx, canSubmit, hoss, hb, NewCall, GetStorageLatest,
            bind, M.bind, perform, check, orRet, ret, pure, St.log, hc, hg, callsBuilt,
            callsSubmitted]
        | true =>
          cases hp : env.SignPanics ⟨.TX_SMINER_UPDATEPEERID, [.peerId peerid]⟩ nonce with
          | true =>
            simp [updateAddress_submit, updateTx, canSubmit, hoss, hb, NewCall, GetStorageLatest,
              Sign, bind, M.bind, perform, check, orRet, ret, pure, panic, St.log, hc, hg, hp,
              callsBuilt, callsSubmitted]
          | false =>
            cases hs : env.Sign ⟨.TX_SMINER_UPDATEPEERID, [.peerId peerid]⟩ nonce with
            | some e =>
              simp [updateAddress_submit, updateTx, canSubmit, hoss, hb, NewCall,
                GetStorageLatest, Sign, bind, M.bind, perform, check, orRet, ret, pure, St.log,
                hc, hg, hp, hs, callsBuilt, callsSubmitted]
            | none =>
              cases hw : env.SubmitAndWatchExtrinsic
                  ⟨.TX_SMINER_UPDATEPEERID, [.peerId peerid]⟩ <;>
                simp [updateAddress_submit, updateTx, canSubmit, hoss, hb, NewCall,
                  GetStorageLatest, Sign, SubmitAndWatchExtrinsic, SetChainState, bind, M.bind,
                  perform, check, orRet, ret, pure, St.log, hc, hg, hp, hs, hw, callsBuilt,
                  callsSubmitted]

theorem updateAddress_calls (P : Pattern) (env : Env) (name : String) (peerid : Bytes)
    (signals : List Signal) (s : St)
    (hrole : isOssRole P name = true ∨ isBucketRole P name = true) :
    callsBuilt (updateAddress P env name peerid signals s).2.trace
        = callsBuilt s.trace ++ [⟨updateTx P name, [.peerId peerid]⟩]
    ∧ callsSubmitted (updateAddress P env name peerid signals s).2.trace
        = callsSubmitted s.trace ++
          (if canSubmit env ⟨updateTx P name, [.peerId peerid]⟩ = true
            then [⟨updateTx P name, [.peerId peerid]⟩] else []) := by
  have hsubmit := updateAddress_submit_calls P env name peerid s hrole
  unfold updateAddress
  show callsBuilt (M.bind _ _ s).2.trace = _ ∧ callsSubmitted (M.bind _ _ s).2.trace = _
  unfold M.bind
  rcases hr : updateAddress_submit P env name peerid s with ⟨r, s1⟩
  rw [hr] at hsubmit
  cases r with
  | next a =>
    have hw := withSubscription_calls
      (selectLoop (fun txhash err => (txhash, err)) (updateAddress_inBlock P env name) "" signals)
      s1 (selectLoop_quiet _ _ (updateAddress_inBlock_quiet P env name) signals "" s1)
    simp only
    rw [hw.1, hw.2]
    exact hsubmit
  | ret r => exact hsubmit
  | panic => exact hsubmit
  | blocked => exact hsubmit

theorem Register_delegates (P : Pattern) (env : Env) (s : St) (role : String) (puk : Bytes)
    (earnings : String) (pledge : Nat) (signals : List Signal) (id : Bytes)
    (hlive : s.chainState = true) (hlen : puk.length = P.PeerIdLen)
    (hkey : env.CreateStorageKey .SYSTEM_ACCOUNT env.PublicKey = none)
    (hstored : storedPeerId P env role = some id) (hne : id ≠ puk) :
    Register P env role puk earnings pledge signals s =
      match updateAddress P env role puk signals
        { s with trace := s.trace ++
          [.CreateStorageKey .SYSTEM_ACCOUNT env.PublicKey, preRead P role] } with
      | (.ret r, s3) => (some (r.1, earnings, r.2), s3)
      | (.panic, s3) => (some ("", "", none), s3)
      | (.blocked, s3) => (none, s3)
      | (.next a, _) => nomatch a := by
  have hne2 : ¬ id = puk := hne
  by_cases hoss : isOssRole P role = true
  · have hq := storedPeerId_oss P env role id hoss hstored
    simp [Register, recovered, Register_submit, Register_switch, bind, M.bind, GetChainState,
      hlive, hlen, CreateStorageKey, perform, check, hkey, hoss, hq, CompareSlice, pure,
      St.log, preRead, copyArray_eq _ _ hlen, callFn, hne2]
    generalize updateAddress P env role puk signals _ = u
    rcases u with ⟨r, s3⟩
    cases r with
    | next a => exact nomatch a
    | ret r => simp [ret, M.bind]
    | panic => simp
    | blocked => simp
  · have hoss2 : isOssRole P role = false := by simpa using hoss
    obtain ⟨hb, mi, hq, hpeer⟩ := storedPeerId_bucket P env role id hoss2 hstored
    have hne3 : ¬ mi.PeerId = puk := hpeer ▸ hne2
    simp [Register, recovered, Register_submit, Register_switch, bind, M.bind, GetChainState,
      hlive, hlen, CreateStorageKey, perform, check, hkey, hoss2, hb, hq, CompareSlice, pure,
      St.log, preRead, copyArray_eq _ _ hlen, callFn, hne3]
    generalize updateAddress P env role puk signals _ = u
    rcases u with ⟨r, s3⟩
    cases r with
    | next a => exact nomatch a
    | ret r => simp [ret, M.bind]
    | panic => simp
    | blocked => simp

/-- C8 fails as stated: on `orphanGatewayEnv` the signing identity is a
registered gateway with the stored peer id `samplePeer`, and its account record
is not found.  `Register` with the different peer id `otherPeer` builds the
update-address call, then returns the empty-value error of `updateAddress`:
no call is submitted. -/
theorem Register_update_without_account_submits_nothing :
    storedPeerId samplePattern orphanGatewayEnv "oss" = some samplePeer
    ∧ samplePeer ≠ otherPeer
    ∧ Register samplePattern orphanGatewayEnv "oss" otherPeer "" 0 [inBlock [9]] liveSt
        = (some ("", "", some .ERR_RPC_EMPTY_VALUE),
            ⟨true, [.CreateStorageKey .SYSTEM_ACCOUNT [1, 2, 3], .QueryDeossPeerPublickey,
              .NewCall .TX_OSS_UPDATE [.peerId otherPeer],
              .GetStorageLatest .SYSTEM_ACCOUNT [1, 2, 3]]⟩)
    ∧ callsSubmitted
        (Register samplePattern orphanGatewayEnv "oss" otherPeer "" 0 [inBlock [9]] liveSt).2.trace
        = [] := by
  refine ⟨rfl, by decide, rfl, rfl⟩

/-- C8 as amended: `Register` is called with a live session and a peer id of
the fixed length, the account storage key is built, and the pre-read shows
that the signing identity holds the role with a stored peer id that differs
from the supplied one.  Then `Register` runs `updateAddress` and its transaction
identifier and error are exactly those `updateAddress` returns; exactly one
call is built, the update-address call of the role (`TX_OSS_UPDATE` or
`TX_SMINER_UPDATEPEERID`, never a register call) carrying the supplied peer id;
that call is submitted, once, when its construction, the lookup of the signing
account and the signing succeed, and nothing is submitted otherwise. -/
theorem Register_address_differs_updates (P : Pattern) (env : Env) (s : St) (role : String)
    (puk : Bytes) (earnings : String) (pledge : Nat) (signals : List Signal) (id : Bytes)
    (hlive : s.chainState = true) (hlen : puk.length = P.PeerIdLen)
    (hkey : env.CreateStorageKey .SYSTEM_ACCOUNT env.PublicKey = none)
    (hstored : storedPeerId P env role = some id) (hne : id ≠ puk) :
    (∀ txhash err s3,
        updateAddress P env role puk signals
          { s with trace := s.trace ++
            [.CreateStorageKey .SYSTEM_ACCOUNT env.PublicKey, preRead P role] }
          = (.ret (txhash, err), s3) →
        Register P env role puk earnings pledge signals s = (some (txhash, earnings, err), s3))
    ∧ callsBuilt (Register P env role puk earnings pledge signals s).2.trace
        = callsBuilt s.trace ++ [⟨updateTx P role, [.peerId puk]⟩]
    ∧ callsSubmitted (Register P env role puk earnings pledge signals s).2.trace
        = callsSubmitted s.trace ++
          (if canSubmit env ⟨updateTx P role, [.peerId puk]⟩ = true
            then [⟨updateTx P role, [.peerId puk]⟩] else [])
    ∧ updateTx P role ≠ .TX_OSS_REGISTER ∧ updateTx P role ≠ .TX_SMINER_REGISTER := by
  have hdel := Register_delegates P env s role puk earnings pledge signals id hlive hlen hkey
    hstored hne
  have hrole : isOssRole P role = true ∨ isBucketRole P role = true := by
    by_cases hoss : isOssRole P role = true
    · exact Or.inl hoss
    · exact Or.inr (storedPeerId_bucket P env role id (by simpa using hoss) hstored).1
  have hcalls := updateAddress_calls P env role puk signals
    { s with trace := s.trace ++
      [.CreateStorageKey .SYSTEM_ACCOUNT env.PublicKey, preRead P role] } hrole
  have hpre1 : callsBuilt (s.trace ++
      [.CreateStorageKey .SYSTEM_ACCOUNT env.PublicKey, preRead P role]) = callsBuilt s.trace := by
    rw [callsBuilt_append]
    unfold preRead
    split_ifs <;> simp [callsBuilt]
  have hpre2 : callsSubmitted (s.trace ++
      [.CreateStorageKey .SYSTEM_ACCOUNT env.PublicKey, preRead P role])
      = callsSubmitted s.trace := by
    rw [callsSubmitted_append]
    unfold preRead
    split_ifs <;> simp [callsSubmitted]
  have hstate : (Register P env role puk earnings pledge signals s).2
      = (updateAddress P env role puk signals
          { s with trace := s.trace ++
            [.CreateStorageKey .SYSTEM_ACCOUNT env.PublicKey, preRead P role] }).2 := by
    rw [hdel]
    rcases updateAddress P env role puk signals
      { s with trace := s.trace ++
        [.CreateStorageKey .SYSTEM_ACCOUNT env.PublicKey, preRead P role] } with ⟨r, s3⟩
    cases r with
    | next a => exact nomatch a
    | ret r => rfl
    | panic => rfl
    | blocked => rfl
  refine ⟨?_, ?_, ?_, ?_, ?_⟩
  · intro txhash err s3 hU
    rw [hdel, hU]
  · rw [hstate, hcalls.1]
    simp only [hpre1]
  · rw [hstate, hcalls.2]
    simp only [hpre2]
  · unfold updateTx
    split_ifs <;> simp
  · unfold updateTx
    split_ifs <;> simp

/-- C8 as amended, at a concrete input: the registered gateway of
`updatingGatewayEnv`, whose stored peer id is `samplePeer`, registers with
`otherPeer`; the update-address call is built and submitted, and the result is
the one of `updateAddress` at the inclusion in block `[9]`. -/
theorem Register_address_differs_updates_witness :
    Register samplePattern updatingGatewayEnv "oss" otherPeer "" 0 [inBlock [9]] liveSt
        = (some (updatingGatewayEnv.EncodeToHex [9], "", none),
            ⟨true, [.CreateStorageKey .SYSTEM_ACCOUNT [1, 2, 3], .QueryDeossPeerPublickey,
              .NewCall .TX_OSS_UPDATE [.peerId otherPeer],
              .GetStorageLatest .SYSTEM_ACCOUNT [1, 2, 3],
              .Sign ⟨.TX_OSS_UPDATE, [.peerId otherPeer]⟩ 7,
              .SubmitAndWatchExtrinsic ⟨.TX_OSS_UPDATE, [.peerId otherPeer]⟩,
              .Recv (inBlock [9]), .GetStorageRaw [9], .DecodeEventRecords, .TimerStop,
              .Unsubscribe]⟩)
    ∧ callsBuilt
        (Register samplePattern updatingGatewayEnv "oss" otherPeer "" 0 [inBlock [9]] liveSt).2.trace
        = [⟨.TX_OSS_UPDATE, [.peerId otherPeer]⟩]
    ∧ callsSubmitted
        (Register samplePattern updatingGatewayEnv "oss" otherPeer "" 0 [inBlock [9]] liveSt).2.trace
        = [⟨.TX_OSS_UPDATE, [.peerId otherPeer]⟩] :=
  have h := Register_address_differs_updates samplePattern updatingGatewayEnv liveSt "oss"
    otherPeer "" 0 [inBlock [9]] samplePeer rfl rfl rfl rfl (by decide)
  ⟨h.1 _ _ _ rfl, h.2.1, h.2.2.1⟩

/-- C12: when the liveness flag is false at the start, each of
SubmitIdleMetadata, CreateBucket, DeleteBucket, UploadDeclaration, DeleteFile,
SubmitFileReport, ReplaceIdleFiles, Register and Exit returns the error
`pattern.ERR_RPC_CONNECTION` with an empty transaction identifier, on every
input, and the state with its log of external calls is as it was: no account
lookup, call construction, signing or submission has taken place. -/
theorem dead_session_short_circuits (P : Pattern) (env : Env) (s : St)
    (signals : List Signal) (hdead : s.chainState = false) :
    (∀ teeAcc idlefiles, SubmitIdleMetadata env teeAcc idlefiles signals s
        = (some ("", some .ERR_RPC_CONNECTION), s))
    ∧ (∀ owner_pkey name, CreateBucket P env owner_pkey name signals s
        = (some ("", some .ERR_RPC_CONNECTION), s))
    ∧ (∀ owner_pkey name, DeleteBucket P env owner_pkey name signals s
        = (some ("", some .ERR_RPC_CONNECTION), s))
    ∧ (∀ filehash dealinfo user, UploadDeclaration P env filehash dealinfo user signals s
        = (some ("", some .ERR_RPC_CONNECTION), s))
    ∧ (∀ puk filehash, DeleteFile P env puk filehash signals s
        = (some ("", some (List.replicate filehash.length (List.replicate P.FileHashLen 0)),
            some .ERR_RPC_CONNECTION), s))
    ∧ (∀ roothash, SubmitFileReport P env roothash signals s
        = (some ("", none, some .ERR_RPC_CONNECTION), s))
    ∧ (∀ roothash, ReplaceIdleFiles P env roothash signals s
        = (some ("", none, some .ERR_RPC_CONNECTION), s))
    ∧ (∀ role puk earnings pledge, Register P env role puk earnings pledge signals s
        = (some ("", earnings, some .ERR_RPC_CONNECTION), s))
    ∧ (∀ role, Exit P env role signals s = (some ("", some .ERR_RPC_CONNECTION), s)) := by
  refine ⟨?_, ?_, ?_, ?_, ?_, ?_, ?_, ?_, ?_⟩
  · intro teeAcc idlefiles
    simp [SubmitIdleMetadata, recovered, SubmitIdleMetadata_submit, bind, M.bind, GetChainState,
      hdead, ret]
  · intro owner_pkey name
    simp [CreateBucket, recovered, CreateBucket_submit, bind, M.bind, GetChainState, hdead, ret]
  · intro owner_pkey name
    simp [DeleteBucket, recovered, DeleteBucket_submit, bind, M.bind, GetChainState, hdead, ret]
  · intro filehash dealinfo user
    simp [UploadDeclaration, recovered, UploadDeclaration_submit, bind, M.bind, GetChainState,
      hdead, ret]
  · intro puk filehash
    simp [DeleteFile, recovered, DeleteFile_submit, bind, M.bind, GetChainState, hdead, ret]
  · intro roothash
    simp [SubmitFileReport, recovered, SubmitFileReport_submit, bind, M.bind, GetChainState,
      hdead, ret]
  · intro roothash
    simp [ReplaceIdleFiles, recovered, ReplaceIdleFiles_submit, bind, M.bind, GetChainState,
      hdead, ret]
  · intro role puk earnings pledge
    simp [Register, recovered, Register_submit, bind, M.bind, GetChainState, hdead, ret]
  · intro role
    simp [Exit, recovered, Exit_submit, bind, M.bind, GetChainState, hdead, ret]

/-- C12 at a concrete input: the nine operations on `deadSt`. -/
theorem dead_session_short_circuits_witness :
    SubmitIdleMetadata sampleEnv [1] [] [inBlock [9]] deadSt
        = (some ("", some .ERR_RPC_CONNECTION), deadSt)
    ∧ CreateBucket samplePattern sampleEnv [1] [2] [inBlock [9]] deadSt
        = (some ("", some .ERR_RPC_CONNECTION), deadSt)
    ∧ DeleteBucket samplePattern sampleEnv [1] [2] [inBlock [9]] deadSt
        = (some ("", some .ERR_RPC_CONNECTION), deadSt)
    ∧ UploadDeclaration samplePattern sampleEnv sampleHash 0 0 [inBlock [9]] deadSt
        = (some ("", some .ERR_RPC_CONNECTION), deadSt)
    ∧ DeleteFile samplePattern sampleEnv [1] [sampleHash] [inBlock [9]] deadSt
        = (some ("", some [List.replicate 64 0], some .ERR_RPC_CONNECTION), deadSt)
    ∧ SubmitFileReport samplePattern sampleEnv [sampleHash] [inBlock [9]] deadSt
        = (some ("", none, some .ERR_RPC_CONNECTION), deadSt)
    ∧ ReplaceIdleFiles samplePattern sampleEnv [sampleHash] [inBlock [9]] deadSt
        = (some ("", none, some .ERR_RPC_CONNECTION), deadSt)
    ∧ Register samplePattern sampleEnv "oss" samplePeer "cXabc" 5 [inBlock [9]] deadSt
        = (some ("", "cXabc", some .ERR_RPC_CONNECTION), deadSt)
    ∧ Exit samplePattern sampleEnv "oss" [inBlock [9]] deadSt
        = (some ("", some .ERR_RPC_CONNECTION), deadSt) :=
  have h := dead_session_short_circuits samplePattern sampleEnv deadSt [inBlock [9]] rfl
  ⟨h.1 [1] [], h.2.1 [1] [2], h.2.2.1 [1] [2], h.2.2.2.1 sampleHash 0 0,
    h.2.2.2.2.1 [1] [sampleHash], h.2.2.2.2.2.1 [sampleHash], h.2.2.2.2.2.2.1 [sampleHash],
    h.2.2.2.2.2.2.2.1 "oss" samplePeer "cXabc" 5, h.2.2.2.2.2.2.2.2 "oss"⟩

/-- C13, the code at a failing input: on `rejectingEnv` handing the signed
extrinsic to the node fails.  Each of the seven operations of `fileBank.go`
returns the wrapped submission error and leaves the liveness flag true, so
that a second `CreateBucket` does not short-circuit: it performs the account
lookup, the signing and the submission again.  `Register`, `updateAddress` and
`Exit` leave the flag false. -/
theorem fileBank_submit_failure_keeps_flag :
    (SubmitIdleMetadata rejectingEnv [1] [] [] liveSt).2.chainState = true
    ∧ CreateBucket samplePattern rejectingEnv [1] [2] [] liveSt
        = (some ("", some (.wrap (.new "connection lost") "[SubmitAndWatchExtrinsic]")),
            ⟨true, [.NewAccountID [1],
              .NewCall .TX_FILEBANK_PUTBUCKET [.accountID [1], .bytes [2]],
              .CreateStorageKey .SYSTEM_ACCOUNT [1, 2, 3],
              .GetStorageLatest .SYSTEM_ACCOUNT [1, 2, 3],
              .Sign ⟨.TX_FILEBANK_PUTBUCKET, [.accountID [1], .bytes [2]]⟩ 7,
              .SubmitAndWatchExtrinsic ⟨.TX_FILEBANK_PUTBUCKET, [.accountID [1], .bytes [2]]⟩]⟩)
    ∧ (DeleteBucket samplePattern rejectingEnv [1] [2] [] liveSt).2.chainState = true
    ∧ (UploadDeclaration samplePattern rejectingEnv sampleHash 0 0 [] liveSt).2.chainState = true
    ∧ (DeleteFile samplePattern rejectingEnv [1] [sampleHash] [] liveSt).2.chainState = true
    ∧ (SubmitFileReport samplePattern rejectingEnv [sampleHash] [] liveSt).2.chainState = true
    ∧ (ReplaceIdleFiles samplePattern rejectingEnv [sampleHash] [] liveSt).2.chainState = true
    ∧ (CreateBucket samplePattern rejectingEnv [1] [2] []
        (CreateBucket samplePattern rejectingEnv [1] [2] [] liveSt).2).1
        = some ("", some (.wrap (.new "connection lost") "[SubmitAndWatchExtrinsic]"))
    ∧ callsSubmitted (CreateBucket samplePattern rejectingEnv [1] [2] []
        (CreateBucket samplePattern rejectingEnv [1] [2] [] liveSt).2).2.trace
        = [⟨.TX_FILEBANK_PUTBUCKET, [.accountID [1], .bytes [2]]⟩,
            ⟨.TX_FILEBANK_PUTBUCKET, [.accountID [1], .bytes [2]]⟩]
    ∧ (Register samplePattern rejectingEnv "oss" samplePeer "" 0 [] liveSt).2.chainState = false
    ∧ (updateAddress samplePattern rejectingEnv "oss" samplePeer [] liveSt).2.chainState = false
    ∧ (Exit samplePattern rejectingEnv "oss" [] liveSt).2.chainState = false
    ∧ (CreateBucket samplePattern rejectingEnv [1] [2] []
        (Exit samplePattern rejectingEnv "oss" [] liveSt).2).1
        = some ("", some .ERR_RPC_CONNECTION) := by
  refine ⟨rfl, rfl, rfl, rfl, rfl, rfl, rfl, rfl, rfl, rfl, rfl, rfl, rfl⟩

/-! ## The account lookup -/

theorem DeleteFile_fill_ok (P : Pattern) (txhash : String) (todo : List Bytes)
    (hall : ∀ f ∈ todo, f.length = P.FileHashLen) (j : Nat) (hashs : List FileHash) (s : St) :
    ∃ hs, DeleteFile_fill P txhash todo j hashs s = (.next hs, s) := by
  induction todo generalizing j hashs with
  | nil => exact ⟨hashs, rfl⟩
  | cons g todo ih =>
    have hg : g.length = P.FileHashLen := hall g (List.mem_cons_self _ _)
    simp only [DeleteFile_fill, bne_iff_ne, ne_eq, hg, not_true_eq_false, if_false]
    exact ih (fun f hf => hall f (List.mem_cons_of_mem _ hf)) (j + 1) _

/-- C17: with a live session, when the storage read of the signing account
reports that the record does not exist, every submission operation whose
earlier steps succeed (so that it reaches the account lookup) returns a non-nil
error that carries the empty-value condition: `pattern.ERR_RPC_EMPTY_VALUE`
itself in CreateBucket, DeleteBucket, UploadDeclaration, DeleteFile,
SubmitIdleMetadata, SubmitFileReport, ReplaceIdleFiles, Exit and updateAddress,
and in Register, on its new-registration path of either role, an error whose
text ends with the text of `ERR_RPC_EMPTY_VALUE`.  The account lookup is the
last external call: nothing is signed or submitted. -/
theorem missing_account_is_error (P : Pattern) (env : Env) (s : St) (signals : List Signal)
    (nonce : Nat) (hlive : s.chainState = true)
    (hkey : env.CreateStorageKey .SYSTEM_ACCOUNT env.PublicKey = none)
    (hacc : env.GetStorageLatest .SYSTEM_ACCOUNT env.PublicKey = .ok (false, nonce)) :
    (∀ owner_pkey name acc, env.NewAccountID owner_pkey = .ok acc →
        env.NewCall .TX_FILEBANK_PUTBUCKET [.accountID acc, .bytes name] = none →
        CreateBucket P env owner_pkey name signals s
          = (some ("", some .ERR_RPC_EMPTY_VALUE), { s with trace := s.trace ++
              [.NewAccountID owner_pkey,
                .NewCall .TX_FILEBANK_PUTBUCKET [.accountID acc, .bytes name],
                .CreateStorageKey .SYSTEM_ACCOUNT env.PublicKey,
                .GetStorageLatest .SYSTEM_ACCOUNT env.PublicKey] }))
    ∧ (∀ owner_pkey name acc, env.NewAccountID owner_pkey = .ok acc →
        env.NewCall .TX_FILEBANK_DELBUCKET [.accountID acc, .bytes name] = none →
        DeleteBucket P env owner_pkey name signals s
          = (some ("", some .ERR_RPC_EMPTY_VALUE), { s with trace := s.trace ++
              [.NewAccountID owner_pkey,
                .NewCall .TX_FILEBANK_DELBUCKET [.accountID acc, .bytes name],
                .CreateStorageKey .SYSTEM_ACCOUNT env.PublicKey,
                .GetStorageLatest .SYSTEM_ACCOUNT env.PublicKey] }))
    ∧ (∀ filehash dealinfo user, filehash.length = P.FileHashLen →
        env.NewCall .TX_FILEBANK_UPLOADDEC
          [.fileHash filehash, .dealinfo dealinfo, .user user] = none →
        UploadDeclaration P env filehash dealinfo user signals s
          = (some ("", some .ERR_RPC_EMPTY_VALUE), { s with trace := s.trace ++
              [.NewCall .TX_FILEBANK_UPLOADDEC
                  [.fileHash filehash, .dealinfo dealinfo, .user user],
                .CreateStorageKey .SYSTEM_ACCOUNT env.PublicKey,
                .GetStorageLatest .SYSTEM_ACCOUNT env.PublicKey] }))
    ∧ (∀ puk filehash acc, (∀ f ∈ filehash, f.length = P.FileHashLen) →
        env.NewAccountID puk = .ok acc →
        (∀ hashs, env.NewCall .TX_FILEBANK_DELFILE [.accountID acc, .fileHashes hashs] = none) →
        ∃ hashs, DeleteFile P env puk filehash signals s
          = (some ("", some hashs, some .ERR_RPC_EMPTY_VALUE), { s with trace := s.trace ++
              [.NewAccountID puk,
                .NewCall .TX_FILEBANK_DELFILE [.accountID acc, .fileHashes hashs],
                .CreateStorageKey .SYSTEM_ACCOUNT env.PublicKey,
                .GetStorageLatest .SYSTEM_ACCOUNT env.PublicKey] }))
    ∧ (∀ teeAcc idlefiles acc, env.NewAccountID teeAcc = .ok acc →
        env.NewCall .TX_FILEBANK_UPLOADFILLER [.accountID acc, .idleFiles idlefiles] = none →
        SubmitIdleMetadata env teeAcc idlefiles signals s
          = (some ("", some .ERR_RPC_EMPTY_VALUE), { s with trace := s.trace ++
              [.NewAccountID teeAcc,
                .NewCall .TX_FILEBANK_UPLOADFILLER [.accountID acc, .idleFiles idlefiles],
                .CreateStorageKey .SYSTEM_ACCOUNT env.PublicKey,
                .GetStorageLatest .SYSTEM_ACCOUNT env.PublicKey] }))
    ∧ (∀ roothash, env.NewCall .TX_FILEBANK_FILEREPORT [.fileHashes roothash] = none →
        SubmitFileReport P env roothash signals s
          = (some ("", none, some .ERR_RPC_EMPTY_VALUE), { s with trace := s.trace ++
              [.NewCall .TX_FILEBANK_FILEREPORT [.fileHashes roothash],
                .CreateStorageKey .SYSTEM_ACCOUNT env.PublicKey,
                .GetStorageLatest .SYSTEM_ACCOUNT env.PublicKey] }))
    ∧ (∀ roothash, env.NewCall .TX_FILEBANK_REPLACEFILE [.fileHashes roothash] = none →
        ReplaceIdleFiles P env roothash signals s
          = (some ("", none, some .ERR_RPC_EMPTY_VALUE), { s with trace := s.trace ++
              [.NewCall .TX_FILEBANK_REPLACEFILE [.fileHashes roothash],
                .CreateStorageKey .SYSTEM_ACCOUNT env.PublicKey,
                .GetStorageLatest .SYSTEM_ACCOUNT env.PublicKey] }))
    ∧ (∀ role, (isOssRole P role = true ∨ isBucketRole P role = true) →
        env.NewCall (exitTx P role) [] = none →
        Exit P env role signals s
          = (some ("", some .ERR_RPC_EMPTY_VALUE), { s with trace := s.trace ++
              [.NewCall (exitTx P role) [],
                .CreateStorageKey .SYSTEM_ACCOUNT env.PublicKey,
                .GetStorageLatest .SYSTEM_ACCOUNT env.PublicKey] }))
    ∧ (∀ name peerid, (isOssRole P name = true ∨ isBucketRole P name = true) →
        env.NewCall (updateTx P name) [.peerId peerid] = none →
        updateAddress P env name peerid signals s
          = (.ret ("", some .ERR_RPC_EMPTY_VALUE), { s with trace := s.trace ++
              [.NewCall (updateTx P name) [.peerId peerid],
                .GetStorageLatest .SYSTEM_ACCOUNT env.PublicKey] }))
    ∧ (∀ role puk earnings pledge e, isOssRole P role = true → puk.length = P.PeerIdLen →
        env.QueryDeossPeerPublickey env.PublicKey = .error e → e.Error P = P.ERR_Empty →
        env.NewCall .TX_OSS_REGISTER [.peerId puk] = none →
        Register P env role puk earnings pledge signals s
          = (some ("", earnings, some (.new ("chain rpc.state.GetStorageLatest["
                ++ env.NumsToByteStr ++ "]: " ++ Err.Error P .ERR_RPC_EMPTY_VALUE))),
              { s with trace := s.trace ++
                [.CreateStorageKey .SYSTEM_ACCOUNT env.PublicKey, .QueryDeossPeerPublickey,
                  .NewCall .TX_OSS_REGISTER [.peerId puk],
                  .GetStorageLatest .SYSTEM_ACCOUNT env.PublicKey] }))
    ∧ (∀ role puk earnings pledge e pubkey acc v, isOssRole P role = false →
        isBucketRole P role = true → puk.length = P.PeerIdLen →
        env.QueryStorageMiner env.PublicKey = .error e → e.Error P = P.ERR_Empty →
        env.ParsingPublickey earnings = .ok pubkey → env.NewAccountID pubkey = .ok acc →
        SetString (FormatUint pledge ++ P.TokenPrecision_CESS) = some v →
        env.NewCall .TX_SMINER_REGISTER [.accountID acc, .peerId puk, .u128 v] = none →
        Register P env role puk earnings pledge signals s
          = (some ("", earnings, some (.new ("chain rpc.state.GetStorageLatest["
                ++ env.NumsToByteStr ++ "]: " ++ Err.Error P .ERR_RPC_EMPTY_VALUE))),
              { s with trace := s.trace ++
                [.CreateStorageKey .SYSTEM_ACCOUNT env.PublicKey, .QueryStorageMiner,
                  .ParsingPublickey earnings, .NewAccountID pubkey,
                  .NewCall .TX_SMINER_REGISTER [.accountID acc, .peerId puk, .u128 v],
                  .GetStorageLatest .SYSTEM_ACCOUNT env.PublicKey] })) := by
  refine ⟨?_, ?_, ?_, ?_, ?_, ?_, ?_, ?_, ?_, ?_, ?_⟩
  · intro owner_pkey name acc hid hcall
    simp [CreateBucket, recovered, CreateBucket_submit, bind, M.bind, GetChainState, hlive,
      NewAccountID, NewCall, CreateStorageKey, GetStorageLatest, perform, orRet, check, pure, ret,
      St.log, hid, hcall, hkey, hacc]
  · intro owner_pkey name acc hid hcall
    simp [DeleteBucket, recovered, DeleteBucket_submit, bind, M.bind, GetChainState, hlive,
      NewAccountID, NewCall, CreateStorageKey, GetStorageLatest, perform, orRet, check, pure, ret,
      St.log, hid, hcall, hkey, hacc]
  · intro filehash dealinfo user hlen hcall
    simp [UploadDeclaration, recovered, UploadDeclaration_submit, bind, M.bind, GetChainState,
      hlive, NewCall, CreateStorageKey, GetStorageLatest, perform, orRet, check, pure, ret,
      St.log, hlen, copyArray_eq _ _ hlen, hcall, hkey, hacc]
  · intro puk filehash acc hall hid hcall
    obtain ⟨hs, hfill⟩ := DeleteFile_fill_ok P "" filehash hall 0
      (List.replicate filehash.length (List.replicate P.FileHashLen 0)) s
    exact ⟨hs, by
      simp [DeleteFile, recovered, DeleteFile_submit, bind, M.bind, GetChainState, hlive,
        NewAccountID, NewCall, CreateStorageKey, GetStorageLatest, perform, orRet, check, pure,
        ret, St.log, hfill, hid, hcall, hkey, hacc]⟩
  · intro teeAcc idlefiles acc hid hcall
    simp [SubmitIdleMetadata, recovered, SubmitIdleMetadata_submit, bind, M.bind, GetChainState,
      hlive, NewAccountID, NewCall, CreateStorageKey, GetStorageLatest, perform, orRet, check,
      pure, ret, St.log, hid, hcall, hkey, hacc]
  · intro roothash hcall
    simp [SubmitFileReport, recovered, SubmitFileReport_submit, bind, M.bind, GetChainState,
      hlive, NewCall, CreateStorageKey, GetStorageLatest, perform, orRet, check, pure, ret,
      St.log, hcall, hkey, hacc]
  · intro roothash hcall
    simp [ReplaceIdleFiles, recovered, ReplaceIdleFiles_submit, bind, M.bind, GetChainState,
      hlive, NewCall, CreateStorageKey, GetStorageLatest, perform, orRet, check, pure, ret,
      St.log, hcall, hkey, hacc]
  · intro role hrole hcall
    by_cases hoss : isOssRole P role = true
    · rw [exitTx, if_pos hoss] at hcall
      simp [Exit, recovered, Exit_submit, exitTx, bind, M.bind, GetChainState, hlive, NewCall,
        CreateStorageKey, GetStorageLatest, perform, orRet, check, pure, ret, St.log, hoss,
        hcall, hkey, hacc]
    · have hb : isBucketRole P role = true := hrole.resolve_left hoss
      rw [exitTx, if_neg hoss] at hcall
      simp [Exit, recovered, Exit_submit, exitTx, bind, M.bind, GetChainState, hlive, NewCall,
        CreateStorageKey, GetStorageLatest, perform, orRet, check, pure, ret, St.log, hoss, hb,
        hcall, hkey, hacc]
  · intro name peerid hrole hcall
    by_cases hoss : isOssRole P name = true
    · rw [updateTx, if_pos hoss] at hcall
      simp [updateAddress, updateAddress_submit, updateTx, bind, M.bind, NewCall,
        GetStorageLatest, perform, orRet, check, pure, ret, St.log, hoss, hcall, hacc]
    · have hb : isBucketRole P name = true := hrole.resolve_left hoss
      rw [updateTx, if_neg hoss] at hcall
      simp [updateAddress, updateAddress_submit, updateTx, bind, M.bind, NewCall,
        GetStorageLatest, perform, orRet, check, pure, ret, St.log, hoss, hb, hcall, hacc]
  · intro role puk earnings pledge e hoss hlen hq he hcall
    simp [Register, recovered, Register_submit, Register_switch, bind, M.bind, GetChainState,
      hlive, hlen, copyArray_eq _ _ hlen, NewCall, CreateStorageKey, GetStorageLatest, perform,
      orRet, check, pure, ret, St.log, hoss, hq, he, hcall, hkey, hacc]
  · intro role puk earnings pledge e pubkey acc v hoss hb hlen hq he hparse hid hset hcall
    simp [Register, recovered, Register_submit, Register_switch, bind, M.bind, GetChainState,
      hlive, hlen, copyArray_eq _ _ hlen, NewAccountID, NewCall, CreateStorageKey,
      GetStorageLatest, perform, orRet, check, pure, ret, St.log, hoss, hb, hq, he, hparse, hid,
      hset, hcall, hkey, hacc]

/-- C17 at a concrete input: on `orphanEnv` every call succeeds but the
account record of the signing identity is not found. -/
theorem missing_account_is_error_witness :
    (CreateBucket samplePattern orphanEnv [1] [2] [] liveSt).1
        = some ("", some .ERR_RPC_EMPTY_VALUE)
    ∧ (DeleteBucket samplePattern orphanEnv [1] [2] [] liveSt).1
        = some ("", some .ERR_RPC_EMPTY_VALUE)
    ∧ (UploadDeclaration samplePattern orphanEnv sampleHash 0 0 [] liveSt).1
        = some ("", some .ERR_RPC_EMPTY_VALUE)
    ∧ (∃ hashs, (DeleteFile samplePattern orphanEnv [1] [sampleHash] [] liveSt).1
        = some ("", some hashs, some .ERR_RPC_EMPTY_VALUE))
    ∧ (SubmitIdleMetadata orphanEnv [1] [] [] liveSt).1 = some ("", some .ERR_RPC_EMPTY_VALUE)
    ∧ (SubmitFileReport samplePattern orphanEnv [sampleHash] [] liveSt).1
        = some ("", none, some .ERR_RPC_EMPTY_VALUE)
    ∧ (ReplaceIdleFiles samplePattern orphanEnv [sampleHash] [] liveSt).1
        = some ("", none, some .ERR_RPC_EMPTY_VALUE)
    ∧ (Exit samplePattern orphanEnv "sminer" [] liveSt).1 = some ("", some .ERR_RPC_EMPTY_VALUE)
    ∧ (updateAddress samplePattern orphanEnv "oss" samplePeer [] liveSt).1
        = .ret ("", some .ERR_RPC_EMPTY_VALUE)
    ∧ (Register samplePattern orphanEnv "oss" samplePeer "" 0 [] liveSt).1
        = some ("", "", some (.new "chain rpc.state.GetStorageLatest[key]: empty"))
    ∧ (Register samplePattern orphanEnv "sminer" samplePeer "cXabc" 5 [] liveSt).1
        = some ("", "cXabc", some (.new "chain rpc.state.GetStorageLatest[key]: empty")) :=
  have h := missing_account_is_error samplePattern orphanEnv liveSt [] 0 rfl rfl rfl
  ⟨congrArg Prod.fst (h.1 [1] [2] [1] rfl rfl),
    congrArg Prod.fst (h.2.1 [1] [2] [1] rfl rfl),
    congrArg Prod.fst (h.2.2.1 sampleHash 0 0 rfl rfl),
    (h.2.2.2.1 [1] [sampleHash] [1] (by decide) rfl (fun _ => rfl)).imp
      (fun _ hd => congrArg Prod.fst hd),
    congrArg Prod.fst (h.2.2.2.2.1 [1] [] [1] rfl rfl),
    congrArg Prod.fst (h.2.2.2.2.2.1 [sampleHash] rfl),
    congrArg Prod.fst (h.2.2.2.2.2.2.1 [sampleHash] rfl),
    congrArg Prod.fst (h.2.2.2.2.2.2.2.1 "sminer" (Or.inr rfl) rfl),
    congrArg Prod.fst (h.2.2.2.2.2.2.2.2.1 "oss" samplePeer (Or.inl rfl) rfl),
    congrArg Prod.fst (h.2.2.2.2.2.2.2.2.2.1 "oss" samplePeer "" 0 .ERR_RPC_EMPTY_VALUE rfl rfl
      rfl rfl rfl),
    congrArg Prod.fst (h.2.2.2.2.2.2.2.2.2.2 "sminer" samplePeer "cXabc" 5 .ERR_RPC_EMPTY_VALUE
      [99, 88, 97, 98, 99] [99, 88, 97, 98, 99] 5000000000000 rfl rfl rfl rfl rfl rfl rfl
      (by decide) rfl)⟩

/-! ## The bodies of `if status.IsInBlock` when the decoding fails -/

theorem CreateBucket_inBlock_undecoded (P : Pattern) (env : Env) (block : Hash)
    (events : EventRecords) (d : Err) (s : St) (hraw : env.GetStorageRaw block = none)
    (hdec : env.DecodeEventRecords block = (some d, events)) :
    CreateBucket_inBlock P env block s = (.ret (env.EncodeToHex block, none),
      { s with trace := s.trace ++ [.GetStorageRaw block, .DecodeEventRecords] }) := by
  simp [CreateBucket_inBlock, fetchEvents, bind, M.bind, perform, check, pure, ret, hraw, hdec,
    St.log]

theorem DeleteBucket_inBlock_undecoded (P : Pattern) (env : Env) (block : Hash)
    (events : EventRecords) (d : Err) (s : St) (hraw : env.GetStorageRaw block = none)
    (hdec : env.DecodeEventRecords block = (some d, events)) :
    DeleteBucket_inBlock P env block s = (.ret (env.EncodeToHex block, none),
      { s with trace := s.trace ++ [.GetStorageRaw block, .DecodeEventRecords] }) := by
  simp [DeleteBucket_inBlock, fetchEvents, bind, M.bind, perform, check, pure, ret, hraw, hdec,
    St.log]

theorem UploadDeclaration_inBlock_undecoded (P : Pattern) (env : Env) (block : Hash)
    (events : EventRecords) (d : Err) (s : St) (hraw : env.GetStorageRaw block = none)
    (hdec : env.DecodeEventRecords block = (some d, events)) :
    UploadDeclaration_inBlock P env block s = (.ret (env.EncodeToHex block, none),
      { s with trace := s.trace ++ [.GetStorageRaw block, .DecodeEventRecords] }) := by
  simp [UploadDeclaration_inBlock, fetchEvents, bind, M.bind, perform, check, pure, ret, hraw,
    hdec, St.log]

theorem DeleteFile_inBlock_undecoded (P : Pattern) (env : Env) (hashs : List FileHash)
    (block : Hash) (events : EventRecords) (d : Err) (e : Event_DeleteFile)
    (es : List Event_DeleteFile) (s : St) (hraw : env.GetStorageRaw block = none)
    (hdec : env.DecodeEventRecords block = (some d, events))
    (hev : events.FileBank_DeleteFile = e :: es) :
    DeleteFile_inBlock P env hashs block s =
      (.ret (env.EncodeToHex block, some e.Filehash, none),
        { s with trace := s.trace ++ [.GetStorageRaw block, .DecodeEventRecords] }) := by
  simp [DeleteFile_inBlock, fetchEvents, bind, M.bind, perform, check, pure, ret, hraw, hdec,
    hev, St.log, index0]

theorem SubmitFileReport_inBlock_undecoded (P : Pattern) (env : Env) (block : Hash)
    (events : EventRecords) (d : Err) (e : Event_TransferReport)
    (es : List Event_TransferReport) (s : St) (hraw : env.GetStorageRaw block = none)
    (hdec : env.DecodeEventRecords block = (some d, events))
    (hev : events.FileBank_TransferReport = e :: es) :
    SubmitFileReport_inBlock P env block s =
      (.ret (env.EncodeToHex block, some e.Failed_list, none),
        { s with trace := s.trace ++ [.GetStorageRaw block, .DecodeEventRecords] }) := by
  simp [SubmitFileReport_inBlock, fetchEvents, bind, M.bind, perform, check, pure, ret, hraw,
    hdec, hev, St.log, index0]

theorem ReplaceIdleFiles_inBlock_undecoded (P : Pattern) (env : Env) (block : Hash)
    (events : EventRecords) (d : Err) (e : Event_ReplaceFiller)
    (es : List Event_ReplaceFiller) (s : St) (hraw : env.GetStorageRaw block = none)
    (hdec : env.DecodeEventRecords block = (some d, events))
    (hev : events.FileBank_ReplaceFiller = e :: es) :
    ReplaceIdleFiles_inBlock P env block s =
      (.ret (env.EncodeToHex block, some e.Filler_list, none),
        { s with trace := s.trace ++ [.GetStorageRaw block, .DecodeEventRecords] }) := by
  simp [ReplaceIdleFiles_inBlock, fetchEvents, bind, M.bind, perform, check, pure, ret, hraw,
    hdec, hev, St.log, index0]

theorem Register_inBlock_undecoded (P : Pattern) (env : Env) (role earnings : String)
    (block : Hash) (events : EventRecords) (d : Err) (s : St)
    (hraw : env.GetStorageRaw block = none)
    (hdec : env.DecodeEventRecords block = (some d, events)) :
    Register_inBlock P env role earnings block s = (.ret (env.EncodeToHex block, earnings, none),
      { s with trace := s.trace ++ [.GetStorageRaw block, .DecodeEventRecords] }) := by
  simp [Register_inBlock, fetchEvents, bind, M.bind, perform, check, pure, ret, hraw, hdec,
    St.log]

theorem updateAddress_inBlock_undecoded (P : Pattern) (env : Env) (name : String)
    (block : Hash) (events : EventRecords) (d : Err) (s : St)
    (hraw : env.GetStorageRaw block = none)
    (hdec : env.DecodeEventRecords block = (some d, events)) :
    updateAddress_inBlock P env name block s = (.ret (env.EncodeToHex block, none),
      { s with trace := s.trace ++ [.GetStorageRaw block, .DecodeEventRecords] }) := by
  simp [updateAddress_inBlock, fetchEvents, bind, M.bind, perform, check, pure, ret, hraw, hdec,
    St.log]

theorem Exit_inBlock_undecoded (P : Pattern) (env : Env) (role : String)
    (block : Hash) (events : EventRecords) (d : Err) (s : St)
    (hraw : env.GetStorageRaw block = none)
    (hdec : env.DecodeEventRecords block = (some d, events)) :
    Exit_inBlock P env role block s = (.ret (env.EncodeToHex block, none),
      { s with trace := s.trace ++ [.GetStorageRaw block, .DecodeEventRecords] }) := by
  simp [Exit_inBlock, fetchEvents, bind, M.bind, perform, check, pure, ret, hraw, hdec, St.log]

/-- C19 fails as stated: on `undecodableEnv` the decoding of the event log of
the including block `[9]` fails, and every operation that decodes the log
returns a nil error; no transaction kind returns a failure.  CreateBucket,
DeleteBucket, UploadDeclaration, Register, updateAddress and Exit return the
block-hash identifier; DeleteFile, SubmitFileReport and ReplaceIdleFiles return
the zero values left by the recovered panic. -/
theorem decode_failure_never_fails :
    undecodableEnv.DecodeEventRecords [9] = (some (.new "decode"), {})
    ∧ (CreateBucket samplePattern undecodableEnv [1] [2] [inBlock [9]] liveSt).1
        = some (undecodableEnv.EncodeToHex [9], none)
    ∧ (DeleteBucket samplePattern undecodableEnv [1] [2] [inBlock [9]] liveSt).1
        = some (undecodableEnv.EncodeToHex [9], none)
    ∧ (UploadDeclaration samplePattern undecodableEnv sampleHash 0 0 [inBlock [9]] liveSt).1
        = some (undecodableEnv.EncodeToHex [9], none)
    ∧ (DeleteFile samplePattern undecodableEnv [1] [sampleHash] [inBlock [9]] liveSt).1
        = some ("", none, none)
    ∧ (SubmitFileReport samplePattern undecodableEnv [sampleHash] [inBlock [9]] liveSt).1
        = some ("", none, none)
    ∧ (ReplaceIdleFiles samplePattern undecodableEnv [sampleHash] [inBlock [9]] liveSt).1
        = some ("", none, none)
    ∧ (Register samplePattern undecodableEnv "oss" samplePeer "" 0 [inBlock [9]] liveSt).1
        = some (undecodableEnv.EncodeToHex [9], "", none)
    ∧ (updateAddress samplePattern undecodableEnv "oss" samplePeer [inBlock [9]] liveSt).1
        = .ret (undecodableEnv.EncodeToHex [9], none)
    ∧ (Exit samplePattern undecodableEnv "oss" [inBlock [9]] liveSt).1
        = some (undecodableEnv.EncodeToHex [9], none) :=
  ⟨rfl, rfl, rfl, rfl, rfl, rfl, rfl, rfl, rfl, rfl⟩

/-- C19 as amended: once the extrinsic is submitted, when the first inclusion
notification arrives and the decoding of the event log of the including block
fails outright, every operation that decodes the log returns a nil error.
CreateBucket, DeleteBucket, UploadDeclaration, Register, updateAddress and Exit
return it with the block-hash identifier; DeleteFile, SubmitFileReport and
ReplaceIdleFiles return it with the block-hash identifier and the list of the
first event of the expected kind when the decoder left one, and with the zero
values of the results (an empty identifier) when it left none. -/
theorem decode_failure_is_success (P : Pattern) (env : Env) (s : St) (pre rest : List Signal)
    (block : Hash) (events : EventRecords) (d : Err)
    (hpre : pre.all Signal.noInclusion = true)
    (hraw : env.GetStorageRaw block = none)
    (hdec : env.DecodeEventRecords block = (some d, events)) :
    (∀ owner_pkey name s1, CreateBucket_submit env owner_pkey name s = (.next (), s1) →
        (CreateBucket P env owner_pkey name (pre ++ inBlock block :: rest) s).1
          = some (env.EncodeToHex block, none))
    ∧ (∀ owner_pkey name s1, DeleteBucket_submit env owner_pkey name s = (.next (), s1) →
        (DeleteBucket P env owner_pkey name (pre ++ inBlock block :: rest) s).1
          = some (env.EncodeToHex block, none))
    ∧ (∀ filehash dealinfo user s1,
        UploadDeclaration_submit P env filehash dealinfo user s = (.next (), s1) →
        (UploadDeclaration P env filehash dealinfo user (pre ++ inBlock block :: rest) s).1
          = some (env.EncodeToHex block, none))
    ∧ (∀ puk filehash hashs s1, DeleteFile_submit P env puk filehash s = (.next hashs, s1) →
        (DeleteFile P env puk filehash (pre ++ inBlock block :: rest) s).1
          = match events.FileBank_DeleteFile with
            | e :: _ => some (env.EncodeToHex block, some e.Filehash, none)
            | [] => some ("", none, none))
    ∧ (∀ roothash s1, SubmitFileReport_submit env roothash s = (.next (), s1) →
        (SubmitFileReport P env roothash (pre ++ inBlock block :: rest) s).1
          = match events.FileBank_TransferReport with
            | e :: _ => some (env.EncodeToHex block, some e.Failed_list, none)
            | [] => some ("", none, none))
    ∧ (∀ roothash s1, ReplaceIdleFiles_submit env roothash s = (.next (), s1) →
        (ReplaceIdleFiles P env roothash (pre ++ inBlock block :: rest) s).1
          = match events.FileBank_ReplaceFiller with
            | e :: _ => some (env.EncodeToHex block, some e.Filler_list, none)
            | [] => some ("", none, none))
    ∧ (∀ role puk earnings pledge s1,
        Register_submit P env role puk earnings pledge (pre ++ inBlock block :: rest) s
          = (.next (), s1) →
        (Register P env role puk earnings pledge (pre ++ inBlock block :: rest) s).1
          = some (env.EncodeToHex block, earnings, none))
    ∧ (∀ name peerid s1, updateAddress_submit P env name peerid s = (.next (), s1) →
        (updateAddress P env name peerid (pre ++ inBlock block :: rest) s).1
          = .ret (env.EncodeToHex block, none))
    ∧ (∀ role s1, Exit_submit P env role s = (.next (), s1) →
        (Exit P env role (pre ++ inBlock block :: rest) s).1
          = some (env.EncodeToHex block, none)) := by
  refine ⟨?_, ?_, ?_, ?_, ?_, ?_, ?_, ?_, ?_⟩
  · intro owner_pkey name s1 hsub
    unfold CreateBucket
    rw [recovered_wait_ret _ _ _ _ _ _ _ _ hsub (selectLoop_inBlock_ret _ _ _ _ _ _ hpre _ _ _
      (CreateBucket_inBlock_undecoded P env block events d _ hraw hdec))]
  · intro owner_pkey name s1 hsub
    unfold DeleteBucket
    rw [recovered_wait_ret _ _ _ _ _ _ _ _ hsub (selectLoop_inBlock_ret _ _ _ _ _ _ hpre _ _ _
      (DeleteBucket_inBlock_undecoded P env block events d _ hraw hdec))]
  · intro filehash dealinfo user s1 hsub
    unfold UploadDeclaration
    rw [recovered_wait_ret _ _ _ _ _ _ _ _ hsub (selectLoop_inBlock_ret _ _ _ _ _ _ hpre _ _ _
      (UploadDeclaration_inBlock_undecoded P env block events d _ hraw hdec))]
  · intro puk filehash hashs s1 hsub
    unfold DeleteFile
    cases hev : events.FileBank_DeleteFile with
    | nil =>
      rw [recovered_wait_panic _ _ _ _ _ _ _ hsub (selectLoop_inBlock_panic _ _ _ _ _ _ hpre _ _
        (DeleteFile_inBlock_panic P env hashs block events d _ hraw hdec hev))]
    | cons e es =>
      rw [recovered_wait_ret _ _ _ _ _ _ _ _ hsub (selectLoop_inBlock_ret _ _ _ _ _ _ hpre _ _ _
        (DeleteFile_inBlock_undecoded P env hashs block events d e es _ hraw hdec hev))]
  · intro roothash s1 hsub
    unfold SubmitFileReport
    cases hev : events.FileBank_TransferReport with
    | nil =>
      rw [recovered_wait_panic _ _ _ _ _ _ _ hsub (selectLoop_inBlock_panic _ _ _ _ _ _ hpre _ _
        (SubmitFileReport_inBlock_panic P env block events d _ hraw hdec hev))]
    | cons e es =>
      rw [recovered_wait_ret _ _ _ _ _ _ _ _ hsub (selectLoop_inBlock_ret _ _ _ _ _ _ hpre _ _ _
        (SubmitFileReport_inBlock_undecoded P env block events d e es _ hraw hdec hev))]
  · intro roothash s1 hsub
    unfold ReplaceIdleFiles
    cases hev : events.FileBank_ReplaceFiller with
    | nil =>
      rw [recovered_wait_panic _ _ _ _ _ _ _ hsub (selectLoop_inBlock_panic _ _ _ _ _ _ hpre _ _
        (ReplaceIdleFiles_inBlock_panic P env block events d _ hraw hdec hev))]
    | cons e es =>
      rw [recovered_wait_ret _ _ _ _ _ _ _ _ hsub (selectLoop_inBlock_ret _ _ _ _ _ _ hpre _ _ _
        (ReplaceIdleFiles_inBlock_undecoded P env block events d e es _ hraw hdec hev))]
  · intro role puk earnings pledge s1 hsub
    unfold Register
    rw [recovered_wait_ret _ _ _ _ _ _ _ _ hsub (selectLoop_inBlock_ret _ _ _ _ _ _ hpre _ _ _
      (Register_inBlock_undecoded P env role earnings block events d _ hraw hdec))]
  · intro name peerid s1 hsub
    unfold updateAddress
    rw [wait_ret _ _ _ _ _ _ _ hsub (selectLoop_inBlock_ret _ _ _ _ _ _ hpre _ _ _
      (updateAddress_inBlock_undecoded P env name block events d _ hraw hdec))]
  · intro role s1 hsub
    unfold Exit
    rw [recovered_wait_ret _ _ _ _ _ _ _ _ hsub (selectLoop_inBlock_ret _ _ _ _ _ _ hpre _ _ _
      (Exit_inBlock_undecoded P env role block events d _ hraw hdec))]

/-- C19 as amended, at a concrete input: on `halfDecodedEnv` the decoder fails
after it has stored one event of each list kind. -/
theorem decode_failure_is_success_witness :
    (CreateBucket samplePattern halfDecodedEnv [1] [2]
          ([pending] ++ inBlock [9] :: [.timeout]) liveSt).1
        = some (halfDecodedEnv.EncodeToHex [9], none)
    ∧ (DeleteFile samplePattern halfDecodedEnv [1] [sampleHash]
          ([pending] ++ inBlock [9] :: [.timeout]) liveSt).1
        = some (halfDecodedEnv.EncodeToHex [9], some [[1]], none)
    ∧ (SubmitFileReport samplePattern halfDecodedEnv [sampleHash]
          ([pending] ++ inBlock [9] :: [.timeout]) liveSt).1
        = some (halfDecodedEnv.EncodeToHex [9], some [[3]], none)
    ∧ (ReplaceIdleFiles samplePattern halfDecodedEnv [sampleHash]
          ([pending] ++ inBlock [9] :: [.timeout]) liveSt).1
        = some (halfDecodedEnv.EncodeToHex [9], some [[5]], none)
    ∧ (Register samplePattern halfDecodedEnv "sminer" samplePeer "cXabc" 5
          ([pending] ++ inBlock [9] :: [.timeout]) liveSt).1
        = some (halfDecodedEnv.EncodeToHex [9], "cXabc", none)
    ∧ (Exit samplePattern halfDecodedEnv "oss"
          ([pending] ++ inBlock [9] :: [.timeout]) liveSt).1
        = some (halfDecodedEnv.EncodeToHex [9], none) :=
  have h := decode_failure_is_success samplePattern halfDecodedEnv liveSt [pending] [.timeout]
    [9] (halfDecodedEnv.DecodeEventRecords [9]).2 (.new "decode") rfl rfl rfl
  ⟨h.1 [1] [2] _ rfl, h.2.2.2.1 [1] [sampleHash] _ _ rfl, h.2.2.2.2.1 [sampleHash] _ rfl,
    h.2.2.2.2.2.1 [sampleHash] _ rfl, h.2.2.2.2.2.2.1 "sminer" samplePeer "cXabc" 5 _ rfl,
    h.2.2.2.2.2.2.2.2 "oss" _ rfl⟩

/-- C11, the code at two failing inputs.  `ReportFiles` and `ReplaceFile` given
the three-byte string `shortHash` make no length check: they hand the string,
padded with zero bytes to the length of a content hash, to `SubmitFileReport`
and `ReplaceIdleFiles`, a transaction is submitted, and on `eventfulEnv` the
result carries a nil error.  Given `longHash`, one byte longer than a content
hash, they index the hash array at its length: a run-time panic, which they do
not recover, before any external call. -/
theorem ReportFiles_ReplaceFile_unchecked_length :
    shortHash.length ≠ samplePattern.FileHashLen
    ∧ (ReportFiles samplePattern eventfulEnv [shortHash] [inBlock [9]] liveSt).1
        = .ret (eventfulEnv.EncodeToHex [9], [[3]], none)
    ∧ callsSubmitted
        (ReportFiles samplePattern eventfulEnv [shortHash] [inBlock [9]] liveSt).2.trace
        = [⟨.TX_FILEBANK_FILEREPORT, [.fileHashes [shortHash ++ List.replicate 61 0]]⟩]
    ∧ (ReplaceFile samplePattern eventfulEnv [shortHash] [inBlock [9]] liveSt).1
        = .ret (eventfulEnv.EncodeToHex [9], [[5]], none)
    ∧ callsSubmitted
        (ReplaceFile samplePattern eventfulEnv [shortHash] [inBlock [9]] liveSt).2.trace
        = [⟨.TX_FILEBANK_REPLACEFILE, [.fileHashes [shortHash ++ List.replicate 61 0]]⟩]
    ∧ longHash.length ≠ samplePattern.FileHashLen
    ∧ ReportFiles samplePattern eventfulEnv [longHash] [inBlock [9]] liveSt = (.panic, liveSt)
    ∧ ReplaceFile samplePattern eventfulEnv [longHash] [inBlock [9]] liveSt
        = (.panic, liveSt) := by
  refine ⟨by decide, rfl, rfl, rfl, rfl, by decide, rfl, rfl⟩

/-! ## Role names -/

theorem accepted_iff (P : Pattern) (role : String) :
    role ∈ acceptedRoles P ↔ (isOssRole P role = true ∨ isBucketRole P role = true) := by
  simp only [acceptedRoles, isOssRole, isBucketRole, List.mem_cons, List.mem_singleton,
    List.not_mem_nil, or_false, Bool.or_eq_true, beq_iff_eq]
  tauto

/-- C18 fails as stated: "validator" is outside the accepted alias set, and on
`keylessEnv`, where the account storage key cannot be built, `Register` on a
live session returns the wrapped error of `CreateStorageKey`, which is not an
invalid-input error. -/
theorem Register_unknown_role_key_error :
    "validator" ∉ acceptedRoles samplePattern
    ∧ Register samplePattern keylessEnv "validator" samplePeer "" 0 [] liveSt
        = (some ("", "", some (.wrap (.new "no such storage") "[CreateStorageKey]")),
            ⟨true, [.CreateStorageKey .SYSTEM_ACCOUNT [1, 2, 3]]⟩) := by
  refine ⟨by decide, rfl⟩

/-- C18 as amended: for every role string outside the accepted alias set, on a
live session, `Exit` returns the invalid-input error "Invalid role name" without
any external call, and `Register` returns a non-nil error and constructs, signs
and submits no call: the invalid-input error "invalid peerid" when the peer id
has the wrong length, else the wrapped error of `CreateStorageKey` when the
account storage key cannot be built, else the invalid-input error
"invalid role name".  The role switches of `Register` and of `updateAddress`
accept the same set: for a role of the set `updateAddress` takes one of its two
named cases and builds its call, for any other role it returns
"Invalid role name", which therefore cannot happen when `Register` calls it. -/
theorem unknown_role_rejected (P : Pattern) (env : Env) (s : St) (signals : List Signal)
    (role : String) (hlive : s.chainState = true) (hrole : role ∉ acceptedRoles P) :
    Exit P env role signals s = (some ("", some (.new "Invalid role name")), s)
    ∧ (∀ puk earnings pledge, puk.length ≠ P.PeerIdLen →
        Register P env role puk earnings pledge signals s
          = (some ("", earnings, some (.new ("invalid peerid: " ++ fmtV puk))), s))
    ∧ (∀ puk earnings pledge e, puk.length = P.PeerIdLen →
        env.CreateStorageKey .SYSTEM_ACCOUNT env.PublicKey = some e →
        Register P env role puk earnings pledge signals s
          = (some ("", earnings, some (.wrap e "[CreateStorageKey]")),
              { s with trace := s.trace ++ [.CreateStorageKey .SYSTEM_ACCOUNT env.PublicKey] }))
    ∧ (∀ puk earnings pledge, puk.length = P.PeerIdLen →
        env.CreateStorageKey .SYSTEM_ACCOUNT env.PublicKey = none →
        Register P env role puk earnings pledge signals s
          = (some ("", earnings, some (.new "invalid role name")),
              { s with trace := s.trace ++ [.CreateStorageKey .SYSTEM_ACCOUNT env.PublicKey] }))
    ∧ (∀ peerid s0, updateAddress P env role peerid signals s0
        = (.ret ("", some (.new "Invalid role name")), s0))
    ∧ (∀ name ∈ acceptedRoles P, ∀ peerid s0,
        callsBuilt (updateAddress P env name peerid signals s0).2.trace
          = callsBuilt s0.trace ++ [⟨updateTx P name, [.peerId peerid]⟩]) := by
  have hr := (not_congr (accepted_iff P role)).mp hrole
  have hoss : isOssRole P role = false := by
    cases h : isOssRole P role
    · rfl
    · exact absurd (Or.inl h) hr
  have hb : isBucketRole P role = false := by
    cases h : isBucketRole P role
    · rfl
    · exact absurd (Or.inr h) hr
  refine ⟨?_, ?_, ?_, ?_, ?_, ?_⟩
  · simp [Exit, recovered, Exit_submit, bind, M.bind, GetChainState, hlive, hoss, hb, ret]
  · intro puk earnings pledge hlen
    have hlen2 : ¬ P.PeerIdLen = puk.length := fun h => hlen h.symm
    simp [Register, recovered, Register_submit, bind, M.bind, GetChainState, hlive, hlen2, ret]
  · intro puk earnings pledge e hlen hkey
    simp [Register, recovered, Register_submit, bind, M.bind, GetChainState, hlive, hlen,
      CreateStorageKey, perform, check, hkey, ret, St.log, pure]
  · intro puk earnings pledge hlen hkey
    simp [Register, recovered, Register_submit, Register_switch, bind, M.bind, GetChainState,
      hlive, hlen, CreateStorageKey, perform, check, hkey, ret, St.log, pure, hoss, hb]
  · intro peerid s0
    simp [updateAddress, updateAddress_submit, bind, M.bind, hoss, hb, ret]
  · intro name hname peerid s0
    exact (updateAddress_calls P env name peerid signals s0 ((accepted_iff P name).mp hname)).1

/-- C18 as amended, at a concrete input: the role "validator" on `sampleEnv`
and `liveSt`, with a peer id of three bytes and with `samplePeer`; the alias
"Sminer" is accepted by `updateAddress`. -/
theorem unknown_role_rejected_witness :
    Exit samplePattern sampleEnv "validator" [] liveSt
        = (some ("", some (.new "Invalid role name")), liveSt)
    ∧ Register samplePattern sampleEnv "validator" [1, 2, 3] "" 0 [] liveSt
        = (some ("", "", some (.new "invalid peerid: [1 2 3]")), liveSt)
    ∧ Register samplePattern sampleEnv "validator" samplePeer "" 0 [] liveSt
        = (some ("", "", some (.new "invalid role name")),
            ⟨true, [.CreateStorageKey .SYSTEM_ACCOUNT [1, 2, 3]]⟩)
    ∧ updateAddress samplePattern sampleEnv "validator" samplePeer [] liveSt
        = (.ret ("", some (.new "Invalid role name")), liveSt)
    ∧ callsBuilt (updateAddress samplePattern sampleEnv "Sminer" samplePeer [] liveSt).2.trace
        = [⟨.TX_SMINER_UPDATEPEERID, [.peerId samplePeer]⟩] :=
  have h := unknown_role_rejected samplePattern sampleEnv liveSt [] "validator" rfl (by decide)
  ⟨h.1, h.2.1 [1, 2, 3] "" 0 (by decide), h.2.2.2.1 samplePeer "" 0 rfl rfl,
    h.2.2.2.2.1 samplePeer liveSt, h.2.2.2.2.2 "Sminer" (by decide) samplePeer liveSt⟩

/-- C14, the code at two failing inputs, on `sampleNet`.  With the endpoints
"a" and "b", which both connect, `NewChainSDK` keeps the connection to "a", the
first that connects, and `reconnectChainSDK` keeps the one to "b", the last it
dialled.  With the endpoints "a", which connects, and "down", which does not,
`NewChainSDK` keeps "a" and `reconnectChainSDK` returns the connection error
with no connection. -/
theorem reconnect_keeps_last_endpoint :
    (NewChainSDK sampleNet "sdk" ["a", "b"] "" 10 "" 0).1.map (fun sdk => sdk.api)
        = some (some ⟨"a"⟩)
    ∧ (reconnectChainSDK sampleNet ["a", "b"]).api = some ⟨"b"⟩
    ∧ (NewChainSDK sampleNet "sdk" ["a", "down"] "" 10 "" 0).1.map (fun sdk => sdk.api)
        = some (some ⟨"a"⟩)
    ∧ reconnectChainSDK sampleNet ["a", "down"] = Reconnected.failed
    ∧ Reconnected.failed.api = none
    ∧ Reconnected.failed.err = some .ERR_RPC_CONNECTION := by
  refine ⟨rfl, rfl, rfl, rfl, rfl, rfl⟩

/-- C15, the code at a failing input: with the empty endpoint list the loop of
`NewChainSDK` makes no attempt, `err` is still nil when `chainSDK.api == nil`
holds, and the statement `return nil, err` yields a nil SDK together with a nil
error.  With the endpoint "down" alone the error of the dial is returned. -/
theorem NewChainSDK_empty_list_nil_nil :
    NewChainSDK sampleNet "sdk" [] "" 10 "" 0 = (none, none)
    ∧ NewChainSDK sampleNet "sdk" ["down"] "" 10 "" 0 = (none, some (.new "dial failed")) := by
  refine ⟨rfl, rfl⟩

/-- C16 fails as stated: `strandedSDK` holds a populated session with the
liveness flag true and its only endpoint cannot be dialled.  `Reconnect` returns
the connection error and leaves an empty session: the connection, the
metadata, the runtime version and the event key are nil and the genesis hash is
zero, not what they were before the call; the liveness flag is still true. -/
theorem Reconnect_failure_clears_session :
    (Reconnect sampleNet strandedSDK).1 = some .ERR_RPC_CONNECTION
    ∧ (Reconnect sampleNet strandedSDK).2
        = { strandedSDK with api := none, metadata := none, runtimeVersion := none,
                             keyEvents := none, genesisHash := zeroHash }
    ∧ (Reconnect sampleNet strandedSDK).2.chainState = true
    ∧ strandedSDK.api = some ⟨"old"⟩ ∧ strandedSDK.metadata = some 1 := by
  refine ⟨rfl, rfl, rfl, rfl, rfl⟩

theorem reconnectChainSDK_cases (cenv : ConnEnv) (rpcs : List String) :
    reconnectChainSDK cenv rpcs = Reconnected.failed
    ∨ ∃ api metadata runtimeVer keyEvents genesisHash,
        (reconnectChainSDK_dial cenv rpcs (none, none)).1 = some api
        ∧ cenv.GetMetadataLatest api = .ok metadata
        ∧ cenv.GetBlockHash api = .ok genesisHash
        ∧ cenv.GetRuntimeVersionLatest api = .ok runtimeVer
        ∧ cenv.CreateStorageKey metadata = .ok keyEvents
        ∧ reconnectChainSDK cenv rpcs
          = ⟨some api, some metadata, some runtimeVer, some keyEvents, genesisHash, none⟩ := by
  unfold reconnectChainSDK
  cases h0 : (reconnectChainSDK_dial cenv rpcs (none, none)).1 with
  | none => exact Or.inl rfl
  | some api =>
    cases h1 : cenv.GetMetadataLatest api with
    | error e => exact Or.inl (by simp [h1])
    | ok metadata =>
      cases h2 : cenv.GetBlockHash api with
      | error e => exact Or.inl (by simp [h1, h2])
      | ok genesisHash =>
        cases h3 : cenv.GetRuntimeVersionLatest api with
        | error e => exact Or.inl (by simp [h1, h2, h3])
        | ok runtimeVer =>
          cases h4 : cenv.CreateStorageKey metadata with
          | error e => exact Or.inl (by simp [h1, h2, h3, h4])
          | ok keyEvents =>
            exact Or.inr ⟨api, metadata, runtimeVer, keyEvents, genesisHash, rfl, h1, h2, h3,
              h4, by simp [h1, h2, h3, h4]⟩

/-- C16 as amended: `Reconnect` leaves either a fully populated session or an
empty one.  If it succeeds (nil error), the connection is the one
`reconnectChainSDK` selected, the metadata, the genesis hash and the runtime
version are those read from that connection, the event key is the one built
from that metadata, and the liveness flag is true.  If it fails, it returns the
connection error `pattern.ERR_RPC_CONNECTION` and the session held before the
call is discarded: the connection, the metadata, the runtime version and the
event key are nil and the genesis hash is zero. -/
theorem Reconnect_all_or_nothing (cenv : ConnEnv) (c : ChainSDK) :
    ((Reconnect cenv c).1 = none →
        ∃ api metadata runtimeVer keyEvents genesisHash,
          (reconnectChainSDK_dial cenv c.rpcAddr (none, none)).1 = some api
          ∧ cenv.GetMetadataLatest api = .ok metadata
          ∧ cenv.GetBlockHash api = .ok genesisHash
          ∧ cenv.GetRuntimeVersionLatest api = .ok runtimeVer
          ∧ cenv.CreateStorageKey metadata = .ok keyEvents
          ∧ (Reconnect cenv c).2
            = { c with api := some api, metadata := some metadata,
                       runtimeVersion := some runtimeVer, keyEvents := some keyEvents,
                       genesisHash := genesisHash, chainState := true })
    ∧ (∀ err, (Reconnect cenv c).1 = some err →
        err = .ERR_RPC_CONNECTION
        ∧ (Reconnect cenv c).2.api = none ∧ (Reconnect cenv c).2.metadata = none
        ∧ (Reconnect cenv c).2.runtimeVersion = none ∧ (Reconnect cenv c).2.keyEvents = none
        ∧ (Reconnect cenv c).2.genesisHash = zeroHash) := by
  have hrpc : (if c.api.isSome then { c with api := none } else c).rpcAddr = c.rpcAddr := by
    split_ifs <;> rfl
  rcases reconnectChainSDK_cases cenv c.rpcAddr with hf | ⟨api, md, rv, ke, gh, h0, h1, h2, h3, h4, hr⟩
  · constructor
    · intro h
      simp [Reconnect, hrpc, hf, Reconnected.failed] at h
    · intro err h
      simp only [Reconnect, hrpc, hf, Reconnected.failed] at h ⊢
      simp only [Option.some.injEq] at h
      exact ⟨h.symm, by simp⟩
  · constructor
    · intro _
      refine ⟨api, md, rv, ke, gh, h0, h1, h2, h3, h4, ?_⟩
      simp only [Reconnect, hrpc, hr]
      split_ifs <;> rfl
    · intro err h
      simp [Reconnect, hrpc, hr] at h

/-- C16 as amended, at a concrete input: on `sampleNet` an SDK whose endpoints
are "a" and "b" reconnects, and `strandedSDK` does not. -/
theorem Reconnect_all_or_nothing_witness :
    (Reconnect sampleNet { strandedSDK with rpcAddr := ["a", "b"], chainState := false }).2
        = { strandedSDK with rpcAddr := ["a", "b"], api := some ⟨"b"⟩, chainState := true }
    ∧ (Reconnect sampleNet strandedSDK).2.api = none
    ∧ (Reconnect sampleNet strandedSDK).2.metadata = none :=
  have h1 := (Reconnect_all_or_nothing sampleNet
    { strandedSDK with rpcAddr := ["a", "b"], chainState := false }).1 rfl
  have h2 := (Reconnect_all_or_nothing sampleNet strandedSDK).2 .ERR_RPC_CONNECTION rfl
  ⟨by
    obtain ⟨api, md, rv, ke, gh, h0, hm, hg, hv, hk, hs⟩ := h1
    rw [hs]
    cases (Option.some.inj h0 : (⟨"b"⟩ : Api) = api)
    cases (Except.ok.inj hm : (1 : Nat) = md)
    cases (Except.ok.inj hg : ([7] : Hash) = gh)
    cases (Except.ok.inj hv : (2 : Nat) = rv)
    cases (Except.ok.inj hk : ([1] : Bytes) = ke)
    rfl, h2.2.1, h2.2.2.1⟩

/-! ## The shard files -/

theorem copyString_spec {ρ : Type} (n : Nat) (todo pre mid post : List Nat) (s : St)
    (hmid : mid.length = todo.length) (hn : pre.length + todo.length ≤ n) :
    copyString n todo pre.length (pre ++ mid ++ post) s
      = ((.next (pre ++ todo ++ post) : Res ρ (List Nat)), s) := by
  induction todo generalizing pre mid with
  | nil =>
    have : mid = [] := List.length_eq_zero.mp hmid
    simp [copyString, pure, this]
  | cons b todo ih =>
    cases mid with
    | nil => simp at hmid
    | cons m mid =>
      have hlt : pre.length < n := by simp at hn; omega
      have hset : (pre ++ m :: mid ++ post).set pre.length b = (pre ++ [b]) ++ mid ++ post := by
        simp [List.set_append_right]
      have hlen : pre.length + 1 = (pre ++ [b]).length := by simp
      rw [copyString, if_pos hlt, hset, hlen,
        ih (pre ++ [b]) mid (by simpa using hmid) (by simp at hn ⊢; omega)]
      simp

theorem copyString_fresh {ρ : Type} (h : Bytes) (s : St) :
    copyString h.length h 0 (List.replicate h.length 0) s = ((.next h : Res ρ (List Nat)), s) := by
  have := @copyString_spec ρ h.length h [] (List.replicate h.length 0) [] s (by simp)
    (by simp)
  simpa using this

theorem SubmitIdleFile_loop_spec {ρ : Type} (P : Pattern) (env : Env) (todo : List IdleFileMeta)
    (submit : List IdleMetadata) (s : St) (hroom : submit.length < P.MaxSubmitedIdleFileMeta) :
    ∃ s1, SubmitIdleFile_loop P env todo submit s
        = ((.next (submit ++ ((todo.filter (IdleFileMeta.valid P env)).take
            (P.MaxSubmitedIdleFileMeta - submit.length)).map (IdleFileMeta.toMetadata env)) :
            Res ρ (List IdleMetadata)), s1)
      ∧ s1.chainState = s.chainState := by
  induction todo generalizing submit s with
  | nil => exact ⟨s, by simp [SubmitIdleFile_loop, pure], rfl⟩
  | cons f todo ih =>
    cases hacc : env.NewAccountID f.MinerAcc with
    | error e =>
      obtain ⟨s1, h1, h2⟩ := ih submit (s.log (.NewAccountID f.MinerAcc)) hroom
      refine ⟨s1, ?_, by simpa [St.log] using h2⟩
      have hv : IdleFileMeta.valid P env f = false := by
        simp [IdleFileMeta.valid, hacc, Except.isOk, Except.toBool]
      simp only [SubmitIdleFile_loop, bind, M.bind, perform, hacc, List.filter_cons, hv]
      simpa using h1
    | ok acc =>
      by_cases hlen : f.Hash.length = P.FileHashLen
      · have hv : IdleFileMeta.valid P env f = true := by
          simp [IdleFileMeta.valid, hacc, Except.isOk, Except.toBool, hlen]
        have hele : IdleFileMeta.toMetadata env f
            = { Size := f.Size, BlockNum := f.BlockNum, BlockSize := f.BlockSize,
                ScanSize := f.ScanSize, Acc := acc, Hash := f.Hash } := by
          simp [IdleFileMeta.toMetadata, hacc]
        have hcopy := @copyString_fresh ρ f.Hash (s.log (.NewAccountID f.MinerAcc))
        rw [hlen] at hcopy
        by_cases hfull : (submit ++ [IdleFileMeta.toMetadata env f]).length
            ≥ P.MaxSubmitedIdleFileMeta
        · refine ⟨s.log (.NewAccountID f.MinerAcc), ?_, rfl⟩
          have hone : P.MaxSubmitedIdleFileMeta - submit.length = 1 := by
            simp at hfull
            omega
          have hfull2 : P.MaxSubmitedIdleFileMeta ≤ submit.length + 1 := by simpa using hfull
          simp [SubmitIdleFile_loop, bind, M.bind, perform, hacc, hlen, hcopy, hv, hone, hele,
            pure, hfull2]
        · have hroom2 : (submit ++ [IdleFileMeta.toMetadata env f]).length
              < P.MaxSubmitedIdleFileMeta := by omega
          obtain ⟨s1, h1, h2⟩ := ih (submit ++ [IdleFileMeta.toMetadata env f])
            (s.log (.NewAccountID f.MinerAcc)) hroom2
          refine ⟨s1, ?_, by simpa [St.log] using h2⟩
          have hk : P.MaxSubmitedIdleFileMeta - submit.length
              = (P.MaxSubmitedIdleFileMeta - (submit ++ [IdleFileMeta.toMetadata env f]).length)
                + 1 := by
            simp at hroom2 ⊢
            omega
          rw [hele] at hfull h1 hk
          have hfull2 : ¬ (P.MaxSubmitedIdleFileMeta ≤ submit.length + 1) := by
            simpa using hfull
          rw [hk]
          simp only [SubmitIdleFile_loop, bind, M.bind, perform, hacc, hlen, hcopy, hv,
            List.filter_cons, if_true, List.take_succ_cons, List.map_cons, hele]
          simp [hfull2]
          show M.bind _ _ _ = _
          simp only [M.bind, hcopy]
          simpa using h1
      · obtain ⟨s1, h1, h2⟩ := ih submit (s.log (.NewAccountID f.MinerAcc)) hroom
        refine ⟨s1, ?_, by simpa [St.log] using h2⟩
        have hv : IdleFileMeta.valid P env f = false := by simp [IdleFileMeta.valid, hlen]
        simp only [SubmitIdleFile_loop, bind, M.bind, perform, hacc, List.filter_cons, hv]
        simpa [hlen] using h1

theorem take_min_length {α : Type} (k : Nat) (l : List α) :
    l.take (min k l.length) = l.take k := by
  rcases Nat.le_total k l.length with h | h
  · rw [Nat.min_eq_left h]
  · rw [Nat.min_eq_right h, List.take_length, List.take_of_length_le h]

/-- C22: when `MaxSubmitedIdleFileMeta` is at least 1, the loop of
`SubmitIdleFile` ends without a return or a panic and leaves in `submit` the
first `min(MaxSubmitedIdleFileMeta, number of valid entries)` valid entries of
the input in their original order, each with `Size`, `BlockNum`, `BlockSize`
and `ScanSize` unchanged and the bytes of the hash string as `Hash`; the
liveness flag is as before; `SubmitIdleFile` returns what `SubmitIdleMetadata`
returns on exactly this list; and the list has at most
`MaxSubmitedIdleFileMeta` entries. -/
theorem SubmitIdleFile_submits_first_valid (P : Pattern) (env : Env) (teeAcc : Bytes)
    (idlefiles : List IdleFileMeta) (signals : List Signal) (s : St)
    (hmax : 1 ≤ P.MaxSubmitedIdleFileMeta) :
    ∃ s1, SubmitIdleFile_loop P env idlefiles [] s
        = ((.next (submittedIdleFiles P env idlefiles) : Res R2 (List IdleMetadata)), s1)
      ∧ s1.chainState = s.chainState
      ∧ SubmitIdleFile P env teeAcc idlefiles signals s
        = returned (SubmitIdleMetadata env teeAcc (submittedIdleFiles P env idlefiles) signals s1)
      ∧ (submittedIdleFiles P env idlefiles).length ≤ P.MaxSubmitedIdleFileMeta := by
  obtain ⟨s1, h1, h2⟩ := @SubmitIdleFile_loop_spec R2 P env idlefiles [] s (by simpa using hmax)
  have hlist : submittedIdleFiles P env idlefiles
      = [] ++ ((idlefiles.filter (IdleFileMeta.valid P env)).take
          (P.MaxSubmitedIdleFileMeta - ([] : List IdleMetadata).length)).map
          (IdleFileMeta.toMetadata env) := by
    simp [submittedIdleFiles, take_min_length]
  rw [← hlist] at h1
  refine ⟨s1, h1, h2, ?_, ?_⟩
  · simp only [SubmitIdleFile, bind, M.bind, h1, callOp, returned]
    cases SubmitIdleMetadata env teeAcc (submittedIdleFiles P env idlefiles) signals s1 with
    | mk r s2 => cases r <;> rfl
  · simp only [submittedIdleFiles, List.length_map, List.length_take]
    omega

/-- C22 at a concrete input: of the five entries of `sampleIdleFiles` the
second and the third are invalid on `pickyEnv` with hashes of two bytes; with
at most two entries in one submission the first and the fourth are submitted,
and the upload call built holds exactly these two. -/
theorem SubmitIdleFile_submits_first_valid_witness :
    submittedIdleFiles smallPattern pickyEnv sampleIdleFiles
        = [⟨10, 1, 2, 3, [1, 1, 1], [97, 98]⟩, ⟨40, 4, 5, 6, [2, 2, 2], [98, 98]⟩]
      ∧ ∃ s1, SubmitIdleFile smallPattern pickyEnv [9, 9, 9] sampleIdleFiles [inBlock [1]] liveSt
          = returned (SubmitIdleMetadata pickyEnv [9, 9, 9]
              (submittedIdleFiles smallPattern pickyEnv sampleIdleFiles) [inBlock [1]] s1)
        ∧ s1.chainState = true
        ∧ callsBuilt (SubmitIdleFile smallPattern pickyEnv [9, 9, 9] sampleIdleFiles
            [inBlock [1]] liveSt).2.trace
          = [⟨.TX_FILEBANK_UPLOADFILLER, [.accountID [9, 9, 9], .idleFiles
              [⟨10, 1, 2, 3, [1, 1, 1], [97, 98]⟩, ⟨40, 4, 5, 6, [2, 2, 2], [98, 98]⟩]]⟩] := by
  obtain ⟨s1, -, h2, h3, -⟩ := SubmitIdleFile_submits_first_valid smallPattern pickyEnv [9, 9, 9]
    sampleIdleFiles [inBlock [1]] liveSt (by decide)
  exact ⟨by decide, s1, h3, h2, by decide⟩

/-! ## The staking amount of `Register` -/

theorem digitChar_value (d : Nat) (h : d < 10) :
    (Nat.digitChar d).isDigit = true ∧ (Nat.digitChar d).toNat - 48 = d := by
  interval_cases d <;> exact ⟨rfl, rfl⟩

theorem digitsValue_append (l1 l2 : List Char) (acc v : Nat) (h : digitsValue l1 acc = some v) :
    digitsValue (l1 ++ l2) acc = digitsValue l2 v := by
  induction l1 generalizing acc with
  | nil =>
    simp only [digitsValue, Option.some.injEq] at h
    simp [h]
  | cons c cs ih =>
    by_cases hc : c.isDigit = true
    · simp only [digitsValue, hc, if_true, List.cons_append] at h ⊢
      exact ih _ h
    · simp [digitsValue, hc] at h

theorem digitsValue_zeros (n acc : Nat) :
    digitsValue (List.replicate n '0') acc = some (acc * 10 ^ n) := by
  induction n generalizing acc with
  | zero => simp [digitsValue]
  | succ n ih =>
    have h0 : ('0' : Char).isDigit = true := by decide
    have h1 : ('0' : Char).toNat - 48 = 0 := by decide
    rw [List.replicate_succ, digitsValue, if_pos h0, h1, ih]
    congr 1
    ring

theorem toDigitsCore_value (fuel n : Nat) (ds : List Char) (h : n < fuel) :
    ∃ pre, Nat.toDigitsCore 10 fuel n ds = pre ++ ds ∧ pre ≠ [] ∧ digitsValue pre 0 = some n := by
  induction fuel generalizing n ds with
  | zero => omega
  | succ fuel ih =>
    obtain ⟨hd, hv⟩ := digitChar_value (n % 10) (Nat.mod_lt _ (by decide))
    by_cases hq : n / 10 = 0
    · refine ⟨[Nat.digitChar (n % 10)], by simp [Nat.toDigitsCore, hq], by simp, ?_⟩
      have hn : n % 10 = n := Nat.mod_eq_of_lt (by omega)
      simp only [digitsValue, hd, if_true, hv, Option.some.injEq]
      omega
    · obtain ⟨pre, h1, -, h3⟩ := ih (n / 10) (Nat.digitChar (n % 10) :: ds) (by omega)
      refine ⟨pre ++ [Nat.digitChar (n % 10)], by simp [Nat.toDigitsCore, hq, h1], by simp, ?_⟩
      rw [digitsValue_append pre _ 0 (n / 10) h3]
      simp only [digitsValue, hd, if_true, hv, Option.some.injEq]
      omega

theorem SetString_digits (l : List Char) (v : Nat) (hne : l ≠ []) (hv : digitsValue l 0 = some v) :
    SetString (String.mk l) = some (v : Int) := by
  cases l with
  | nil => exact absurd rfl hne
  | cons c cs =>
    have hc : c.isDigit = true := by
      by_contra hc
      simp [digitsValue, hc] at hv
    have hminus : c ≠ '-' := by
      rintro rfl
      exact absurd hc (by decide)
    have hplus : c ≠ '+' := by
      rintro rfl
      exact absurd hc (by decide)
    unfold SetString
    show (match c :: cs with
      | [] => none
      | '-' :: ds => if ds.isEmpty then none else (digitsValue ds 0).map (fun n => -(n : Int))
      | '+' :: ds => if ds.isEmpty then none else (digitsValue ds 0).map (fun n => (n : Int))
      | ds => (digitsValue ds 0).map (fun n => (n : Int))) = some (v : Int)
    split
    · rename_i heq
      cases heq
    · rename_i ds heq
      injection heq with h1 h2
      exact absurd h1 hminus
    · rename_i ds heq
      injection heq with h1 h2
      exact absurd h1 hplus
    · simp [hv]

theorem SetString_FormatUint (pledge n : Nat) :
    SetString (FormatUint pledge ++ String.mk (List.replicate n '0'))
      = some ((pledge * 10 ^ n : Nat) : Int) := by
  obtain ⟨pre, h1, h2, h3⟩ := toDigitsCore_value (pledge + 1) pledge [] (by omega)
  have hstr : FormatUint pledge ++ String.mk (List.replicate n '0')
      = String.mk (pre ++ List.replicate n '0') := by
    show String.mk (Nat.toDigits 10 pledge) ++ String.mk (List.replicate n '0') = _
    rw [Nat.toDigits, h1]
    simp only [List.append_nil]
    rfl
  rw [hstr]
  apply SetString_digits
  · simp [h2]
  · rw [digitsValue_append pre _ 0 pledge h3, digitsValue_zeros]

/-- C23: let `TokenPrecision_CESS` be a string of `n` decimal zero digits and
`pledge` a `uint64`.  Parsing the decimal form of `pledge` followed by
`TokenPrecision_CESS` succeeds and yields `pledge * 10 ^ n`; on the path of
`Register` that registers a new storage provider (the role is a storage role,
the provider is not found on the chain, the earnings account parses and
converts) the role switch therefore goes on to build the register call with
the staking amount `pledge * 10 ^ n`, without taking the "[big.Int.SetString]"
return; and for `n ≤ 19` the amount is below `2 ^ 128`. -/
theorem Register_staking_amount (P : Pattern) (env : Env) (role : String) (puk : Bytes)
    (earnings : String) (pledge : Nat) (peerid : Bytes) (signals : List Signal) (s : St) (n : Nat)
    (hprec : P.TokenPrecision_CESS = String.mk (List.replicate n '0'))
    (hpledge : pledge < 2 ^ 64) :
    SetString (FormatUint pledge ++ P.TokenPrecision_CESS) = some ((pledge * 10 ^ n : Nat) : Int)
      ∧ (∀ e pubkey acc, isOssRole P role = false → isBucketRole P role = true →
          env.QueryStorageMiner env.PublicKey = .error e → e.Error P = P.ERR_Empty →
          env.ParsingPublickey earnings = .ok pubkey → env.NewAccountID pubkey = .ok acc →
          Register_switch P env role puk earnings pledge peerid signals s
            = NewCall env .TX_SMINER_REGISTER
                [.accountID acc, .peerId peerid, .u128 ((pledge * 10 ^ n : Nat) : Int)]
                (fun err => ("", earnings, some (.wrap err "[NewCall]")))
                (((s.log .QueryStorageMiner).log (.ParsingPublickey earnings)).log
                  (.NewAccountID pubkey)))
      ∧ (n ≤ 19 → pledge * 10 ^ n < 2 ^ 128) := by
  have hparse := SetString_FormatUint pledge n
  rw [← hprec] at hparse
  refine ⟨hparse, ?_, ?_⟩
  · intro e pubkey acc hoss hbucket hq hempty hpub hacc
    simp [Register_switch, hoss, hbucket, bind, M.bind, perform, hq, hempty, hpub, hacc, orRet,
      NewAccountID, hparse, pure]
  · intro hn
    calc pledge * 10 ^ n < 2 ^ 64 * 10 ^ n :=
          Nat.mul_lt_mul_of_pos_right hpledge (by positivity)
      _ ≤ 2 ^ 64 * 10 ^ 19 := Nat.mul_le_mul_left _ (Nat.pow_le_pow_right (by decide) hn)
      _ ≤ 2 ^ 128 := by norm_num

/-- C23 at a concrete input: with the twelve zero digits of `samplePattern`, a
pledge of 5 and a new storage provider on `sampleEnv`, the register call built
carries the staking amount 5000000000000. -/
theorem Register_staking_amount_witness :
    SetString (FormatUint 5 ++ samplePattern.TokenPrecision_CESS) = some 5000000000000
      ∧ callsBuilt (Register_switch samplePattern sampleEnv "bucket" samplePeer "cXbank" 5
          samplePeer [] liveSt).2.trace
        = [⟨.TX_SMINER_REGISTER,
            [.accountID [99, 88, 98, 97, 110, 107], .peerId samplePeer, .u128 5000000000000]⟩] := by
  obtain ⟨h1, h2, -⟩ := Register_staking_amount samplePattern sampleEnv "bucket" samplePeer
    "cXbank" 5 samplePeer [] liveSt 12 rfl (by decide)
  refine ⟨by simpa using h1, ?_⟩
  rw [h2 .ERR_RPC_EMPTY_VALUE [99, 88, 98, 97, 110, 107] [99, 88, 98, 97, 110, 107]
    (by decide) (by decide) rfl (by decide) rfl rfl]
  decide

/-! ## The shard array of `ReedSolomonRestore` -/

theorem ReedSolomonRestore_load_overlong (todo : List String) (k : Nat)
    (arr : List (Option Bytes)) (fs : FS) (hk : k ≤ arr.length)
    (hlong : arr.length < k + todo.length) :
    ReedSolomonRestore_load todo k arr fs = (.panic, fs) := by
  induction todo generalizing k arr with
  | nil => simp at hlong; omega
  | cons v todo ih =>
    by_cases hlt : k < arr.length
    · have hrec : ∀ x, ReedSolomonRestore_load todo (k + 1) (arr.set k x) fs = (.panic, fs) :=
        fun x => ih (k + 1) (arr.set k x) (by simpa using hlt) (by simp at hlong ⊢; omega)
      cases hread : ioutil_ReadFile fs v <;>
        simp [ReedSolomonRestore_load, bind, FM.bind, FM.get, hlt, hread, hrec]
    · simp [ReedSolomonRestore_load, bind, FM.bind, FM.get, hlt, FM.panic]

theorem ReedSolomonRestore_overlong (C : ErasurePattern) (os : ErasureEnv) (outpath : String)
    (shardspath : List String) (fs : FS) (enc : Encoder) (hout : fs outpath = none)
    (hnew : os.New C.DataShards C.ParShards = .ok enc)
    (hlong : C.DataShards + C.ParShards < shardspath.length) :
    ReedSolomonRestore C os outpath shardspath fs = (.panic, fs) := by
  have hload := ReedSolomonRestore_load_overlong shardspath 0
    (List.replicate (C.DataShards + C.ParShards) none) fs (Nat.zero_le _) (by simpa using hlong)
  simp [ReedSolomonRestore, bind, FM.bind, FM.get, FM.orRet, os_Stat, hout, pure, hnew, hload]

/-- C24 fails on the code at two inputs, `sampleErasure` giving the shard
array three slots and "dir/out" not existing in `corruptFS`.  Given four shard
locations, `ReedSolomonRestore` indexes the array at 3 and panics.  Given the
three locations of `corruptFS`, whose first shard file holds other content,
verification fails before and after the reconstruction, and
`ReedSolomonRestore` returns a nil error without creating the output file. -/
theorem ReedSolomonRestore_panics_and_returns_nil_unwritten :
    corruptFS "dir/out" = none
    ∧ (ReedSolomonRestore sampleErasure sampleOs "dir/out"
        ["dir/1-2", "dir/3-4", "dir/4-6", "dir/more"] corruptFS).1 = .panic
    ∧ (sampleEncoder 2 1).Verify [some [9, 9], some [3, 4], some [4, 6]] = (false, none)
    ∧ (sampleEncoder 2 1).Reconstruct [some [9, 9], some [3, 4], some [4, 6]]
        = .ok [some [9, 9], some [3, 4], some [4, 6]]
    ∧ (ReedSolomonRestore sampleErasure sampleOs "dir/out" ["dir/1-2", "dir/3-4", "dir/4-6"]
        corruptFS).1 = .ret none
    ∧ (ReedSolomonRestore sampleErasure sampleOs "dir/out" ["dir/1-2", "dir/3-4", "dir/4-6"]
        corruptFS).2 "dir/out" = none := by
  refine ⟨rfl, rfl, rfl, rfl, rfl, rfl⟩

/-! ## Panics under the deferred recover -/

/-- C4 as amended: every submission operation runs under a deferred recover:
a panic that unwinds the body of SubmitIdleMetadata, CreateBucket, DeleteBucket,
UploadDeclaration, DeleteFile, SubmitFileReport, ReplaceIdleFiles, Register or
Exit is stopped, and the operation returns the zero values of its results: an
empty transaction identifier and a nil error (with a nil list, or with an empty
earnings account).  This is what happens when, with a live session, the call is
built, the signing account is found and the signing step panics, in each of
these operations; `updateAddress` has no recover of its own, its panic unwinds
into `Register`, which returns zero values.  And in DeleteFile,
SubmitFileReport and ReplaceIdleFiles, once the extrinsic is submitted, when
the decoding of the event log of the including block fails and leaves the list
of the expected kind empty, indexing its element 0 panics, the timer is
stopped, the subscription is torn down, and the operation returns an empty
transaction identifier, a nil list and a nil error. -/
theorem panic_recovered_to_zero_values (P : Pattern) (env : Env) (s : St) (pre rest : List Signal)
    (block : Hash) (events : EventRecords) (d : Err)
    (hpre : pre.all Signal.noInclusion = true)
    (hraw : env.GetStorageRaw block = none)
    (hdec : env.DecodeEventRecords block = (some d, events)) :
    (∀ (ρ : Type) (zero : ρ) (body : M ρ Empty) (s1 : St), body s = (.panic, s1) →
        recovered zero body s = (some zero, s1))
    ∧ (∀ teeAcc idlefiles signals s1,
        (SubmitIdleMetadata_submit env teeAcc idlefiles >>= fun _ =>
          withSubscription (selectLoop (fun txhash err => (txhash, err))
            (SubmitIdleMetadata_inBlock env) "" signals)) s = (.panic, s1) →
        SubmitIdleMetadata env teeAcc idlefiles signals s = (some ("", none), s1))
    ∧ (∀ owner_pkey name signals s1,
        (CreateBucket_submit env owner_pkey name >>= fun _ =>
          withSubscription (selectLoop (fun txhash err => (txhash, err))
            (CreateBucket_inBlock P env) "" signals)) s = (.panic, s1) →
        CreateBucket P env owner_pkey name signals s = (some ("", none), s1))
    ∧ (∀ owner_pkey name signals s1,
        (DeleteBucket_submit env owner_pkey name >>= fun _ =>
          withSubscription (selectLoop (fun txhash err => (txhash, err))
            (DeleteBucket_inBlock P env) "" signals)) s = (.panic, s1) →
        DeleteBucket P env owner_pkey name signals s = (some ("", none), s1))
    ∧ (∀ filehash dealinfo user signals s1,
        (UploadDeclaration_submit P env filehash dealinfo user >>= fun _ =>
          withSubscription (selectLoop (fun txhash err => (txhash, err))
            (UploadDeclaration_inBlock P env) "" signals)) s = (.panic, s1) →
        UploadDeclaration P env filehash dealinfo user signals s = (some ("", none), s1))
    ∧ (∀ puk filehash signals s1,
        (DeleteFile_submit P env puk filehash >>= fun hashs =>
          withSubscription (selectLoop (fun txhash err => (txhash, some hashs, err))
            (DeleteFile_inBlock P env hashs) "" signals)) s = (.panic, s1) →
        DeleteFile P env puk filehash signals s = (some ("", none, none), s1))
    ∧ (∀ roothash signals s1,
        (SubmitFileReport_submit env roothash >>= fun _ =>
          withSubscription (selectLoop (fun txhash err => (txhash, none, err))
            (SubmitFileReport_inBlock P env) "" signals)) s = (.panic, s1) →
        SubmitFileReport P env roothash signals s = (some ("", none, none), s1))
    ∧ (∀ roothash signals s1,
        (ReplaceIdleFiles_submit env roothash >>= fun _ =>
          withSubscription (selectLoop (fun txhash err => (txhash, none, err))
            (ReplaceIdleFiles_inBlock P env) "" signals)) s = (.panic, s1) →
        ReplaceIdleFiles P env roothash signals s = (some ("", none, none), s1))
    ∧ (∀ role puk earnings pledge signals s1,
        (Register_submit P env role puk earnings pledge signals >>= fun _ =>
          withSubscription (selectLoop (fun txhash err => (txhash, earnings, err))
            (Register_inBlock P env role earnings) "" signals)) s = (.panic, s1) →
        Register P env role puk earnings pledge signals s = (some ("", "", none), s1))
    ∧ (∀ role signals s1,
        (Exit_submit P env role >>= fun _ =>
          withSubscription (selectLoop (fun txhash err => (txhash, err))
            (Exit_inBlock P env role) "" signals)) s = (.panic, s1) →
        Exit P env role signals s = (some ("", none), s1))
    ∧ (∀ teeAcc idlefiles acc nonce signals, s.chainState = true →
        env.NewAccountID teeAcc = .ok acc →
        env.NewCall .TX_FILEBANK_UPLOADFILLER [.accountID acc, .idleFiles idlefiles] = none →
        env.CreateStorageKey .SYSTEM_ACCOUNT env.PublicKey = none →
        env.GetStorageLatest .SYSTEM_ACCOUNT env.PublicKey = .ok (true, nonce) →
        env.SignPanics ⟨.TX_FILEBANK_UPLOADFILLER, [.accountID acc, .idleFiles idlefiles]⟩ nonce
          = true →
        SubmitIdleMetadata env teeAcc idlefiles signals s
          = (some ("", none), { s with trace := s.trace ++
              [.NewAccountID teeAcc,
                .NewCall .TX_FILEBANK_UPLOADFILLER [.accountID acc, .idleFiles idlefiles],
                .CreateStorageKey .SYSTEM_ACCOUNT env.PublicKey,
                .GetStorageLatest .SYSTEM_ACCOUNT env.PublicKey,
                .Sign ⟨.TX_FILEBANK_UPLOADFILLER, [.accountID acc, .idleFiles idlefiles]⟩ nonce] }))
    ∧ (∀ owner_pkey name acc nonce signals, s.chainState = true →
        env.NewAccountID owner_pkey = .ok acc →
        env.NewCall .TX_FILEBANK_PUTBUCKET [.accountID acc, .bytes name] = none →
        env.CreateStorageKey .SYSTEM_ACCOUNT env.PublicKey = none →
        env.GetStorageLatest .SYSTEM_ACCOUNT env.PublicKey = .ok (true, nonce) →
        env.SignPanics ⟨.TX_FILEBANK_PUTBUCKET, [.accountID acc, .bytes name]⟩ nonce = true →
        CreateBucket P env owner_pkey name signals s
          = (some ("", none), { s with trace := s.trace ++
              [.NewAccountID owner_pkey,
                .NewCall .TX_FILEBANK_PUTBUCKET [.accountID acc, .bytes name],
                .CreateStorageKey .SYSTEM_ACCOUNT env.PublicKey,
                .GetStorageLatest .SYSTEM_ACCOUNT env.PublicKey,
                .Sign ⟨.TX_FILEBANK_PUTBUCKET, [.accountID acc, .bytes name]⟩ nonce] }))
    ∧ (∀ owner_pkey name acc nonce signals, s.chainState = true →
        env.NewAccountID owner_pkey = .ok acc →
        env.NewCall .TX_FILEBANK_DELBUCKET [.accountID acc, .bytes name] = none →
        env.CreateStorageKey .SYSTEM_ACCOUNT env.PublicKey = none →
        env.GetStorageLatest .SYSTEM_ACCOUNT env.PublicKey = .ok (true, nonce) →
        env.SignPanics ⟨.TX_FILEBANK_DELBUCKET, [.accountID acc, .bytes name]⟩ nonce = true →
        DeleteBucket P env owner_pkey name signals s
          = (some ("", none), { s with trace := s.trace ++
              [.NewAccountID owner_pkey,
                .NewCall .TX_FILEBANK_DELBUCKET [.accountID acc, .bytes name],
                .CreateStorageKey .SYSTEM_ACCOUNT env.PublicKey,
                .GetStorageLatest .SYSTEM_ACCOUNT env.PublicKey,
                .Sign ⟨.TX_FILEBANK_DELBUCKET, [.accountID acc, .bytes name]⟩ nonce] }))
    ∧ (∀ filehash dealinfo user nonce signals, s.chainState = true →
        filehash.length = P.FileHashLen →
        env.NewCall .TX_FILEBANK_UPLOADDEC
          [.fileHash filehash, .dealinfo dealinfo, .user user] = none →
        env.CreateStorageKey .SYSTEM_ACCOUNT env.PublicKey = none →
        env.GetStorageLatest .SYSTEM_ACCOUNT env.PublicKey = .ok (true, nonce) →
        env.SignPanics
          ⟨.TX_FILEBANK_UPLOADDEC, [.fileHash filehash, .dealinfo dealinfo, .user user]⟩ nonce
          = true →
        UploadDeclaration P env filehash dealinfo user signals s
          = (some ("", none), { s with trace := s.trace ++
              [.NewCall .TX_FILEBANK_UPLOADDEC [.fileHash filehash, .dealinfo dealinfo, .user user],
                .CreateStorageKey .SYSTEM_ACCOUNT env.PublicKey,
                .GetStorageLatest .SYSTEM_ACCOUNT env.PublicKey,
                .Sign ⟨.TX_FILEBANK_UPLOADDEC,
                  [.fileHash filehash, .dealinfo dealinfo, .user user]⟩ nonce] }))
    ∧ (∀ puk filehash acc nonce signals, s.chainState = true →
        filehash.length = P.FileHashLen →
        env.NewAccountID puk = .ok acc →
        env.NewCall .TX_FILEBANK_DELFILE [.accountID acc, .fileHashes [filehash]] = none →
        env.CreateStorageKey .SYSTEM_ACCOUNT env.PublicKey = none →
        env.GetStorageLatest .SYSTEM_ACCOUNT env.PublicKey = .ok (true, nonce) →
        env.SignPanics ⟨.TX_FILEBANK_DELFILE, [.accountID acc, .fileHashes [filehash]]⟩ nonce
          = true →
        DeleteFile P env puk [filehash] signals s
          = (some ("", none, none), { s with trace := s.trace ++
              [.NewAccountID puk,
                .NewCall .TX_FILEBANK_DELFILE [.accountID acc, .fileHashes [filehash]],
                .CreateStorageKey .SYSTEM_ACCOUNT env.PublicKey,
                .GetStorageLatest .SYSTEM_ACCOUNT env.PublicKey,
                .Sign ⟨.TX_FILEBANK_DELFILE, [.accountID acc, .fileHashes [filehash]]⟩ nonce] }))
    ∧ (∀ roothash nonce signals, s.chainState = true →
        env.NewCall .TX_FILEBANK_FILEREPORT [.fileHashes roothash] = none →
        env.CreateStorageKey .SYSTEM_ACCOUNT env.PublicKey = none →
        env.GetStorageLatest .SYSTEM_ACCOUNT env.PublicKey = .ok (true, nonce) →
        env.SignPanics ⟨.TX_FILEBANK_FILEREPORT, [.fileHashes roothash]⟩ nonce = true →
        SubmitFileReport P env roothash signals s
          = (some ("", none, none), { s with trace := s.trace ++
              [.NewCall .TX_FILEBANK_FILEREPORT [.fileHashes roothash],
                .CreateStorageKey .SYSTEM_ACCOUNT env.PublicKey,
                .GetStorageLatest .SYSTEM_ACCOUNT env.PublicKey,
                .Sign ⟨.TX_FILEBANK_FILEREPORT, [.fileHashes roothash]⟩ nonce] }))
    ∧ (∀ roothash nonce signals, s.chainState = true →
        env.NewCall .TX_FILEBANK_REPLACEFILE [.fileHashes roothash] = none →
        env.CreateStorageKey .SYSTEM_ACCOUNT env.PublicKey = none →
        env.GetStorageLatest .SYSTEM_ACCOUNT env.PublicKey = .ok (true, nonce) →
        env.SignPanics ⟨.TX_FILEBANK_REPLACEFILE, [.fileHashes roothash]⟩ nonce = true →
        ReplaceIdleFiles P env roothash signals s
          = (some ("", none, none), { s with trace := s.trace ++
              [.NewCall .TX_FILEBANK_REPLACEFILE [.fileHashes roothash],
                .CreateStorageKey .SYSTEM_ACCOUNT env.PublicKey,
                .GetStorageLatest .SYSTEM_ACCOUNT env.PublicKey,
                .Sign ⟨.TX_FILEBANK_REPLACEFILE, [.fileHashes roothash]⟩ nonce] }))
    ∧ (∀ role nonce signals, s.chainState = true →
        (isOssRole P role = true ∨ isBucketRole P role = true) →
        env.NewCall (exitTx P role) [] = none →
        env.CreateStorageKey .SYSTEM_ACCOUNT env.PublicKey = none →
        env.GetStorageLatest .SYSTEM_ACCOUNT env.PublicKey = .ok (true, nonce) →
        env.SignPanics ⟨(exitTx P role), []⟩ nonce = true →
        Exit P env role signals s
          = (some ("", none), { s with trace := s.trace ++
              [.NewCall (exitTx P role) [],
                .CreateStorageKey .SYSTEM_ACCOUNT env.PublicKey,
                .GetStorageLatest .SYSTEM_ACCOUNT env.PublicKey,
                .Sign ⟨(exitTx P role), []⟩ nonce] }))
    ∧ (∀ name peerid nonce signals, s.chainState = true →
        (isOssRole P name = true ∨ isBucketRole P name = true) →
        env.NewCall (updateTx P name) [.peerId peerid] = none →
        env.GetStorageLatest .SYSTEM_ACCOUNT env.PublicKey = .ok (true, nonce) →
        env.SignPanics ⟨(updateTx P name), [.peerId peerid]⟩ nonce = true →
        updateAddress P env name peerid signals s
          = (.panic, { s with trace := s.trace ++
              [.NewCall (updateTx P name) [.peerId peerid],
                .GetStorageLatest .SYSTEM_ACCOUNT env.PublicKey,
                .Sign ⟨(updateTx P name), [.peerId peerid]⟩ nonce] }))
    ∧ (∀ role puk earnings pledge e nonce signals, s.chainState = true →
        isOssRole P role = true → puk.length = P.PeerIdLen →
        env.CreateStorageKey .SYSTEM_ACCOUNT env.PublicKey = none →
        env.QueryDeossPeerPublickey env.PublicKey = .error e → e.Error P = P.ERR_Empty →
        env.NewCall .TX_OSS_REGISTER [.peerId puk] = none →
        env.GetStorageLatest .SYSTEM_ACCOUNT env.PublicKey = .ok (true, nonce) →
        env.SignPanics ⟨.TX_OSS_REGISTER, [.peerId puk]⟩ nonce = true →
        Register P env role puk earnings pledge signals s
          = (some ("", "", none), { s with trace := s.trace ++
              [.CreateStorageKey .SYSTEM_ACCOUNT env.PublicKey, .QueryDeossPeerPublickey,
                .NewCall .TX_OSS_REGISTER [.peerId puk],
                .GetStorageLatest .SYSTEM_ACCOUNT env.PublicKey,
                .Sign ⟨.TX_OSS_REGISTER, [.peerId puk]⟩ nonce] }))
    ∧ (∀ role puk earnings pledge id nonce signals, s.chainState = true →
        puk.length = P.PeerIdLen →
        env.CreateStorageKey .SYSTEM_ACCOUNT env.PublicKey = none →
        storedPeerId P env role = some id → id ≠ puk →
        env.NewCall (updateTx P role) [.peerId puk] = none →
        env.GetStorageLatest .SYSTEM_ACCOUNT env.PublicKey = .ok (true, nonce) →
        env.SignPanics ⟨updateTx P role, [.peerId puk]⟩ nonce = true →
        Register P env role puk earnings pledge signals s
          = (some ("", "", none), { s with trace := s.trace ++
              [.CreateStorageKey .SYSTEM_ACCOUNT env.PublicKey, preRead P role,
                .NewCall (updateTx P role) [.peerId puk],
                .GetStorageLatest .SYSTEM_ACCOUNT env.PublicKey,
                .Sign ⟨updateTx P role, [.peerId puk]⟩ nonce] }))
    ∧ (∀ puk filehash hashs s1, DeleteFile_submit P env puk filehash s = (.next hashs, s1) →
        events.FileBank_DeleteFile = [] →
        DeleteFile P env puk filehash (pre ++ inBlock block :: rest) s
          = (some ("", none, none), { s1 with trace := s1.trace ++ (pre.map .Recv ++
              [.Recv (inBlock block), .GetStorageRaw block, .DecodeEventRecords, .TimerStop,
                .Unsubscribe]) }))
    ∧ (∀ roothash s1, SubmitFileReport_submit env roothash s = (.next (), s1) →
        events.FileBank_TransferReport = [] →
        SubmitFileReport P env roothash (pre ++ inBlock block :: rest) s
          = (some ("", none, none), { s1 with trace := s1.trace ++ (pre.map .Recv ++
              [.Recv (inBlock block), .GetStorageRaw block, .DecodeEventRecords, .TimerStop,
                .Unsubscribe]) }))
    ∧ (∀ roothash s1, ReplaceIdleFiles_submit env roothash s = (.next (), s1) →
        events.FileBank_ReplaceFiller = [] →
        ReplaceIdleFiles P env roothash (pre ++ inBlock block :: rest) s
          = (some ("", none, none), { s1 with trace := s1.trace ++ (pre.map .Recv ++
              [.Recv (inBlock block), .GetStorageRaw block, .DecodeEventRecords, .TimerStop,
                .Unsubscribe]) })) := by
  refine ⟨?_, ?_, ?_, ?_, ?_, ?_, ?_, ?_, ?_, ?_, ?_, ?_, ?_, ?_, ?_, ?_, ?_, ?_, ?_, ?_, ?_, ?_,
    ?_, ?_⟩
  · intro ρ zero body s1 h
    simp [recovered, h]
  · intro x0 x1 signals s1 h
    unfold SubmitIdleMetadata
    simp only [recovered, h]
  · intro x0 x1 signals s1 h
    unfold CreateBucket
    simp only [recovered, h]
  · intro x0 x1 signals s1 h
    unfold DeleteBucket
    simp only [recovered, h]
  · intro x0 x1 x2 signals s1 h
    unfold UploadDeclaration
    simp only [recovered, h]
  · intro x0 x1 signals s1 h
    unfold DeleteFile
    simp only [recovered, h]
  · intro x0 signals s1 h
    unfold SubmitFileReport
    simp only [recovered, h]
  · intro x0 signals s1 h
    unfold ReplaceIdleFiles
    simp only [recovered, h]
  · intro x0 x1 x2 x3 signals s1 h
    unfold Register
    simp only [recovered, h]
  · intro x0 signals s1 h
    unfold Exit
    simp only [recovered, h]
  · intro teeAcc idlefiles acc nonce signals hlive hid hcall hkey hacc hpanic
    simp [SubmitIdleMetadata, recovered, SubmitIdleMetadata_submit, bind, M.bind, GetChainState,
      hlive, NewAccountID, NewCall, CreateStorageKey, GetStorageLatest, Sign, perform, orRet,
      check, pure, ret, panic, St.log, hid, hcall, hkey, hacc, hpanic]
  · intro owner_pkey name acc nonce signals hlive hid hcall hkey hacc hpanic
    simp [CreateBucket, recovered, CreateBucket_submit, bind, M.bind, GetChainState, hlive,
      NewAccountID, NewCall, CreateStorageKey, GetStorageLatest, Sign, perform, orRet, check,
      pure, ret, panic, St.log, hid, hcall, hkey, hacc, hpanic]
  · intro owner_pkey name acc nonce signals hlive hid hcall hkey hacc hpanic
    simp [DeleteBucket, recovered, DeleteBucket_submit, bind, M.bind, GetChainState, hlive,
      NewAccountID, NewCall, CreateStorageKey, GetStorageLatest, Sign, perform, orRet, check,
      pure, ret, panic, St.log, hid, hcall, hkey, hacc, hpanic]
  · intro filehash dealinfo user nonce signals hlive hlen hcall hkey hacc hpanic
    simp [UploadDeclaration, recovered, UploadDeclaration_submit, bind, M.bind, GetChainState,
      hlive, NewAccountID, NewCall, CreateStorageKey, GetStorageLatest, Sign, perform, orRet,
      check, pure, ret, panic, St.log, hlen, copyArray_eq _ _ hlen, hcall, hkey, hacc, hpanic]
  · intro puk filehash acc nonce signals hlive hlen hid hcall hkey hacc hpanic
    simp [DeleteFile, recovered, DeleteFile_submit, DeleteFile_fill, bind, M.bind, GetChainState,
      hlive, NewAccountID, NewCall, CreateStorageKey, GetStorageLatest, Sign, perform, orRet,
      check, pure, ret, panic, St.log, hlen, copyArray_eq _ _ hlen, hid, hcall, hkey, hacc,
      hpanic]
  · intro roothash nonce signals hlive hcall hkey hacc hpanic
    simp [SubmitFileReport, recovered, SubmitFileReport_submit, bind, M.bind, GetChainState,
      hlive, NewAccountID, NewCall, CreateStorageKey, GetStorageLatest, Sign, perform, orRet,
      check, pure, ret, panic, St.log, hcall, hkey, hacc, hpanic]
  · intro roothash nonce signals hlive hcall hkey hacc hpanic
    simp [ReplaceIdleFiles, recovered, ReplaceIdleFiles_submit, bind, M.bind, GetChainState,
      hlive, NewAccountID, NewCall, CreateStorageKey, GetStorageLatest, Sign, perform, orRet,
      check, pure, ret, panic, St.log, hcall, hkey, hacc, hpanic]
  · intro role nonce signals hlive hrole hcall hkey hacc hpanic
    by_cases hoss : isOssRole P role = true
    · rw [exitTx, if_pos hoss] at hcall hpanic
      simp [Exit, recovered, Exit_submit, exitTx, bind, M.bind, GetChainState, hlive,
        NewAccountID, NewCall, CreateStorageKey, GetStorageLatest, Sign, perform, orRet, check,
        pure, ret, panic, St.log, hoss, hcall, hkey, hacc, hpanic]
    · have hb : isBucketRole P role = true := hrole.resolve_left hoss
      rw [exitTx, if_neg hoss] at hcall hpanic
      simp [Exit, recovered, Exit_submit, exitTx, bind, M.bind, GetChainState, hlive,
        NewAccountID, NewCall, CreateStorageKey, GetStorageLatest, Sign, perform, orRet, check,
        pure, ret, panic, St.log, hoss, hb, hcall, hkey, hacc, hpanic]
  · intro name peerid nonce signals hlive hrole hcall hacc hpanic
    by_cases hoss : isOssRole P name = true
    · rw [updateTx, if_pos hoss] at hcall hpanic
      simp [updateAddress, updateAddress_submit, updateTx, bind, M.bind, GetChainState, hlive,
        NewAccountID, NewCall, CreateStorageKey, GetStorageLatest, Sign, perform, orRet, check,
        pure, ret, panic, St.log, hoss, hcall, hacc, hpanic]
    · have hb : isBucketRole P name = true := hrole.resolve_left hoss
      rw [updateTx, if_neg hoss] at hcall hpanic
      simp [updateAddress, updateAddress_submit, updateTx, bind, M.bind, GetChainState, hlive,
        NewAccountID, NewCall, CreateStorageKey, GetStorageLatest, Sign, perform, orRet, check,
        pure, ret, panic, St.log, hoss, hb, hcall, hacc, hpanic]
  · intro role puk earnings pledge e nonce signals hlive hoss hlen hkey hq he hcall hacc hpanic
    simp [Register, recovered, Register_submit, Register_switch, bind, M.bind, GetChainState,
      hlive, NewAccountID, NewCall, CreateStorageKey, GetStorageLatest, Sign, perform, orRet,
      check, pure, ret, panic, St.log, hlen, copyArray_eq _ _ hlen, hoss, hq, he, hcall, hkey,
      hacc, hpanic]
  · intro role puk earnings pledge id nonce signals hlive hlen hkey hstored hne hcall hacc hpanic
    have hrole : isOssRole P role = true ∨ isBucketRole P role = true := by
      by_cases hoss : isOssRole P role = true
      · exact Or.inl hoss
      · exact Or.inr (storedPeerId_bucket P env role id (by simpa using hoss) hstored).1
    rw [Register_delegates P env s role puk earnings pledge signals id hlive hlen hkey hstored hne]
    by_cases hoss : isOssRole P role = true
    · rw [updateTx, if_pos hoss] at hcall hpanic
      simp [updateAddress, updateAddress_submit, updateTx, bind, M.bind, GetChainState, hlive,
        NewAccountID, NewCall, CreateStorageKey, GetStorageLatest, Sign, perform, orRet, check,
        pure, ret, panic, St.log, hoss, hcall, hacc, hpanic]
    · have hb : isBucketRole P role = true := hrole.resolve_left hoss
      rw [updateTx, if_neg hoss] at hcall hpanic
      simp [updateAddress, updateAddress_submit, updateTx, bind, M.bind, GetChainState, hlive,
        NewAccountID, NewCall, CreateStorageKey, GetStorageLatest, Sign, perform, orRet, check,
        pure, ret, panic, St.log, hoss, hb, hcall, hacc, hpanic]
  · intro puk filehash hashs s1 hsub habs
    unfold DeleteFile
    rw [recovered_wait_panic _ _ _ _ _ _ _ hsub (selectLoop_inBlock_panic _ _ _ _ _ _ hpre _ _
      (DeleteFile_inBlock_panic P env hashs block events d _ hraw hdec habs))]
    simp
  · intro roothash s1 hsub habs
    unfold SubmitFileReport
    rw [recovered_wait_panic _ _ _ _ _ _ _ hsub (selectLoop_inBlock_panic _ _ _ _ _ _ hpre _ _
      (SubmitFileReport_inBlock_panic P env block events d _ hraw hdec habs))]
    simp
  · intro roothash s1 hsub habs
    unfold ReplaceIdleFiles
    rw [recovered_wait_panic _ _ _ _ _ _ _ hsub (selectLoop_inBlock_panic _ _ _ _ _ _ hpre _ _
      (ReplaceIdleFiles_inBlock_panic P env block events d _ hraw hdec habs))]
    simp

/-- C4 as amended, at a concrete input: on `undecodableEnv` the three
operations return zero values after one pending notification and the
inclusion in block `[9]`; on `panickingEnv` and `panickingGatewayEnv`, where the
signing step panics, every operation returns zero values (`Register` loses the
earnings account it was given) and `updateAddress` panics. -/
theorem panic_recovered_to_zero_values_witness :
    (DeleteFile samplePattern undecodableEnv [1] [sampleHash]
          ([pending] ++ inBlock [9] :: [.timeout]) liveSt).1 = some ("", none, none)
    ∧ (SubmitFileReport samplePattern undecodableEnv [sampleHash]
          ([pending] ++ inBlock [9] :: [.timeout]) liveSt).1 = some ("", none, none)
    ∧ (ReplaceIdleFiles samplePattern undecodableEnv [sampleHash]
          ([pending] ++ inBlock [9] :: [.timeout]) liveSt).1 = some ("", none, none)
    ∧ (SubmitIdleMetadata panickingEnv [1] [] [inBlock [9]] liveSt).1 = some ("", none)
    ∧ (CreateBucket samplePattern panickingEnv [1] [2] [inBlock [9]] liveSt).1 = some ("", none)
    ∧ (DeleteBucket samplePattern panickingEnv [1] [2] [inBlock [9]] liveSt).1 = some ("", none)
    ∧ (UploadDeclaration samplePattern panickingEnv sampleHash 0 0 [inBlock [9]] liveSt).1
        = some ("", none)
    ∧ (DeleteFile samplePattern panickingEnv [1] [sampleHash] [inBlock [9]] liveSt).1
        = some ("", none, none)
    ∧ (SubmitFileReport samplePattern panickingEnv [sampleHash] [inBlock [9]] liveSt).1
        = some ("", none, none)
    ∧ (ReplaceIdleFiles samplePattern panickingEnv [sampleHash] [inBlock [9]] liveSt).1
        = some ("", none, none)
    ∧ (Exit samplePattern panickingEnv "sminer" [inBlock [9]] liveSt).1 = some ("", none)
    ∧ (updateAddress samplePattern panickingEnv "oss" samplePeer [inBlock [9]] liveSt).1 = .panic
    ∧ (Register samplePattern panickingEnv "oss" samplePeer "cXabc" 0 [inBlock [9]] liveSt).1
        = some ("", "", none)
    ∧ (Register samplePattern panickingGatewayEnv "oss" otherPeer "cXabc" 0 [inBlock [9]]
          liveSt).1 = some ("", "", none) := by
  obtain ⟨-, -, -, -, -, -, -, -, -, -, -, -, -, -, -, -, -, -, -, -, -, c1, c2, c3⟩ :=
    panic_recovered_to_zero_values samplePattern undecodableEnv liveSt [pending]
      [.timeout] [9] {} (.new "decode") rfl rfl rfl
  obtain ⟨-, -, -, -, -, -, -, -, -, -, b1, b2, b3, b4, b5, b6, b7, b8, b9, b10, -, -, -, -⟩ :=
    panic_recovered_to_zero_values samplePattern panickingEnv liveSt [pending]
      [.timeout] [9] {} (.new "decode") rfl rfl rfl
  obtain ⟨-, -, -, -, -, -, -, -, -, -, -, -, -, -, -, -, -, -, -, -, b11, -, -, -⟩ :=
    panic_recovered_to_zero_values samplePattern panickingGatewayEnv liveSt [pending]
      [.timeout] [9] {} (.new "decode") rfl rfl rfl
  exact ⟨congrArg Prod.fst (c1 [1] [sampleHash] _ _ rfl rfl),
    congrArg Prod.fst (c2 [sampleHash] _ rfl rfl),
    congrArg Prod.fst (c3 [sampleHash] _ rfl rfl),
    congrArg Prod.fst (b1 [1] [] [1] 7 _ rfl rfl rfl rfl rfl rfl),
    congrArg Prod.fst (b2 [1] [2] [1] 7 _ rfl rfl rfl rfl rfl rfl),
    congrArg Prod.fst (b3 [1] [2] [1] 7 _ rfl rfl rfl rfl rfl rfl),
    congrArg Prod.fst (b4 sampleHash 0 0 7 _ rfl rfl rfl rfl rfl rfl),
    congrArg Prod.fst (b5 [1] sampleHash [1] 7 _ rfl rfl rfl rfl rfl rfl rfl),
    congrArg Prod.fst (b6 [sampleHash] 7 _ rfl rfl rfl rfl rfl),
    congrArg Prod.fst (b7 [sampleHash] 7 _ rfl rfl rfl rfl rfl),
    congrArg Prod.fst (b8 "sminer" 7 _ rfl (Or.inr rfl) rfl rfl rfl rfl),
    congrArg Prod.fst (b9 "oss" samplePeer 7 _ rfl (Or.inl rfl) rfl rfl rfl),
    congrArg Prod.fst (b10 "oss" samplePeer "cXabc" 0 .ERR_RPC_EMPTY_VALUE 7 _ rfl rfl rfl rfl
      rfl rfl rfl rfl rfl),
    congrArg Prod.fst (b11 "oss" otherPeer "cXabc" 0 samplePeer 7 _ rfl rfl rfl rfl
      (by decide) rfl rfl rfl)⟩

end Cess
